import Mathlib

/-!
JellyMusic: name resolution, device sessions and remote playback

A shallow embedding of the resolution and playback logic of
`src/jellyfin-api.js` and `src/skill/movie-intents.js`.

Conventions of the embedding:

* a JavaScript string is a Lean `String`, the sequence of its code points (a
  string without lone surrogates); a property that may be missing
  (`undefined` / `null`) is an `Option`;
* an `async` function that talks to the Jellyfin server receives the replies
  of the server as explicit arguments, in the order in which the code awaits
  them, and returns its result together with the requests it has sent where
  these matter;
* result objects with a string tag (`'ok'`, `'ambiguous'`, ...) are inductive
  types with one constructor for each tag.
-/

namespace JellyMusic

/-! ## String primitives -/

/-- White space as removed by `String.prototype.trim`: the ECMAScript
`WhiteSpace` and `LineTerminator` code points. -/
def jsIsWhiteSpace (c : Char) : Bool :=
  let n := c.toNat
  n == 0x09 || n == 0x0A || n == 0x0B || n == 0x0C || n == 0x0D || n == 0x20 ||
  n == 0xA0 || n == 0x1680 || (0x2000 ≤ n && n ≤ 0x200A) || n == 0x2028 ||
  n == 0x2029 || n == 0x202F || n == 0x205F || n == 0x3000 || n == 0xFEFF

/-- The characters of a string without leading and trailing white space. -/
def trimChars (cs : List Char) : List Char :=
  ((cs.dropWhile jsIsWhiteSpace).reverse.dropWhile jsIsWhiteSpace).reverse

/-- `s.trim()`. -/
def jsTrim (s : String) : String := ⟨trimChars s.data⟩

/-- The simple lower-case mappings of the Unicode Character Database
(`UnicodeData.txt`, version 14.0), in runs ordered by their first code point:
`(first, last, step, image)` stands for the code points `first`,
`first + step`, ... up to `last`, the code point `first + k` having the lower
case `image + k`. -/
def lowerCaseRuns : List (Nat × Nat × Nat × Nat) := [
  (0x41, 0x5A, 1, 0x61), (0xC0, 0xD6, 1, 0xE0), (0xD8, 0xDE, 1, 0xF8), (0x100, 0x12E, 2, 0x101),
  (0x132, 0x136, 2, 0x133), (0x139, 0x147, 2, 0x13A), (0x14A, 0x176, 2, 0x14B),
  (0x178, 0x178, 1, 0xFF), (0x179, 0x17D, 2, 0x17A), (0x181, 0x181, 1, 0x253),
  (0x182, 0x184, 2, 0x183), (0x186, 0x186, 1, 0x254), (0x187, 0x187, 1, 0x188),
  (0x189, 0x18A, 1, 0x256), (0x18B, 0x18B, 1, 0x18C), (0x18E, 0x18E, 1, 0x1DD),
  (0x18F, 0x18F, 1, 0x259), (0x190, 0x190, 1, 0x25B), (0x191, 0x191, 1, 0x192),
  (0x193, 0x193, 1, 0x260), (0x194, 0x194, 1, 0x263), (0x196, 0x196, 1, 0x269),
  (0x197, 0x197, 1, 0x268), (0x198, 0x198, 1, 0x199), (0x19C, 0x19C, 1, 0x26F),
  (0x19D, 0x19D, 1, 0x272), (0x19F, 0x19F, 1, 0x275), (0x1A0, 0x1A4, 2, 0x1A1),
  (0x1A6, 0x1A6, 1, 0x280), (0x1A7, 0x1A7, 1, 0x1A8), (0x1A9, 0x1A9, 1, 0x283),
  (0x1AC, 0x1AC, 1, 0x1AD), (0x1AE, 0x1AE, 1, 0x288), (0x1AF, 0x1AF, 1, 0x1B0),
  (0x1B1, 0x1B2, 1, 0x28A), (0x1B3, 0x1B5, 2, 0x1B4), (0x1B7, 0x1B7, 1, 0x292),
  (0x1B8, 0x1B8, 1, 0x1B9), (0x1BC, 0x1BC, 1, 0x1BD), (0x1C4, 0x1C4, 1, 0x1C6),
  (0x1C5, 0x1C5, 1, 0x1C6), (0x1C7, 0x1C7, 1, 0x1C9), (0x1C8, 0x1C8, 1, 0x1C9),
  (0x1CA, 0x1CA, 1, 0x1CC), (0x1CB, 0x1DB, 2, 0x1CC), (0x1DE, 0x1EE, 2, 0x1DF),
  (0x1F1, 0x1F1, 1, 0x1F3), (0x1F2, 0x1F4, 2, 0x1F3), (0x1F6, 0x1F6, 1, 0x195),
  (0x1F7, 0x1F7, 1, 0x1BF), (0x1F8, 0x21E, 2, 0x1F9), (0x220, 0x220, 1, 0x19E),
  (0x222, 0x232, 2, 0x223), (0x23A, 0x23A, 1, 0x2C65), (0x23B, 0x23B, 1, 0x23C),
  (0x23D, 0x23D, 1, 0x19A), (0x23E, 0x23E, 1, 0x2C66), (0x241, 0x241, 1, 0x242),
  (0x243, 0x243, 1, 0x180), (0x244, 0x244, 1, 0x289), (0x245, 0x245, 1, 0x28C),
  (0x246, 0x24E, 2, 0x247), (0x370, 0x372, 2, 0x371), (0x376, 0x376, 1, 0x377),
  (0x37F, 0x37F, 1, 0x3F3), (0x386, 0x386, 1, 0x3AC), (0x388, 0x38A, 1, 0x3AD),
  (0x38C, 0x38C, 1, 0x3CC), (0x38E, 0x38F, 1, 0x3CD), (0x391, 0x3A1, 1, 0x3B1),
  (0x3A3, 0x3AB, 1, 0x3C3), (0x3CF, 0x3CF, 1, 0x3D7), (0x3D8, 0x3EE, 2, 0x3D9),
  (0x3F4, 0x3F4, 1, 0x3B8), (0x3F7, 0x3F7, 1, 0x3F8), (0x3F9, 0x3F9, 1, 0x3F2),
  (0x3FA, 0x3FA, 1, 0x3FB), (0x3FD, 0x3FF, 1, 0x37B), (0x400, 0x40F, 1, 0x450),
  (0x410, 0x42F, 1, 0x430), (0x460, 0x480, 2, 0x461), (0x48A, 0x4BE, 2, 0x48B),
  (0x4C0, 0x4C0, 1, 0x4CF), (0x4C1, 0x4CD, 2, 0x4C2), (0x4D0, 0x52E, 2, 0x4D1),
  (0x531, 0x556, 1, 0x561), (0x10A0, 0x10C5, 1, 0x2D00), (0x10C7, 0x10C7, 1, 0x2D27),
  (0x10CD, 0x10CD, 1, 0x2D2D), (0x13A0, 0x13EF, 1, 0xAB70), (0x13F0, 0x13F5, 1, 0x13F8),
  (0x1C90, 0x1CBA, 1, 0x10D0), (0x1CBD, 0x1CBF, 1, 0x10FD), (0x1E00, 0x1E94, 2, 0x1E01),
  (0x1E9E, 0x1E9E, 1, 0xDF), (0x1EA0, 0x1EFE, 2, 0x1EA1), (0x1F08, 0x1F0F, 1, 0x1F00),
  (0x1F18, 0x1F1D, 1, 0x1F10), (0x1F28, 0x1F2F, 1, 0x1F20), (0x1F38, 0x1F3F, 1, 0x1F30),
  (0x1F48, 0x1F4D, 1, 0x1F40), (0x1F59, 0x1F5F, 2, 0x1F51), (0x1F68, 0x1F6F, 1, 0x1F60),
  (0x1F88, 0x1F8F, 1, 0x1F80), (0x1F98, 0x1F9F, 1, 0x1F90), (0x1FA8, 0x1FAF, 1, 0x1FA0),
  (0x1FB8, 0x1FB9, 1, 0x1FB0), (0x1FBA, 0x1FBB, 1, 0x1F70), (0x1FBC, 0x1FBC, 1, 0x1FB3),
  (0x1FC8, 0x1FCB, 1, 0x1F72), (0x1FCC, 0x1FCC, 1, 0x1FC3), (0x1FD8, 0x1FD9, 1, 0x1FD0),
  (0x1FDA, 0x1FDB, 1, 0x1F76), (0x1FE8, 0x1FE9, 1, 0x1FE0), (0x1FEA, 0x1FEB, 1, 0x1F7A),
  (0x1FEC, 0x1FEC, 1, 0x1FE5), (0x1FF8, 0x1FF9, 1, 0x1F78), (0x1FFA, 0x1FFB, 1, 0x1F7C),
  (0x1FFC, 0x1FFC, 1, 0x1FF3), (0x2126, 0x2126, 1, 0x3C9), (0x212A, 0x212A, 1, 0x6B),
  (0x212B, 0x212B, 1, 0xE5), (0x2132, 0x2132, 1, 0x214E), (0x2160, 0x216F, 1, 0x2170),
  (0x2183, 0x2183, 1, 0x2184), (0x24B6, 0x24CF, 1, 0x24D0), (0x2C00, 0x2C2F, 1, 0x2C30),
  (0x2C60, 0x2C60, 1, 0x2C61), (0x2C62, 0x2C62, 1, 0x26B), (0x2C63, 0x2C63, 1, 0x1D7D),
  (0x2C64, 0x2C64, 1, 0x27D), (0x2C67, 0x2C6B, 2, 0x2C68), (0x2C6D, 0x2C6D, 1, 0x251),
  (0x2C6E, 0x2C6E, 1, 0x271), (0x2C6F, 0x2C6F, 1, 0x250), (0x2C70, 0x2C70, 1, 0x252),
  (0x2C72, 0x2C72, 1, 0x2C73), (0x2C75, 0x2C75, 1, 0x2C76), (0x2C7E, 0x2C7F, 1, 0x23F),
  (0x2C80, 0x2CE2, 2, 0x2C81), (0x2CEB, 0x2CED, 2, 0x2CEC), (0x2CF2, 0x2CF2, 1, 0x2CF3),
  (0xA640, 0xA66C, 2, 0xA641), (0xA680, 0xA69A, 2, 0xA681), (0xA722, 0xA72E, 2, 0xA723),
  (0xA732, 0xA76E, 2, 0xA733), (0xA779, 0xA77B, 2, 0xA77A), (0xA77D, 0xA77D, 1, 0x1D79),
  (0xA77E, 0xA786, 2, 0xA77F), (0xA78B, 0xA78B, 1, 0xA78C), (0xA78D, 0xA78D, 1, 0x265),
  (0xA790, 0xA792, 2, 0xA791), (0xA796, 0xA7A8, 2, 0xA797), (0xA7AA, 0xA7AA, 1, 0x266),
  (0xA7AB, 0xA7AB, 1, 0x25C), (0xA7AC, 0xA7AC, 1, 0x261), (0xA7AD, 0xA7AD, 1, 0x26C),
  (0xA7AE, 0xA7AE, 1, 0x26A), (0xA7B0, 0xA7B0, 1, 0x29E), (0xA7B1, 0xA7B1, 1, 0x287),
  (0xA7B2, 0xA7B2, 1, 0x29D), (0xA7B3, 0xA7B3, 1, 0xAB53), (0xA7B4, 0xA7C2, 2, 0xA7B5),
  (0xA7C4, 0xA7C4, 1, 0xA794), (0xA7C5, 0xA7C5, 1, 0x282), (0xA7C6, 0xA7C6, 1, 0x1D8E),
  (0xA7C7, 0xA7C9, 2, 0xA7C8), (0xA7D0, 0xA7D0, 1, 0xA7D1), (0xA7D6, 0xA7D8, 2, 0xA7D7),
  (0xA7F5, 0xA7F5, 1, 0xA7F6), (0xFF21, 0xFF3A, 1, 0xFF41), (0x10400, 0x10427, 1, 0x10428),
  (0x104B0, 0x104D3, 1, 0x104D8), (0x10570, 0x1057A, 1, 0x10597), (0x1057C, 0x1058A, 1, 0x105A3),
  (0x1058C, 0x10592, 1, 0x105B3), (0x10594, 0x10595, 1, 0x105BB), (0x10C80, 0x10CB2, 1, 0x10CC0),
  (0x118A0, 0x118BF, 1, 0x118C0), (0x16E40, 0x16E5F, 1, 0x16E60), (0x1E900, 0x1E921, 1, 0x1E922)]

/-- The code points with the property `Case_Ignorable`, in ranges
`(first, last)` ordered by their first code point. -/
def caseIgnorableRanges : List (Nat × Nat) := [
  (0x27, 0x27), (0x2E, 0x2E), (0x3A, 0x3A), (0x5E, 0x5E), (0x60, 0x60), (0xA8, 0xA8),
  (0xAD, 0xAD), (0xAF, 0xAF), (0xB4, 0xB4), (0xB7, 0xB8), (0x2B0, 0x36F), (0x374, 0x375),
  (0x37A, 0x37A), (0x384, 0x385), (0x387, 0x387), (0x483, 0x489), (0x559, 0x559), (0x55F, 0x55F),
  (0x591, 0x5BD), (0x5BF, 0x5BF), (0x5C1, 0x5C2), (0x5C4, 0x5C5), (0x5C7, 0x5C7), (0x5F4, 0x5F4),
  (0x600, 0x605), (0x610, 0x61A), (0x61C, 0x61C), (0x640, 0x640), (0x64B, 0x65F), (0x670, 0x670),
  (0x6D6, 0x6DD), (0x6DF, 0x6E8), (0x6EA, 0x6ED), (0x70F, 0x70F), (0x711, 0x711), (0x730, 0x74A),
  (0x7A6, 0x7B0), (0x7EB, 0x7F5), (0x7FA, 0x7FA), (0x7FD, 0x7FD), (0x816, 0x82D), (0x859, 0x85B),
  (0x888, 0x888), (0x890, 0x891), (0x898, 0x89F), (0x8C9, 0x902), (0x93A, 0x93A), (0x93C, 0x93C),
  (0x941, 0x948), (0x94D, 0x94D), (0x951, 0x957), (0x962, 0x963), (0x971, 0x971), (0x981, 0x981),
  (0x9BC, 0x9BC), (0x9C1, 0x9C4), (0x9CD, 0x9CD), (0x9E2, 0x9E3), (0x9FE, 0x9FE), (0xA01, 0xA02),
  (0xA3C, 0xA3C), (0xA41, 0xA42), (0xA47, 0xA48), (0xA4B, 0xA4D), (0xA51, 0xA51), (0xA70, 0xA71),
  (0xA75, 0xA75), (0xA81, 0xA82), (0xABC, 0xABC), (0xAC1, 0xAC5), (0xAC7, 0xAC8), (0xACD, 0xACD),
  (0xAE2, 0xAE3), (0xAFA, 0xAFF), (0xB01, 0xB01), (0xB3C, 0xB3C), (0xB3F, 0xB3F), (0xB41, 0xB44),
  (0xB4D, 0xB4D), (0xB55, 0xB56), (0xB62, 0xB63), (0xB82, 0xB82), (0xBC0, 0xBC0), (0xBCD, 0xBCD),
  (0xC00, 0xC00), (0xC04, 0xC04), (0xC3C, 0xC3C), (0xC3E, 0xC40), (0xC46, 0xC48), (0xC4A, 0xC4D),
  (0xC55, 0xC56), (0xC62, 0xC63), (0xC81, 0xC81), (0xCBC, 0xCBC), (0xCBF, 0xCBF), (0xCC6, 0xCC6),
  (0xCCC, 0xCCD), (0xCE2, 0xCE3), (0xD00, 0xD01), (0xD3B, 0xD3C), (0xD41, 0xD44), (0xD4D, 0xD4D),
  (0xD62, 0xD63), (0xD81, 0xD81), (0xDCA, 0xDCA), (0xDD2, 0xDD4), (0xDD6, 0xDD6), (0xE31, 0xE31),
  (0xE34, 0xE3A), (0xE46, 0xE4E), (0xEB1, 0xEB1), (0xEB4, 0xEBC), (0xEC6, 0xEC6), (0xEC8, 0xECD),
  (0xF18, 0xF19), (0xF35, 0xF35), (0xF37, 0xF37), (0xF39, 0xF39), (0xF71, 0xF7E), (0xF80, 0xF84),
  (0xF86, 0xF87), (0xF8D, 0xF97), (0xF99, 0xFBC), (0xFC6, 0xFC6), (0x102D, 0x1030),
  (0x1032, 0x1037), (0x1039, 0x103A), (0x103D, 0x103E), (0x1058, 0x1059), (0x105E, 0x1060),
  (0x1071, 0x1074), (0x1082, 0x1082), (0x1085, 0x1086), (0x108D, 0x108D), (0x109D, 0x109D),
  (0x10FC, 0x10FC), (0x135D, 0x135F), (0x1712, 0x1714), (0x1732, 0x1733), (0x1752, 0x1753),
  (0x1772, 0x1773), (0x17B4, 0x17B5), (0x17B7, 0x17BD), (0x17C6, 0x17C6), (0x17C9, 0x17D3),
  (0x17D7, 0x17D7), (0x17DD, 0x17DD), (0x180B, 0x180F), (0x1843, 0x1843), (0x1885, 0x1886),
  (0x18A9, 0x18A9), (0x1920, 0x1922), (0x1927, 0x1928), (0x1932, 0x1932), (0x1939, 0x193B),
  (0x1A17, 0x1A18), (0x1A1B, 0x1A1B), (0x1A56, 0x1A56), (0x1A58, 0x1A5E), (0x1A60, 0x1A60),
  (0x1A62, 0x1A62), (0x1A65, 0x1A6C), (0x1A73, 0x1A7C), (0x1A7F, 0x1A7F), (0x1AA7, 0x1AA7),
  (0x1AB0, 0x1ACE), (0x1B00, 0x1B03), (0x1B34, 0x1B34), (0x1B36, 0x1B3A), (0x1B3C, 0x1B3C),
  (0x1B42, 0x1B42), (0x1B6B, 0x1B73), (0x1B80, 0x1B81), (0x1BA2, 0x1BA5), (0x1BA8, 0x1BA9),
  (0x1BAB, 0x1BAD), (0x1BE6, 0x1BE6), (0x1BE8, 0x1BE9), (0x1BED, 0x1BED), (0x1BEF, 0x1BF1),
  (0x1C2C, 0x1C33), (0x1C36, 0x1C37), (0x1C78, 0x1C7D), (0x1CD0, 0x1CD2), (0x1CD4, 0x1CE0),
  (0x1CE2, 0x1CE8), (0x1CED, 0x1CED), (0x1CF4, 0x1CF4), (0x1CF8, 0x1CF9), (0x1D2C, 0x1D6A),
  (0x1D78, 0x1D78), (0x1D9B, 0x1DFF), (0x1FBD, 0x1FBD), (0x1FBF, 0x1FC1), (0x1FCD, 0x1FCF),
  (0x1FDD, 0x1FDF), (0x1FED, 0x1FEF), (0x1FFD, 0x1FFE), (0x200B, 0x200F), (0x2018, 0x2019),
  (0x2024, 0x2024), (0x2027, 0x2027), (0x202A, 0x202E), (0x2060, 0x2064), (0x2066, 0x206F),
  (0x2071, 0x2071), (0x207F, 0x207F), (0x2090, 0x209C), (0x20D0, 0x20F0), (0x2C7C, 0x2C7D),
  (0x2CEF, 0x2CF1), (0x2D6F, 0x2D6F), (0x2D7F, 0x2D7F), (0x2DE0, 0x2DFF), (0x2E2F, 0x2E2F),
  (0x3005, 0x3005), (0x302A, 0x302D), (0x3031, 0x3035), (0x303B, 0x303B), (0x3099, 0x309E),
  (0x30FC, 0x30FE), (0xA015, 0xA015), (0xA4F8, 0xA4FD), (0xA60C, 0xA60C), (0xA66F, 0xA672),
  (0xA674, 0xA67D), (0xA67F, 0xA67F), (0xA69C, 0xA69F), (0xA6F0, 0xA6F1), (0xA700, 0xA721),
  (0xA770, 0xA770), (0xA788, 0xA78A), (0xA7F2, 0xA7F4), (0xA7F8, 0xA7F9), (0xA802, 0xA802),
  (0xA806, 0xA806), (0xA80B, 0xA80B), (0xA825, 0xA826), (0xA82C, 0xA82C), (0xA8C4, 0xA8C5),
  (0xA8E0, 0xA8F1), (0xA8FF, 0xA8FF), (0xA926, 0xA92D), (0xA947, 0xA951), (0xA980, 0xA982),
  (0xA9B3, 0xA9B3), (0xA9B6, 0xA9B9), (0xA9BC, 0xA9BD), (0xA9CF, 0xA9CF), (0xA9E5, 0xA9E6),
  (0xAA29, 0xAA2E), (0xAA31, 0xAA32), (0xAA35, 0xAA36), (0xAA43, 0xAA43), (0xAA4C, 0xAA4C),
  (0xAA70, 0xAA70), (0xAA7C, 0xAA7C), (0xAAB0, 0xAAB0), (0xAAB2, 0xAAB4), (0xAAB7, 0xAAB8),
  (0xAABE, 0xAABF), (0xAAC1, 0xAAC1), (0xAADD, 0xAADD), (0xAAEC, 0xAAED), (0xAAF3, 0xAAF4),
  (0xAAF6, 0xAAF6), (0xAB5B, 0xAB5F), (0xAB69, 0xAB6B), (0xABE5, 0xABE5), (0xABE8, 0xABE8),
  (0xABED, 0xABED), (0xFB1E, 0xFB1E), (0xFBB2, 0xFBC2), (0xFE00, 0xFE0F), (0xFE13, 0xFE13),
  (0xFE20, 0xFE2F), (0xFE52, 0xFE52), (0xFE55, 0xFE55), (0xFEFF, 0xFEFF), (0xFF07, 0xFF07),
  (0xFF0E, 0xFF0E), (0xFF1A, 0xFF1A), (0xFF3E, 0xFF3E), (0xFF40, 0xFF40), (0xFF70, 0xFF70),
  (0xFF9E, 0xFF9F), (0xFFE3, 0xFFE3), (0xFFF9, 0xFFFB), (0x101FD, 0x101FD), (0x102E0, 0x102E0),
  (0x10376, 0x1037A), (0x10780, 0x10785), (0x10787, 0x107B0), (0x107B2, 0x107BA),
  (0x10A01, 0x10A03), (0x10A05, 0x10A06), (0x10A0C, 0x10A0F), (0x10A38, 0x10A3A),
  (0x10A3F, 0x10A3F), (0x10AE5, 0x10AE6), (0x10D24, 0x10D27), (0x10EAB, 0x10EAC),
  (0x10F46, 0x10F50), (0x10F82, 0x10F85), (0x11001, 0x11001), (0x11038, 0x11046),
  (0x11070, 0x11070), (0x11073, 0x11074), (0x1107F, 0x11081), (0x110B3, 0x110B6),
  (0x110B9, 0x110BA), (0x110BD, 0x110BD), (0x110C2, 0x110C2), (0x110CD, 0x110CD),
  (0x11100, 0x11102), (0x11127, 0x1112B), (0x1112D, 0x11134), (0x11173, 0x11173),
  (0x11180, 0x11181), (0x111B6, 0x111BE), (0x111C9, 0x111CC), (0x111CF, 0x111CF),
  (0x1122F, 0x11231), (0x11234, 0x11234), (0x11236, 0x11237), (0x1123E, 0x1123E),
  (0x112DF, 0x112DF), (0x112E3, 0x112EA), (0x11300, 0x11301), (0x1133B, 0x1133C),
  (0x11340, 0x11340), (0x11366, 0x1136C), (0x11370, 0x11374), (0x11438, 0x1143F),
  (0x11442, 0x11444), (0x11446, 0x11446), (0x1145E, 0x1145E), (0x114B3, 0x114B8),
  (0x114BA, 0x114BA), (0x114BF, 0x114C0), (0x114C2, 0x114C3), (0x115B2, 0x115B5),
  (0x115BC, 0x115BD), (0x115BF, 0x115C0), (0x115DC, 0x115DD), (0x11633, 0x1163A),
  (0x1163D, 0x1163D), (0x1163F, 0x11640), (0x116AB, 0x116AB), (0x116AD, 0x116AD),
  (0x116B0, 0x116B5), (0x116B7, 0x116B7), (0x1171D, 0x1171F), (0x11722, 0x11725),
  (0x11727, 0x1172B), (0x1182F, 0x11837), (0x11839, 0x1183A), (0x1193B, 0x1193C),
  (0x1193E, 0x1193E), (0x11943, 0x11943), (0x119D4, 0x119D7), (0x119DA, 0x119DB),
  (0x119E0, 0x119E0), (0x11A01, 0x11A0A), (0x11A33, 0x11A38), (0x11A3B, 0x11A3E),
  (0x11A47, 0x11A47), (0x11A51, 0x11A56), (0x11A59, 0x11A5B), (0x11A8A, 0x11A96),
  (0x11A98, 0x11A99), (0x11C30, 0x11C36), (0x11C38, 0x11C3D), (0x11C3F, 0x11C3F),
  (0x11C92, 0x11CA7), (0x11CAA, 0x11CB0), (0x11CB2, 0x11CB3), (0x11CB5, 0x11CB6),
  (0x11D31, 0x11D36), (0x11D3A, 0x11D3A), (0x11D3C, 0x11D3D), (0x11D3F, 0x11D45),
  (0x11D47, 0x11D47), (0x11D90, 0x11D91), (0x11D95, 0x11D95), (0x11D97, 0x11D97),
  (0x11EF3, 0x11EF4), (0x13430, 0x13438), (0x16AF0, 0x16AF4), (0x16B30, 0x16B36),
  (0x16B40, 0x16B43), (0x16F4F, 0x16F4F), (0x16F8F, 0x16F9F), (0x16FE0, 0x16FE1),
  (0x16FE3, 0x16FE4), (0x1AFF0, 0x1AFF3), (0x1AFF5, 0x1AFFB), (0x1AFFD, 0x1AFFE),
  (0x1BC9D, 0x1BC9E), (0x1BCA0, 0x1BCA3), (0x1CF00, 0x1CF2D), (0x1CF30, 0x1CF46),
  (0x1D167, 0x1D169), (0x1D173, 0x1D182), (0x1D185, 0x1D18B), (0x1D1AA, 0x1D1AD),
  (0x1D242, 0x1D244), (0x1DA00, 0x1DA36), (0x1DA3B, 0x1DA6C), (0x1DA75, 0x1DA75),
  (0x1DA84, 0x1DA84), (0x1DA9B, 0x1DA9F), (0x1DAA1, 0x1DAAF), (0x1E000, 0x1E006),
  (0x1E008, 0x1E018), (0x1E01B, 0x1E021), (0x1E023, 0x1E024), (0x1E026, 0x1E02A),
  (0x1E130, 0x1E13D), (0x1E2AE, 0x1E2AE), (0x1E2EC, 0x1E2EF), (0x1E8D0, 0x1E8D6),
  (0x1E944, 0x1E94B), (0x1F3FB, 0x1F3FF), (0xE0001, 0xE0001), (0xE0020, 0xE007F),
  (0xE0100, 0xE01EF)]

/-- The code points with the property `Cased`, in ranges `(first, last)`
ordered by their first code point. -/
def casedRanges : List (Nat × Nat) := [
  (0x41, 0x5A), (0x61, 0x7A), (0xAA, 0xAA), (0xB5, 0xB5), (0xBA, 0xBA), (0xC0, 0xD6),
  (0xD8, 0xF6), (0xF8, 0x1BA), (0x1BC, 0x1BF), (0x1C4, 0x293), (0x295, 0x2B8), (0x2C0, 0x2C1),
  (0x2E0, 0x2E4), (0x345, 0x345), (0x370, 0x373), (0x376, 0x377), (0x37A, 0x37D), (0x37F, 0x37F),
  (0x386, 0x386), (0x388, 0x38A), (0x38C, 0x38C), (0x38E, 0x3A1), (0x3A3, 0x3F5), (0x3F7, 0x481),
  (0x48A, 0x52F), (0x531, 0x556), (0x560, 0x588), (0x10A0, 0x10C5), (0x10C7, 0x10C7),
  (0x10CD, 0x10CD), (0x10D0, 0x10FA), (0x10FD, 0x10FF), (0x13A0, 0x13F5), (0x13F8, 0x13FD),
  (0x1C80, 0x1C88), (0x1C90, 0x1CBA), (0x1CBD, 0x1CBF), (0x1D00, 0x1DBF), (0x1E00, 0x1F15),
  (0x1F18, 0x1F1D), (0x1F20, 0x1F45), (0x1F48, 0x1F4D), (0x1F50, 0x1F57), (0x1F59, 0x1F59),
  (0x1F5B, 0x1F5B), (0x1F5D, 0x1F5D), (0x1F5F, 0x1F7D), (0x1F80, 0x1FB4), (0x1FB6, 0x1FBC),
  (0x1FBE, 0x1FBE), (0x1FC2, 0x1FC4), (0x1FC6, 0x1FCC), (0x1FD0, 0x1FD3), (0x1FD6, 0x1FDB),
  (0x1FE0, 0x1FEC), (0x1FF2, 0x1FF4), (0x1FF6, 0x1FFC), (0x2071, 0x2071), (0x207F, 0x207F),
  (0x2090, 0x209C), (0x2102, 0x2102), (0x2107, 0x2107), (0x210A, 0x2113), (0x2115, 0x2115),
  (0x2119, 0x211D), (0x2124, 0x2124), (0x2126, 0x2126), (0x2128, 0x2128), (0x212A, 0x212D),
  (0x212F, 0x2134), (0x2139, 0x2139), (0x213C, 0x213F), (0x2145, 0x2149), (0x214E, 0x214E),
  (0x2160, 0x217F), (0x2183, 0x2184), (0x24B6, 0x24E9), (0x2C00, 0x2CE4), (0x2CEB, 0x2CEE),
  (0x2CF2, 0x2CF3), (0x2D00, 0x2D25), (0x2D27, 0x2D27), (0x2D2D, 0x2D2D), (0xA640, 0xA66D),
  (0xA680, 0xA69D), (0xA722, 0xA787), (0xA78B, 0xA78E), (0xA790, 0xA7CA), (0xA7D0, 0xA7D1),
  (0xA7D3, 0xA7D3), (0xA7D5, 0xA7D9), (0xA7F5, 0xA7F6), (0xA7F8, 0xA7FA), (0xAB30, 0xAB5A),
  (0xAB5C, 0xAB68), (0xAB70, 0xABBF), (0xFB00, 0xFB06), (0xFB13, 0xFB17), (0xFF21, 0xFF3A),
  (0xFF41, 0xFF5A), (0x10400, 0x1044F), (0x104B0, 0x104D3), (0x104D8, 0x104FB),
  (0x10570, 0x1057A), (0x1057C, 0x1058A), (0x1058C, 0x10592), (0x10594, 0x10595),
  (0x10597, 0x105A1), (0x105A3, 0x105B1), (0x105B3, 0x105B9), (0x105BB, 0x105BC),
  (0x10780, 0x10780), (0x10783, 0x10785), (0x10787, 0x107B0), (0x107B2, 0x107BA),
  (0x10C80, 0x10CB2), (0x10CC0, 0x10CF2), (0x118A0, 0x118DF), (0x16E40, 0x16E7F),
  (0x1D400, 0x1D454), (0x1D456, 0x1D49C), (0x1D49E, 0x1D49F), (0x1D4A2, 0x1D4A2),
  (0x1D4A5, 0x1D4A6), (0x1D4A9, 0x1D4AC), (0x1D4AE, 0x1D4B9), (0x1D4BB, 0x1D4BB),
  (0x1D4BD, 0x1D4C3), (0x1D4C5, 0x1D505), (0x1D507, 0x1D50A), (0x1D50D, 0x1D514),
  (0x1D516, 0x1D51C), (0x1D51E, 0x1D539), (0x1D53B, 0x1D53E), (0x1D540, 0x1D544),
  (0x1D546, 0x1D546), (0x1D54A, 0x1D550), (0x1D552, 0x1D6A5), (0x1D6A8, 0x1D6C0),
  (0x1D6C2, 0x1D6DA), (0x1D6DC, 0x1D6FA), (0x1D6FC, 0x1D714), (0x1D716, 0x1D734),
  (0x1D736, 0x1D74E), (0x1D750, 0x1D76E), (0x1D770, 0x1D788), (0x1D78A, 0x1D7A8),
  (0x1D7AA, 0x1D7C2), (0x1D7C4, 0x1D7CB), (0x1DF00, 0x1DF09), (0x1DF0B, 0x1DF1E),
  (0x1E900, 0x1E943), (0x1F130, 0x1F149), (0x1F150, 0x1F169), (0x1F170, 0x1F189)]

/-- Membership of a code point in a list of ranges ordered by their first
code point. -/
def inRanges (n : Nat) : List (Nat × Nat) → Bool
  | [] => false
  | (first, last) :: rest => if n < first then false else n ≤ last || inRanges n rest

/-- The simple lower case of a code point, looked up in runs ordered by their
first code point; a code point without a mapping is its own lower case. -/
def lowerCodePoint (n : Nat) : List (Nat × Nat × Nat × Nat) → Nat
  | [] => n
  | (first, last, step, image) :: rest =>
    if n < first then n
    else if n ≤ last && (n - first) % step == 0 then image + (n - first)
    else lowerCodePoint n rest

/-- Whether the nearest code point that is not case-ignorable exists and is
cased. -/
def casedLetterNext : List Char → Bool
  | [] => false
  | c :: cs =>
    if inRanges c.toNat caseIgnorableRanges then casedLetterNext cs
    else inRanges c.toNat casedRanges

/-- The lower case of the characters `cs` that follow the characters
`before`, which are given from the last one to the first one. The mappings
are those of the Unicode default case conversion: the simple mappings, the
mapping of U+0130 to U+0069 U+0307, and the mapping of the capital sigma
U+03A3 to the final sigma U+03C2 when it follows a cased letter and no cased
letter follows it, case-ignorable code points being skipped on both sides. -/
def lowerChars (before : List Char) : List Char → List Char
  | [] => []
  | c :: cs =>
    (if c.toNat == 0x3A3 then
      [if casedLetterNext before && !casedLetterNext cs then Char.ofNat 0x3C2
        else Char.ofNat 0x3C3]
    else if c.toNat == 0x130 then [Char.ofNat 0x69, Char.ofNat 0x307]
    else [Char.ofNat (lowerCodePoint c.toNat lowerCaseRuns)]) ++ lowerChars (c :: before) cs

/-- `s.toLowerCase()`: the locale-insensitive lower case of every code point
of the string. -/
def jsToLowerCase (s : String) : String := ⟨lowerChars [] s.data⟩

/-- `s.startsWith(key)`. -/
def jsStartsWith (s key : String) : Bool := key.data.isPrefixOf s.data

/-- Whether `key` occurs in `cs` at some position. -/
def includesChars (key : List Char) : List Char → Bool
  | [] => key.isPrefixOf []
  | c :: cs => key.isPrefixOf (c :: cs) || includesChars key cs

/-- `s.includes(key)`. -/
def jsIncludes (s key : String) : Bool := includesChars key.data s.data

/-- Truthiness of a value that is a string or missing: `undefined`, `null`
and `''` are falsy. -/
def truthy (v : Option String) : Bool :=
  match v with
  | none => false
  | some s => s != ""

/-- The JavaScript expression `a || b` on values that are strings or missing. -/
def jsOr (a b : Option String) : Option String := if truthy a then a else b

/-- `norm = s => String(s || '').trim().toLowerCase()`. -/
def norm (s : Option String) : String :=
  jsToLowerCase (jsTrim ((jsOr s (some "")).getD ""))

/-- `String(name).trim().toLowerCase()`, the key computed by the callers from
the text of the request. -/
def normKey (name : String) : String := jsToLowerCase (jsTrim name)

/-! ## Catalog items -/

/-- The `Series` object of an episode. -/
structure SeriesRef where
  Id : Option String := none
  deriving DecidableEq, Repr

/-- The `UserData` object of an item; the flags are read for their truthiness. -/
structure UserData where
  Played : Bool := false
  NextUp : Bool := false
  deriving DecidableEq, Repr

/-- A catalog entity as returned by the server (`/Items`); the numbers are
whole numbers, `none` when the property is missing. -/
structure Item where
  Id : Option String := none
  Name : Option String := none
  ParentIndexNumber : Option Int := none
  IndexNumber : Option Int := none
  SeriesId : Option String := none
  ParentId : Option String := none
  Series : Option SeriesRef := none
  UserData : Option UserData := none
  deriving DecidableEq, Repr

/-- Ranking exact > startsWith > includes > first (`_resolveItemsByName`).
Each `for ... of` loop with `break` is the search of the first element. -/
def _resolveItemsByName (items : List Item) (key : String) : Option Item :=
  if items.isEmpty then none
  else
    -- exact
    let selected := items.find? fun it => norm it.Name == key
    -- startsWith
    let selected :=
      if selected.isNone then items.find? fun it => jsStartsWith (norm it.Name) key
      else selected
    -- includes
    let selected :=
      if selected.isNone then items.find? fun it => jsIncludes (norm it.Name) key
      else selected
    -- fallback
    let selected := if selected.isNone then items.head? else selected
    selected

/-! ## Sessions -/

/-- The `Device` object of a session. -/
structure DeviceInfo where
  Name : Option String := none
  deriving DecidableEq, Repr

/-- The `User` object of a session. -/
structure UserInfo where
  Id : Option String := none
  deriving DecidableEq, Repr

/-- A playback session as returned by `GET /Sessions`; only the properties
read by the code. `IsActive` and `SupportsRemoteControl` are read for their
truthiness, `PlayableMediaTypes` is `some` when it is an array. -/
structure Session where
  Id : Option String := none
  DeviceName : Option String := none
  Device : Option DeviceInfo := none
  Name : Option String := none
  UserId : Option String := none
  User : Option UserInfo := none
  IsActive : Bool := false
  SupportsRemoteControl : Bool := false
  PlayableMediaTypes : Option (List String) := none
  NowPlayingItem : Option Item := none
  deriving DecidableEq, Repr

/-- What the `fetch` of `GET /Sessions` yields inside `Sessions`. -/
inductive SessionsReply where
  /-- `fetch` threw (network failure, or abort by the timeout timer); `err` is
  `String(err)`. -/
  | threw (err : String)
  /-- `!response.ok`; `body` is the text of the response, `none` when reading
  it throws. -/
  | nonOk (statusCode : Nat) (body : Option String)
  /-- A successful response whose JSON body is not `null`; `items` is the array
  of the body (the body itself or its `Items`, empty when neither is an array,
  or when the body is not JSON); an entry may be `null`. A body `null`, on
  which the code throws at `result.Items`, is not among the replies. -/
  | ok (items : List (Option Session))
  deriving DecidableEq, Repr

/-- Result object `{status, items, statusCode, error}` of the listing
functions; `index` is always 0 and `count` is the length of `items`. -/
inductive ApiResult (α : Type) where
  | failure (statusCode : Option Nat) (error : String)
  | success (items : List α)
  deriving DecidableEq, Repr

/-- The function `Sessions(params)` once the reply is known. -/
def Sessions (reply : SessionsReply) : ApiResult (Option Session) :=
  match reply with
  | .threw err => .failure none err
  | .nonOk statusCode body => .failure (some statusCode) (body.getD "<failed-to-read-body>")
  | .ok items => .success items

/-- Insertion of `a` in front of the first element that does not have to
precede it. -/
def insertSorted {α : Type} (cmp : α → α → Int) (a : α) : List α → List α
  | [] => [a]
  | b :: l => if cmp a b ≤ 0 then a :: b :: l else b :: insertSorted cmp a l

/-- `Array.prototype.sort(cmp)`: a stable sort by the comparator, here the
insertion sort. For a consistent comparator, one that decides a total
preorder, all stable sorts give the same list. -/
def jsSort {α : Type} (cmp : α → α → Int) : List α → List α
  | [] => []
  | a :: l => insertSorted cmp a (jsSort cmp l)

/-- The comparator `(a,b) => (b.IsActive ? 1:0) - (a.IsActive ? 1:0)`. -/
def activeFirst (a b : Session) : Int :=
  (if b.IsActive then 1 else 0) - (if a.IsActive then 1 else 0)

/-- The first filter of `Sessions.listSessions`. -/
def remoteVideo (it : Option Session) : Option Session :=
  match it with
  | none => none
  | some s =>
    if s.SupportsRemoteControl &&
        (match s.PlayableMediaTypes with
          | none => false
          | some types => types.contains "Video")
    then some s else none

/-- The optional filter by user of `Sessions.listSessions`. -/
def ownedBy (userId : String) (it : Session) : Bool :=
  it.UserId == some userId ||
    (match it.User with
      | none => false
      | some u => u.Id == some userId)

/-- `Sessions.listSessions(opts)`; `userId` is `opts.userId`. -/
def Sessions.listSessions (reply : SessionsReply) (userId : Option String) : ApiResult Session :=
  match Sessions reply with
  | .failure statusCode error => .failure statusCode error
  | .success raw =>
    let items := raw.filterMap remoteVideo
    let items :=
      if truthy userId then items.filter (ownedBy (userId.getD "")) else items
    .success (jsSort activeFirst items)

/-- `Sessions.list(opts)`, an alias of `listSessions`. -/
def Sessions.list (reply : SessionsReply) (userId : Option String) : ApiResult Session :=
  Sessions.listSessions reply userId

/-- An entry of `names` in `findByDeviceName`. -/
structure NamedSession where
  session : Session
  display : Option String
  deriving DecidableEq, Repr

/-- `it.DeviceName || (it.Device && it.Device.Name) || it.Name || it.Id`. -/
def displayOf (it : Session) : Option String :=
  jsOr (jsOr (jsOr it.DeviceName (it.Device.bind fun d => d.Name)) it.Name) it.Id

/-- Result of `Sessions.findByDeviceName`. -/
inductive FindResult where
  | ok (session : Session)
  | ambiguous (matched : List (Option String))
  | notFound
  | error (error : String)
  deriving DecidableEq, Repr

/-- One rank of `findByDeviceName`: a single match is the answer, several
are ambiguous, none hands over to the next rank. -/
def rank (hits : List NamedSession) (next : FindResult) : FindResult :=
  match hits with
  | [n] => .ok n.session
  | [] => next
  | _ :: _ :: _ => .ambiguous (hits.map fun n => n.display)

/-- `Sessions.findByDeviceName(name)`; `reply` answers its session listing. -/
def Sessions.findByDeviceName (reply : SessionsReply) (name : String) : FindResult :=
  if name == "" then .notFound
  else
    let key := normKey name
    match Sessions.listSessions reply none with
    | .failure _ error => .error error
    | .success items =>
      let names := items.map fun it => (⟨it, displayOf it⟩ : NamedSession)
      let exact := names.filter fun n => norm n.display == key
      let starts := names.filter fun n => jsStartsWith (norm n.display) key
      let includes := names.filter fun n => jsIncludes (norm n.display) key
      rank exact (rank starts (rank includes .notFound))

/-! ## Active device -/

/-- The persisted `activeDevice`. -/
structure ActiveDevice where
  sessionId : Option String := none
  deviceName : Option String := none
  deriving DecidableEq, Repr

/-- The persisted `lastSeries`, and the data handed to `persistLastSeries`; a
number is `none` for `NaN`. -/
structure LastSeries where
  seriesId : Option String
  seriesName : Option String
  lastEpisodeId : Option String
  seasonNumber : Option Int
  episodeNumber : Option Int
  deriving DecidableEq, Repr

/-- The `video` namespace of the persistent attributes. -/
structure VideoState where
  activeDevice : Option ActiveDevice := none
  lastSeries : Option LastSeries := none
  deriving DecidableEq, Repr

/-- The persistent attributes of the skill. -/
structure Persistent where
  video : Option VideoState := none
  deriving DecidableEq, Repr

/-- The `load` of the attribute manager: `persistent.video || {}`. -/
def loadVideo (persistent : Persistent) : VideoState := persistent.video.getD {}

/-- Result of `resolveActiveDevice`; `persist` is `none` where the object has
no such property. -/
inductive DeviceResult where
  | ok (session : Session) (persist : Option Bool)
  | ambiguous (matched : List (Option String))
  | multiple (matched : List (Option String))
  | notFound
  deriving DecidableEq, Repr

/-- `preferredDeviceName && String(preferredDeviceName).trim()`; a missing or
empty name gives a falsy value, rendered as the empty string. -/
def overrideNameOf (preferredDeviceName : Option String) : String :=
  if truthy preferredDeviceName then jsTrim (preferredDeviceName.getD "") else ""

/-- The check of the persisted `activeDevice` in `resolveActiveDevice`:
`vid && vid.sessionId` guards `listRes.items.find(it => it.Id === vid.sessionId)`. -/
def persistedSession (video : VideoState) (items : List Session) : Option Session :=
  match video.activeDevice with
  | none => none
  | some vid =>
    if truthy vid.sessionId then items.find? fun (it : Session) => it.Id == vid.sessionId
    else none

/-- `resolveActiveDevice(handlerInput, preferredDeviceName)`: `persistent`
are the persistent attributes of `handlerInput`, `listReply` answers
`Sessions.list()` and `findReply` the listing made by `findByDeviceName`. -/
def resolveActiveDevice (persistent : Persistent) (preferredDeviceName : Option String)
    (listReply findReply : SessionsReply) : DeviceResult :=
  let video := loadVideo persistent
  let overrideName := overrideNameOf preferredDeviceName
  match Sessions.list listReply none with
  | .failure _ _ => .notFound
  | .success items =>
    if items.isEmpty then .notFound
    else if overrideName != "" then
      match Sessions.findByDeviceName findReply overrideName with
      | .ok session => .ok session (some true)
      | .ambiguous matched => .ambiguous matched
      | _ => .notFound
    else
      match persistedSession video items with
      | some session => .ok session none
      | none =>
        if items.length == 1 then
          match items with
          | it :: _ => .ok it (some true)
          | [] => .notFound
        else if items.length > 1 then
          .multiple (items.map fun (it : Session) => jsOr it.DeviceName it.Name)
        else .notFound

/-! ## Play command -/

/-- The JavaScript values that occur in the options and in the body of a play
command; numbers are the whole numbers of absolute value below 10^21. -/
inductive JsVal where
  | undefined
  | null
  | bool (b : Bool)
  | num (n : Int)
  | str (s : String)
  | arr (ids : List String)
  deriving DecidableEq, Repr

/-- Truthiness of a value. -/
def JsVal.truthy : JsVal → Bool
  | .undefined => false
  | .null => false
  | .bool b => b
  | .num n => n != 0
  | .str s => s != ""
  | .arr _ => true

/-- `String(v)`; a number is printed in full, as `String` does for the whole
numbers of absolute value below 10^21. -/
def JsVal.toStr : JsVal → String
  | .undefined => "undefined"
  | .null => "null"
  | .bool b => if b then "true" else "false"
  | .num n => toString n
  | .str s => s
  | .arr ids => ",".intercalate ids

/-- A plain object: its own properties in insertion order. -/
abbrev Obj := List (String × JsVal)

/-- Property read `o[k]`. -/
def Obj.get (o : Obj) (k : String) : JsVal :=
  match o.find? fun p => p.1 == k with
  | some p => p.2
  | none => .undefined

/-- Property write `o[k] = v`: an existing property keeps its place. -/
def Obj.set : Obj → String → JsVal → Obj
  | [], k, v => [(k, v)]
  | p :: o, k, v => if p.1 == k then (k, v) :: o else p :: Obj.set o k v

/-- `Object.assign(target, source)`. -/
def Obj.assign (target source : Obj) : Obj :=
  source.foldl (fun t p => Obj.set t p.1 p.2) target

/-- The properties that `JSON.stringify` writes: those whose value is not
`undefined`. -/
def jsonStringify (o : Obj) : Obj := o.filter fun p => p.2 != JsVal.undefined

/-- A URL: its path on the configured host and its search parameters. -/
structure Url where
  path : String
  searchParams : List (String × String) := []
  deriving DecidableEq, Repr

/-- `url.searchParams.set(k, v)`. -/
def Url.set (u : Url) (k v : String) : Url :=
  if u.searchParams.any fun p => p.1 == k then
    match u.searchParams.span fun p => p.1 != k with
    | (before, after) =>
      { u with searchParams := before ++ (k, v) :: (after.drop 1).filter fun p => p.1 != k }
  else { u with searchParams := u.searchParams ++ [(k, v)] }

/-- `url.searchParams.append(k, v)`. -/
def Url.append (u : Url) (k v : String) : Url :=
  { u with searchParams := u.searchParams ++ [(k, v)] }

/-- A `POST` issued by `fetch`: the URL and the properties of the JSON body. -/
structure PostRequest where
  url : Url
  body : Obj
  deriving DecidableEq, Repr

/-- A response of the server: `text` is `none` when reading the body throws,
`json` is `none` when the body is not JSON. -/
structure HttpResponse where
  status : Nat
  text : Option String := none
  json : Option String := none
  deriving DecidableEq, Repr

/-- `response.ok`: the status is in the range 200-299. -/
def HttpResponse.ok (r : HttpResponse) : Bool := 200 ≤ r.status && r.status ≤ 299

/-- What a `fetch` yields: it throws (network failure or abort by the timeout
timer; `message` is the text reported for the error) or it gives a response. -/
inductive FetchOutcome where
  | threw (message : String)
  | response (r : HttpResponse)
  deriving DecidableEq, Repr

/-- The server seen by `playOnSession`: the outcome of the `n`-th `POST`
(counted from 0) given the request. -/
abbrev PlayServer := Nat → PostRequest → FetchOutcome

/-- The `debug` property of a result. -/
structure PlayDebug where
  url : Url
  body : Obj
  deriving DecidableEq, Repr

/-- Result object of `playOnSession`; `response` is `none` for `null` and
where the object has no such property. -/
structure PlayResult where
  status : Bool
  statusCode : Option Nat := none
  error : Option String := none
  response : Option String := none
  debug : Option PlayDebug := none
  deriving DecidableEq, Repr

/-- The query string built by `playOnSession` on the URL of the session. -/
def playUrl (sessionId itemId : String) (opts : Obj) (playCommand : String) : Url :=
  let url : Url := { path := "/Sessions/" ++ sessionId ++ "/Playing" }
  let url := url.set "playCommand" playCommand
  let url :=
    if (opts.get "MediaSourceId").truthy then
      url.append "mediaSourceId" (opts.get "MediaSourceId").toStr
    else url
  let url :=
    if (opts.get "MediaSourceId").truthy then
      url.append "MediaSourceId" (opts.get "MediaSourceId").toStr
    else url
  let url :=
    if opts.get "StartPositionTicks" != JsVal.undefined then
      url.append "startPositionTicks" (opts.get "StartPositionTicks").toStr
    else url
  let url :=
    if opts.get "StartPositionTicks" != JsVal.undefined then
      url.append "StartPositionTicks" (opts.get "StartPositionTicks").toStr
    else url
  let url :=
    if (opts.get "PlaySessionId").truthy then
      url.append "PlaySessionId" (opts.get "PlaySessionId").toStr
    else url
  let url :=
    if opts.get "audioStreamIndex" != JsVal.undefined then
      url.append "audioStreamIndex" (opts.get "audioStreamIndex").toStr
    else url
  let url :=
    if opts.get "subtitleStreamIndex" != JsVal.undefined then
      url.append "subtitleStreamIndex" (opts.get "subtitleStreamIndex").toStr
    else url
  match opts.get "ItemIds" with
  | .arr ids => ids.foldl (fun u id => u.append "itemIds" id) url
  | _ => if itemId != "" then url.append "itemIds" itemId else url

/-- `(opts && opts.playCommand) ? String(opts.playCommand) : 'PlayNow'`. -/
def playCommandOf (opts : Obj) : String :=
  if (opts.get "playCommand").truthy then (opts.get "playCommand").toStr else "PlayNow"

/-- `Object.assign({}, opts, { ItemIds: [ itemId ], playCommand: playCommand })`. -/
def playBody (itemId : String) (opts : Obj) : Obj :=
  Obj.assign (Obj.assign [] opts)
    [("ItemIds", .arr [itemId]), ("playCommand", .str (playCommandOf opts))]

/-- `Object.assign({}, opts, { ItemIds: [ itemId ], playCommand: 1, PlayCommand: 1 })`. -/
def retryBody (itemId : String) (opts : Obj) : Obj :=
  Obj.assign (Obj.assign [] opts)
    [("ItemIds", .arr [itemId]), ("playCommand", .num 1), ("PlayCommand", .num 1)]

/-- The first `POST` of `playOnSession`. -/
def playRequest (sessionId itemId : String) (opts : Obj) : PostRequest :=
  { url := playUrl sessionId itemId opts (playCommandOf opts),
    body := jsonStringify (playBody itemId opts) }

/-- The `POST` of the retry with the numeric `playCommand`: the same URL and
`retryBody`. -/
def retryRequest (sessionId itemId : String) (opts : Obj) : PostRequest :=
  { url := playUrl sessionId itemId opts (playCommandOf opts),
    body := jsonStringify (retryBody itemId opts) }

/-- `Sessions.playOnSession(sessionId, itemId, opts)`, with the requests it
sends in the order of sending. `debugPlayRequests` is
`CONFIG.jellyfin.debugPlayRequests`. -/
def Sessions.playOnSession (debugPlayRequests : Bool) (server : PlayServer)
    (sessionId itemId : String) (opts : Obj) : PlayResult × List PostRequest :=
  if sessionId == "" || itemId == "" then
    ({ status := false, error := some "Missing parameters" }, [])
  else
    let url := playUrl sessionId itemId opts (playCommandOf opts)
    let body := playBody itemId opts
    let request := playRequest sessionId itemId opts
    match server 0 request with
    | .threw message => ({ status := false, error := some message }, [request])
    | .response response =>
      if !response.ok then
        let bodyText := response.text.getD "<failed-to-read-body>"
        if response.status == 400 && bodyText != "" &&
            jsIncludes (jsToLowerCase bodyText) "playcommand" then
          let retry := retryRequest sessionId itemId opts
          match server 1 retry with
          | .threw message => ({ status := false, error := some message }, [request, retry])
          | .response retryResp =>
            if !retryResp.ok then
              let rtext := retryResp.text.getD "<failed-to-read-body>"
              ({ status := false, statusCode := some retryResp.status, error := some rtext },
                [request, retry])
            else
              ({ status := true, response := retryResp.json }, [request, retry])
        else
          ({ status := false, statusCode := some response.status, error := some bodyText },
            [request])
      else
        let respBody := response.json
        if (opts.get "debug").truthy || debugPlayRequests then
          ({ status := true, response := respBody, debug := some { url := url, body := body } },
            [request])
        else ({ status := true, response := respBody }, [request])

/-! ## Verification of the playing item -/

/-- The options of `waitForNowPlaying`; `attempts` and `delay` are
non-negative whole numbers when present. -/
structure WaitOpts where
  attempts : Option Nat := none
  delay : Option Nat := none
  deriving DecidableEq, Repr

/-- `(opts && opts.attempts) || 3`. -/
def attemptsOf (opts : WaitOpts) : Nat :=
  match opts.attempts with
  | none => 3
  | some n => if n != 0 then n else 3

/-- `items.find(it => it && it.Id === sessionId)`. -/
def findSession (items : List Session) (sessionId : Option String) : Option Session :=
  items.find? fun it => it.Id == sessionId

/-- `s.NowPlayingItem && s.NowPlayingItem.Id === expectedItemId`. -/
def nowPlays (s : Session) (expectedItemId : Option String) : Bool :=
  match s.NowPlayingItem with
  | none => false
  | some it => it.Id == expectedItemId

/-- Result object of `waitForNowPlaying`. -/
inductive WaitResult where
  /-- `{ status: true, session: s, attempt: i+1 }`. -/
  | confirmed (session : Session) (attempt : Nat)
  /-- `{ status: false, error: res.error }`, after a listing that failed. -/
  | failed (error : String)
  /-- `{ status: false, error: 'Did not match NowPlayingItem', lastSession: last }`. -/
  | unconfirmed (lastSession : Option Session)
  deriving DecidableEq, Repr

/-- The property `status` of the result. -/
def WaitResult.status : WaitResult → Bool
  | .confirmed _ _ => true
  | .failed _ => false
  | .unconfirmed _ => false

/-- The `for` loop of `waitForNowPlaying` from index `i` with `remaining`
iterations left, followed by the listing made after the loop. `replies n` is
the reply to the `n`-th session listing of the call (counted from 0); the
second component is the number of listings made so far. The timer between two
iterations has no other effect and is left out. -/
def waitLoop (replies : Nat → SessionsReply) (sessionId expectedItemId : Option String) :
    Nat → Nat → WaitResult × Nat
  | 0, i =>
    let last :=
      match Sessions.listSessions (replies i) none with
      | .success items => findSession items sessionId
      | .failure _ _ => none
    (.unconfirmed last, i + 1)
  | remaining + 1, i =>
    match Sessions.listSessions (replies i) none with
    | .failure _ error => (.failed error, i + 1)
    | .success items =>
      match findSession items sessionId with
      | some s =>
        if nowPlays s expectedItemId then (.confirmed s (i + 1), i + 1)
        else waitLoop replies sessionId expectedItemId remaining (i + 1)
      | none => waitLoop replies sessionId expectedItemId remaining (i + 1)

/-- `Sessions.waitForNowPlaying(sessionId, expectedItemId, opts)` with the
number of session listings it has made. -/
def Sessions.waitForNowPlaying (replies : Nat → SessionsReply)
    (sessionId expectedItemId : Option String) (opts : WaitOpts) : WaitResult × Nat :=
  waitLoop replies sessionId expectedItemId (attemptsOf opts) 0

/-- Poll `i` observes the expected item: the listing succeeds and the first
listed session of the given id plays it. -/
def observes (reply : SessionsReply) (sessionId expectedItemId : Option String) : Bool :=
  match Sessions.listSessions reply none with
  | .success items =>
    match findSession items sessionId with
    | some s => nowPlays s expectedItemId
    | none => false
  | .failure _ _ => false

/-- The first listed session of the given id in a reply, when the listing
succeeds. -/
def target (reply : SessionsReply) (sessionId : Option String) : Option Session :=
  match Sessions.listSessions reply none with
  | .success items => findSession items sessionId
  | .failure _ _ => none

/-- The listing of a reply succeeds. -/
def listed (reply : SessionsReply) : Bool :=
  match Sessions.listSessions reply none with
  | .success _ => true
  | .failure _ _ => false

/-! ## Music genres and their cache -/

/-- What the `fetch` of an item search yields (`GET /MusicGenres`). -/
inductive ItemsReply where
  /-- `fetch` threw; `err` is `String(err)`. -/
  | threw (err : String)
  /-- `!response.ok`; `body` is `none` when reading it throws. -/
  | nonOk (statusCode : Nat) (body : Option String)
  /-- A successful response with the array of the JSON body (the body itself
  or its `Items`, empty when neither is an array). -/
  | ok (items : List Item)
  deriving DecidableEq, Repr

/-- The function `MusicGenres(params)` once the reply is known. -/
def MusicGenres (reply : ItemsReply) : ApiResult Item :=
  match reply with
  | .threw err => .failure none err
  | .nonOk statusCode body => .failure (some statusCode) (body.getD "<failed-to-read-body>")
  | .ok items => .success items

/-- `MusicGenres.Search(query)`: the server is asked with `SearchTerm: query`;
`search` gives the reply of the server to a search term. -/
def MusicGenres.Search (search : String → ItemsReply) (query : String) : ApiResult Item :=
  MusicGenres (search query)

/-- An entry `{ id, expires }` of `_genreCache`. -/
structure CacheEntry where
  id : Option String
  expires : Int
  deriving DecidableEq, Repr

/-- The object `_genreCache`: its properties in insertion order. -/
abbrev GenreCache := List (String × CacheEntry)

/-- `_genreCache[key]`. -/
def cacheGet (cache : GenreCache) (key : String) : Option CacheEntry :=
  match cache.find? fun p => p.1 == key with
  | some p => some p.2
  | none => none

/-- `_genreCache[key] = entry`: an existing property keeps its place. -/
def cacheSet : GenreCache → String → CacheEntry → GenreCache
  | [], key, entry => [(key, entry)]
  | p :: cache, key, entry =>
    if p.1 == key then (key, entry) :: cache else p :: cacheSet cache key entry

/-- The value of an `Id` property that may be missing. -/
def idVal (id : Option String) : JsVal :=
  match id with
  | some s => .str s
  | none => .undefined

/-- What a call of `ResolveIdByName` returns and does: the value returned,
the cache afterwards, and the search terms sent to the server. -/
structure Resolution where
  result : JsVal
  cache : GenreCache
  searched : List String
  deriving DecidableEq, Repr

/-- The part of `ResolveIdByName` after the cache check: the search, the
ranking exact > startsWith > includes > first, and the caching of the
selection; `storeNow` is `Date.now()` when the entry is written. -/
def searchAndCache (ttl : Int) (search : String → ItemsReply) (storeNow : Int)
    (cache : GenreCache) (name : String) : Resolution :=
  let key := normKey name
  match MusicGenres.Search search name with
  | .failure _ _ => { result := .null, cache := cache, searched := [name] }
  | .success items =>
    if items.isEmpty then { result := .null, cache := cache, searched := [name] }
    else
      -- exact
      let selected := items.find? fun it => norm it.Name == key
      -- startsWith
      let selected :=
        if selected.isNone then items.find? fun it => jsStartsWith (norm it.Name) key
        else selected
      -- includes
      let selected :=
        if selected.isNone then items.find? fun it => jsIncludes (norm it.Name) key
        else selected
      -- fallback first
      let selected := if selected.isNone then items.head? else selected
      match selected with
      | some it =>
        { result := idVal it.Id,
          cache := cacheSet cache key { id := it.Id, expires := storeNow + ttl },
          searched := [name] }
      | none => { result := .null, cache := cache, searched := [name] }

/-- `MusicGenres.ResolveIdByName(name)` with the cache, the clock and the
search made explicit: `ttl` is `_genreCacheTtl`, `now` is `Date.now()` at the
cache check and `storeNow` is `Date.now()` when the entry is written. -/
def MusicGenres.ResolveIdByName (ttl : Int) (search : String → ItemsReply)
    (now storeNow : Int) (cache : GenreCache) (name : String) : Resolution :=
  if name == "" then { result := .null, cache := cache, searched := [] }
  else
    let key := normKey name
    -- Cache hit
    match cacheGet cache key with
    | some cached =>
      if cached.expires > now then
        { result := idVal cached.id, cache := cache, searched := [] }
      else searchAndCache ttl search storeNow cache name
    | none => searchAndCache ttl search storeNow cache name

/-- The cache holds an entry for `key` whose expiry is later than `now`. -/
def fresh (cache : GenreCache) (key : String) (now : Int) : Bool :=
  match cacheGet cache key with
  | some cached => decide (cached.expires > now)
  | none => false

/-! ## Series playback flow -/

/-- The speech of a response: the key of the localized text with its
parameters, or the fixed text `'Reproduciendo.'`. -/
inductive Speech where
  /-- `tFor(handlerInput, 'PLAYBACK_FAILED')`. -/
  | playbackFailed
  /-- `tFor(handlerInput, 'PLAYBACK_MISMATCH', { actual })`. -/
  | playbackMismatch (actual : String)
  /-- `'Reproduciendo.'`. -/
  | playing
  /-- `tFor(handlerInput, 'MISSING_SERIES_NAME')`. -/
  | missingSeriesName
  /-- `tFor(handlerInput, 'SERIES_NOT_FOUND', { series })`. -/
  | seriesNotFound (series : String)
  /-- `tFor(handlerInput, 'NO_EPISODES_FOUND', { series })`. -/
  | noEpisodesFound (series : Option String)
  /-- `tFor(handlerInput, 'NO_JELLYFIN_DEVICES')`. -/
  | noJellyfinDevices
  /-- `tFor(handlerInput, 'ASK_TO_SELECT_DEVICE')`. -/
  | askToSelectDevice
  /-- `tFor(handlerInput, 'DEVICE_NAME_AMBIGUOUS', { devices })`. -/
  | deviceNameAmbiguous (devices : String)
  /-- `tFor(handlerInput, 'SESSION_INACTIVE', { device })`. -/
  | sessionInactive (device : Option String)
  /-- `tFor(handlerInput, 'NO_VIDEO_CONTEXT')`. -/
  | noVideoContext
  /-- `tFor(handlerInput, 'NEXT_EPISODE_NOT_AVAILABLE', { series })`. -/
  | nextEpisodeNotAvailable (series : Option String)
  deriving DecidableEq, Repr

/-- A step of the flow that reaches the server. -/
inductive FlowEvent where
  /-- A call of `Sessions.playNow(sessionId, itemId, opts)`. -/
  | play (sessionId itemId : String) (opts : Obj)
  /-- A call of `Sessions.waitForNowPlaying(sessionId, expectedItemId, ...)`. -/
  | verify (sessionId expectedItemId : Option String)
  deriving DecidableEq, Repr

/-- What the flow answers and does: `events` are the calls of `playNow` and
`waitForNowPlaying` in order, `requests` are the `POST`s that the calls of
`playNow` have sent, in the order of sending, and `listings` is the number of
session listings that the calls of `waitForNowPlaying` have requested. -/
structure FlowOutcome where
  speech : Speech
  lastSeries : Option LastSeries
  events : List FlowEvent
  requests : List PostRequest
  listings : Nat
  deriving DecidableEq, Repr

/-- `Sessions.playNow`, a wrapper of `playOnSession`. -/
def Sessions.playNow (debugPlayRequests : Bool) (server : PlayServer)
    (sessionId itemId : String) (opts : Obj) : PlayResult × List PostRequest :=
  Sessions.playOnSession debugPlayRequests server sessionId itemId opts

/-- The options of the first play command of the series flow; `debug` is the
value of `CONFIG.jellyfin.debugPlayRequests`. -/
def firstPlayOpts (mediaSourceId : String) (debug : JsVal) : Obj :=
  [("MediaSourceId", .str mediaSourceId), ("StartPositionTicks", .num 0), ("debug", debug)]

/-- The options of the play command retried with the `PlaySessionId`. -/
def retryPlayOpts (mediaSourceId playSessionId : String) (debug : JsVal) : Obj :=
  [("MediaSourceId", .str mediaSourceId), ("PlaySessionId", .str playSessionId),
    ("StartPositionTicks", .num 0), ("debug", debug)]

/-- The options `{ attempts: 3, delay: 1000 }` of both verifications. -/
def verifyOpts : WaitOpts := { attempts := some 3, delay := some 1000 }

/-- `actual || 'otro contenido'` where `actual` is the name, else the id, of
the item played by `lastSession`. -/
def actualOf (verify : WaitResult) : String :=
  let actual :=
    match verify with
    | .unconfirmed (some last) =>
      match last.NowPlayingItem with
      | some it => jsOr it.Name it.Id
      | none => none
    | _ => none
  if truthy actual then actual.getD "" else "otro contenido"

/-- The first play command of the flow. -/
def firstPlay (debug : JsVal) (server : PlayServer) (episode : Item) (session : Session)
    (mediaSourceId : String) : PlayResult × List PostRequest :=
  Sessions.playNow debug.truthy server (session.Id.getD "") (episode.Id.getD "")
    (firstPlayOpts mediaSourceId debug)

/-- The first verification of the flow. -/
def firstVerify (replies : Nat → SessionsReply) (episode : Item) (session : Session) :
    WaitResult × Nat :=
  Sessions.waitForNowPlaying replies session.Id episode.Id verifyOpts

/-- The play command retried with the `PlaySessionId`: it meets the server
after the requests of the first play command. -/
def retryPlay (debug : JsVal) (server : PlayServer) (episode : Item) (session : Session)
    (mediaSourceId playSessionId : String) : PlayResult × List PostRequest :=
  Sessions.playNow debug.truthy
    (fun n => server (n + (firstPlay debug server episode session mediaSourceId).2.length))
    (session.Id.getD "") (episode.Id.getD "") (retryPlayOpts mediaSourceId playSessionId debug)

/-- The second verification: it meets the listings that follow those of the
first verification. -/
def secondVerify (replies : Nat → SessionsReply) (episode : Item) (session : Session) :
    WaitResult × Nat :=
  Sessions.waitForNowPlaying (fun n => replies (n + (firstVerify replies episode session).2))
    session.Id episode.Id verifyOpts

/-- The end of the handler of `PlaySeriesIntent`, from the play command on:
`mediaSourceId` is `mediaSource.Id` and `playSessionId` is
`pb.playbackInfo.PlaySessionId`. -/
def playAndVerify (debug : JsVal) (server : PlayServer) (replies : Nat → SessionsReply)
    (series episode : Item) (session : Session) (mediaSourceId : String)
    (playSessionId : Option String) : FlowOutcome :=
  let play1 := FlowEvent.play (session.Id.getD "") (episode.Id.getD "")
    (firstPlayOpts mediaSourceId debug)
  let check := FlowEvent.verify session.Id episode.Id
  let done : LastSeries :=
    { seriesId := series.Id, seriesName := series.Name, lastEpisodeId := episode.Id,
      seasonNumber := episode.ParentIndexNumber, episodeNumber := episode.IndexNumber }
  let res := firstPlay debug server episode session mediaSourceId
  if !res.1.status then
    { speech := .playbackFailed, lastSeries := none, events := [play1], requests := res.2,
      listings := 0 }
  else
    let verify := firstVerify replies episode session
    if !verify.1.status then
      if truthy playSessionId then
        let token := playSessionId.getD ""
        let play2 := FlowEvent.play (session.Id.getD "") (episode.Id.getD "")
          (retryPlayOpts mediaSourceId token debug)
        let retry := retryPlay debug server episode session mediaSourceId token
        if !retry.1.status then
          { speech := .playbackFailed, lastSeries := none, events := [play1, check, play2],
            requests := res.2 ++ retry.2, listings := verify.2 }
        else
          let verify2 := secondVerify replies episode session
          if !verify2.1.status then
            { speech := .playbackMismatch (actualOf verify2.1), lastSeries := none,
              events := [play1, check, play2, check], requests := res.2 ++ retry.2,
              listings := verify.2 + verify2.2 }
          else
            { speech := .playing, lastSeries := some done,
              events := [play1, check, play2, check], requests := res.2 ++ retry.2,
              listings := verify.2 + verify2.2 }
      else
        { speech := .playbackMismatch (actualOf verify.1), lastSeries := none,
          events := [play1, check], requests := res.2, listings := verify.2 }
    else
      { speech := .playing, lastSeries := some done, events := [play1, check],
        requests := res.2, listings := verify.2 }

/-- The event is a play command. -/
def FlowEvent.isPlay : FlowEvent → Bool
  | .play _ _ _ => true
  | .verify _ _ => false

/-- The event is a verification. -/
def FlowEvent.isVerify : FlowEvent → Bool
  | .play _ _ _ => false
  | .verify _ _ => true

/-! ## Stop command -/

/-- The `POST` of `stopSession`: the URL of the session and the body `{}`. -/
def stopRequest (sessionId : String) : PostRequest :=
  { url := { path := "/Sessions/" ++ sessionId ++ "/Playing/Stop" }, body := [] }

/-- `Sessions.stopSession(sessionId)`, with the requests it sends; `answer`
is what the server does with the request. -/
def Sessions.stopSession (answer : PostRequest → FetchOutcome) (sessionId : String) :
    PlayResult × List PostRequest :=
  if sessionId == "" then ({ status := false, error := some "Missing sessionId" }, [])
  else
    let request := stopRequest sessionId
    match answer request with
    | .threw message => ({ status := false, error := some message }, [request])
    | .response response =>
      if !response.ok then
        let bodyText := response.text.getD "<failed-to-read-body>"
        ({ status := false, statusCode := some response.status, error := some bodyText },
          [request])
      else ({ status := true }, [request])

/-! ## Search and resolution of movies and series -/

/-- The function `Request(endpoint, params)` once the reply is known. -/
def Request (reply : ItemsReply) : ApiResult Item :=
  match reply with
  | .threw err => .failure none err
  | .nonOk statusCode body => .failure (some statusCode) (body.getD "<failed-to-read-body>")
  | .ok items => .success items

/-- The filter of `Search` on the field `Name`:
`v = (it && it[field]) ? String(it[field]).toLowerCase() : ""` and
`v.includes(q)` with `q = String(query).toLowerCase()`. -/
def nameContains (query : String) (it : Item) : Bool :=
  jsIncludes (if truthy it.Name then jsToLowerCase (it.Name.getD "") else "")
    (jsToLowerCase query)

/-- `Search(api, "Name", query)`: `api` gives the reply of the server to the
search term `String(query).trim()`. -/
def Search (api : String → ItemsReply) (query : String) : ApiResult Item :=
  if query == "" || jsTrim query == "" then .failure none "Empty query"
  else
    match Request (api (jsTrim query)) with
    | .failure statusCode error => .failure statusCode error
    | .success items => .success (items.filter (nameContains query))

/-- `Items.Series.Search(query)`. -/
def Items.Series.Search (api : String → ItemsReply) (query : String) : ApiResult Item :=
  JellyMusic.Search api query

/-- `Items.Movies.Search(query, opts)`; `userId` is `opts.userId || opts.UserId`.
With a user the items of the server are returned as they are. -/
def Items.Movies.Search (api : String → ItemsReply) (query : String)
    (userId : Option String) : ApiResult Item :=
  if truthy userId then Request (api (jsTrim query)) else JellyMusic.Search api query

/-- `Items.ResolveSeriesByName(name)`; `none` is `null`. -/
def Items.ResolveSeriesByName (api : String → ItemsReply) (name : String) : Option Item :=
  if name == "" then none
  else
    let key := normKey name
    match Items.Series.Search api name with
    | .failure _ _ => none
    | .success items => _resolveItemsByName items key

/-- `Items.ResolveMovieByName(name, opts)`; `none` is `null`. -/
def Items.ResolveMovieByName (api : String → ItemsReply) (name : String)
    (userId : Option String) : Option Item :=
  if name == "" then none
  else
    let key := normKey name
    match Items.Movies.Search api name userId with
    | .failure _ _ => none
    | .success items => _resolveItemsByName items key

/-! ## Episodes and playback information -/

/-- `Items.Episodes(params)` once the reply is known: with or without a
`seriesId` the result is the one of `Request`, with `items || []`. -/
def Items.Episodes (reply : ItemsReply) : ApiResult Item := Request reply

/-- `belongsToSeries`: `it.SeriesId === id || it.ParentId === id ||
(it.Series && it.Series.Id === id)`. -/
def belongsToSeries (seriesId : Option String) (it : Item) : Bool :=
  it.SeriesId == seriesId || it.ParentId == seriesId ||
    (match it.Series with
      | some series => series.Id == seriesId
      | none => false)

/-- The episodes kept by the handlers: those of the series when there is one,
else all (`if (filtered.length) episodes = filtered`). -/
def restrictToSeries (seriesId : Option String) (items : List Item) : List Item :=
  let filtered := items.filter (belongsToSeries seriesId)
  if filtered.isEmpty then items else filtered

/-- `Number(it.ParentIndexNumber) || 0`. -/
def seasonOf (it : Item) : Int := it.ParentIndexNumber.getD 0

/-- `Number(it.IndexNumber) || 0`. -/
def episodeOf (it : Item) : Int := it.IndexNumber.getD 0

/-- The comparator of the sort in `PlaySeriesIntent`: season, then episode. -/
def seriesOrder (a b : Item) : Int :=
  if seasonOf a != seasonOf b then seasonOf a - seasonOf b else episodeOf a - episodeOf b

/-- `it.UserData && it.UserData.NextUp`. -/
def flaggedNextUp (it : Item) : Bool :=
  match it.UserData with
  | some data => data.NextUp
  | none => false

/-- `it.UserData && it.UserData.Played`. -/
def flaggedPlayed (it : Item) : Bool :=
  match it.UserData with
  | some data => data.Played
  | none => false

/-- The choice of the episode in `PlaySeriesIntent`: the episodes of the
series sorted, then the first one flagged `NextUp`, else the first one not
played, else the first one. -/
def selectEpisode (seriesId : Option String) (items : List Item) : Option Item :=
  let episodes := jsSort seriesOrder (restrictToSeries seriesId items)
  -- Prefer NextUp flag if present
  let selectedEpisode := episodes.find? flaggedNextUp
  -- Otherwise first unplayed
  let selectedEpisode :=
    if selectedEpisode.isNone then episodes.find? fun it => !flaggedPlayed it
    else selectedEpisode
  -- Fallback to first
  let selectedEpisode := if selectedEpisode.isNone then episodes.head? else selectedEpisode
  selectedEpisode

/-- A difference of two numbers, `none` for `NaN`: `Number(x) - Number(y)`. -/
def numberDiff (x y : Option Int) : Option Int :=
  match x, y with
  | some a, some b => some (a - b)
  | _, _ => none

/-- The comparator of the sort in `NextEpisodeIntent`:
`(Number(a.ParentIndexNumber) - Number(b.ParentIndexNumber)) ||
(Number(a.IndexNumber) - Number(b.IndexNumber))`; a result `NaN` counts as 0
in the sort. -/
def nextOrder (a b : Item) : Int :=
  let second := (numberDiff a.IndexNumber b.IndexNumber).getD 0
  match numberDiff a.ParentIndexNumber b.ParentIndexNumber with
  | some d => if d != 0 then d else second
  | none => second

/-- `list.findIndex(p)`, `none` for -1. -/
def findIndex {α : Type} (p : α → Bool) : List α → Option Nat
  | [] => none
  | a :: l => if p a then some 0 else (findIndex p l).map fun i => i + 1

/-- The choice of the episode in `NextEpisodeIntent`: the first episode
flagged `NextUp` in the sorted list, else the one after the last episode. On
episodes that all have season and episode numbers the comparator is
consistent and `sorted` is the list that every stable sort gives; with a
missing number the comparator is not consistent and `sorted` is the list of
the insertion sort. -/
def nextEpisodeOf (last : LastSeries) (items : List Item) : Option Item :=
  let sorted := jsSort nextOrder (restrictToSeries last.seriesId items)
  let currentIndex := findIndex (fun it => it.Id == last.lastEpisodeId) sorted
  -- Prefer NextUp
  let nextEpisode := sorted.find? flaggedNextUp
  if nextEpisode.isNone then
    match currentIndex with
    | some i => if i < sorted.length - 1 then sorted[i + 1]? else none
    | none => none
  else nextEpisode

/-- A media source of the playback information. -/
structure MediaSource where
  Id : Option String := none
  deriving DecidableEq, Repr

/-- The JSON body of the playback information. -/
structure PlaybackData where
  MediaSources : Option (List MediaSource) := none
  PlaySessionId : Option String := none
  deriving DecidableEq, Repr

/-- What the `fetch` of `POST /Items/{id}/PlaybackInfo` yields; `data` is
`none` when the body is not JSON. -/
inductive PlaybackReply where
  | threw (message : String)
  | nonOk (statusCode : Nat) (body : Option String)
  | ok (data : Option PlaybackData)
  deriving DecidableEq, Repr

/-- Result object of `Items.PlaybackInfo`. -/
structure PlaybackInfoResult where
  status : Bool
  statusCode : Option Nat := none
  error : Option String := none
  playbackInfo : Option PlaybackData := none
  mediaSources : List MediaSource := []
  deriving DecidableEq, Repr

/-- `Items.PlaybackInfo(itemId, opts)` once the reply is known. -/
def Items.PlaybackInfo (reply : PlaybackReply) (itemId : Option String) : PlaybackInfoResult :=
  if !truthy itemId then { status := false, error := some "Missing itemId" }
  else
    match reply with
    | .threw message => { status := false, error := some message }
    | .nonOk statusCode body =>
      { status := false, statusCode := some statusCode,
        error := some (if truthy body then body.getD "" else "PlaybackInfo failed") }
    | .ok data =>
      { status := true, playbackInfo := data,
        mediaSources := ((data.bind fun d => d.MediaSources).getD []) }

/-! ## The intent handlers -/

/-- The values of the slots of a request; `none` when the slot or its value
is missing. -/
structure Slots where
  seriesname : Option String := none
  devicename : Option String := none
  deriving DecidableEq, Repr

/-- The server as a handler meets it: the replies to the requests of the
handler, in the order of the code. -/
structure Env where
  /-- `CONFIG.jellyfin.debugPlayRequests`. -/
  debug : JsVal := .undefined
  /-- The series search, by search term. -/
  seriesApi : String → ItemsReply := fun _ => .ok []
  /-- The reply to the request of the episodes. -/
  episodes : ItemsReply := .ok []
  /-- The reply to `Sessions.list()` in `resolveActiveDevice`. -/
  listReply : SessionsReply := .ok []
  /-- The reply to the listing of `findByDeviceName` in `resolveActiveDevice`. -/
  findReply : SessionsReply := .ok []
  /-- The reply to the playback-info lookup. -/
  playback : PlaybackReply := .ok none
  /-- The answers to the play commands. -/
  server : PlayServer := fun _ _ => .response { status := 204 }
  /-- The replies to the session listings of the verifications. -/
  replies : Nat → SessionsReply := fun _ => .ok []

/-- What a handler answers and does: the speech, the play commands and
verifications in order, the device written by `persistActiveDevice` and the
last-series context after `persistLastSeries`. -/
structure IntentOutcome where
  speech : Speech
  events : List FlowEvent := []
  activeDevice : Option ActiveDevice := none
  lastSeries : Option LastSeries := none
  deriving DecidableEq, Repr

/-- `dev.matches.join(', ')`. -/
def joinNames (names : List (Option String)) : String :=
  ", ".intercalate (names.map fun n => n.getD "")

/-- The handler of `PlaySeriesIntent`. -/
def PlaySeriesIntent (env : Env) (persistent : Persistent) (slots : Slots) : IntentOutcome :=
  if !truthy slots.seriesname then { speech := .missingSeriesName }
  else
    let seriesName := slots.seriesname.getD ""
    match Items.ResolveSeriesByName env.seriesApi seriesName with
    | none => { speech := .seriesNotFound seriesName }
    | some series =>
      -- Fetch episodes and try to pick next up
      match Items.Episodes env.episodes with
      | .failure _ _ => { speech := .noEpisodesFound (some seriesName) }
      | .success items =>
        if items.isEmpty then { speech := .noEpisodesFound (some seriesName) }
        else
          match selectEpisode series.Id items with
          | none => { speech := .noEpisodesFound (some seriesName) }
          | some selectedEpisode =>
            -- Resolve active device
            match resolveActiveDevice persistent none env.listReply env.findReply with
            | .notFound => { speech := .noJellyfinDevices }
            | .multiple _ => { speech := .askToSelectDevice }
            | .ambiguous matched => { speech := .deviceNameAmbiguous (joinNames matched) }
            | .ok session persist =>
              if !session.IsActive then
                { speech := .sessionInactive (jsOr session.DeviceName session.Name) }
              else
                let device : Option ActiveDevice :=
                  if persist == some true then
                    some { sessionId := session.Id,
                           deviceName := jsOr session.DeviceName session.Name }
                  else none
                -- Resolve playable source for the target session user
                let pb := Items.PlaybackInfo env.playback selectedEpisode.Id
                if !pb.status then { speech := .playbackFailed, activeDevice := device }
                else
                  match pb.mediaSources.head? with
                  | none => { speech := .playbackFailed, activeDevice := device }
                  | some mediaSource =>
                    if !truthy mediaSource.Id then
                      { speech := .playbackFailed, activeDevice := device }
                    else
                      let out := playAndVerify env.debug env.server env.replies series
                        selectedEpisode session (mediaSource.Id.getD "")
                        (pb.playbackInfo.bind fun d => d.PlaySessionId)
                      { speech := out.speech, events := out.events, activeDevice := device,
                        lastSeries := out.lastSeries }

/-- The device resolution of `PlayMovieIntent`: the `devicename` slot is the
override (`slots.devicename && slots.devicename.value ? ... : null`). -/
def movieDevice (env : Env) (persistent : Persistent) (slots : Slots) : DeviceResult :=
  let deviceOverride := if truthy slots.devicename then slots.devicename else none
  resolveActiveDevice persistent deviceOverride env.listReply env.findReply

/-- The handler of `NextEpisodeIntent`. -/
def NextEpisodeIntent (env : Env) (persistent : Persistent) : IntentOutcome :=
  match (loadVideo persistent).lastSeries with
  | none => { speech := .noVideoContext }
  | some last =>
    if !truthy last.seriesId then { speech := .noVideoContext }
    else
      -- Find episodes and current index
      match Items.Episodes env.episodes with
      | .failure _ _ => { speech := .noEpisodesFound last.seriesName }
      | .success items =>
        if items.isEmpty then { speech := .noEpisodesFound last.seriesName }
        else
          match nextEpisodeOf last items with
          | none => { speech := .nextEpisodeNotAvailable last.seriesName }
          | some nextEpisode =>
            -- Resolve device
            match resolveActiveDevice persistent none env.listReply env.findReply with
            | .ok session _ =>
              if !session.IsActive then
                { speech := .sessionInactive (jsOr session.DeviceName session.Name) }
              else
                let play := FlowEvent.play (session.Id.getD "") (nextEpisode.Id.getD "") []
                let res := Sessions.playNow env.debug.truthy env.server (session.Id.getD "")
                  (nextEpisode.Id.getD "") []
                if !res.1.status then { speech := .playbackFailed, events := [play] }
                else
                  -- Update lastSeries
                  { speech := .playing, events := [play],
                    lastSeries := some { last with
                      lastEpisodeId := nextEpisode.Id,
                      seasonNumber := nextEpisode.ParentIndexNumber,
                      episodeNumber := nextEpisode.IndexNumber } }
            | .multiple _ => { speech := .askToSelectDevice }
            | _ => { speech := .noJellyfinDevices }

/-- The order of the claims on episodes: `a` is not after `b` by season, then
episode. -/
def notAfter (a b : Item) : Prop :=
  seasonOf a < seasonOf b ∨ (seasonOf a = seasonOf b ∧ episodeOf a ≤ episodeOf b)

/-- The season and episode numbers of `a` and `b` are the same. -/
def sameNumbers (a b : Item) : Bool :=
  seasonOf a == seasonOf b && episodeOf a == episodeOf b

/-! ## The listing filter, in the words of the specification -/

/-- The session supports remote control and its playable media types are a
list that contains "Video". -/
def playsVideo (s : Session) : Bool :=
  s.SupportsRemoteControl && (s.PlayableMediaTypes.getD []).contains "Video"

/-- No user is asked for, or the `UserId` or the `User.Id` of the session is
the user asked for. -/
def belongsTo (userId : Option String) (s : Session) : Bool :=
  !truthy userId || s.UserId == userId || (s.User.bind fun u => u.Id) == userId

/-! ## The ranks of the device match, in the words of the specification -/

/-- Exact match of the normalized display name of a session. -/
def matchesExact (key : String) (s : Session) : Bool := norm (displayOf s) == key

/-- The normalized display name starts with the key. -/
def matchesStart (key : String) (s : Session) : Bool := jsStartsWith (norm (displayOf s)) key

/-- The normalized display name contains the key. -/
def matchesPart (key : String) (s : Session) : Bool := jsIncludes (norm (displayOf s)) key

/-- The sessions that match at the first of the ranks exact / prefix /
substring that has any match, in list order; empty when no rank has one. -/
def firstRank (key : String) (items : List Session) : List Session :=
  if items.any (matchesExact key) then items.filter (matchesExact key)
  else if items.any (matchesStart key) then items.filter (matchesStart key)
  else items.filter (matchesPart key)

/-! ## Test data -/

/-- The catalog of the end-to-end example. -/
def batmanBegins : Item := { Id := some "m1", Name := some "Batman Begins" }

/-- A title that contains the query without starting with it. -/
def theBatman : Item := { Id := some "m2", Name := some "The Batman" }

/-- A second title that starts with the query. -/
def batmanReturns : Item := { Id := some "m3", Name := some "Batman Returns" }

/-- A title equal to the query up to case and surrounding blanks. -/
def batman : Item := { Id := some "m4", Name := some " BATMAN " }

/-- A television, listed first. -/
def livingRoomTv : Session :=
  { Id := some "s1", DeviceName := some "Living Room TV", SupportsRemoteControl := true,
    PlayableMediaTypes := some ["Audio", "Video"] }

/-- A second device of the same room. -/
def livingRoom : Session :=
  { Id := some "s2", DeviceName := some "Living Room", SupportsRemoteControl := true,
    PlayableMediaTypes := some ["Video"] }

/-- A device named by its `Device` object only. -/
def kitchen : Session :=
  { Id := some "s3", Device := some { Name := some "Kitchen" }, Name := some "session-3",
    SupportsRemoteControl := true, PlayableMediaTypes := some ["Video"] }

/-- A device that cannot play video: it is never listed. -/
def radio : Session :=
  { Id := some "s4", DeviceName := some "Living", SupportsRemoteControl := true,
    PlayableMediaTypes := some ["Audio"] }

/-- A reply of the server with the four devices and a `null` entry. -/
def homeReply : SessionsReply :=
  .ok [some livingRoomTv, none, some livingRoom, some radio, some kitchen]

/-- A reply of the server with the two devices of the living room. -/
def livingReply : SessionsReply := .ok [some livingRoomTv, some livingRoom]

/-- A reply of the server with two devices, the first one without
`DeviceName`. -/
def kitchenReply : SessionsReply := .ok [some kitchen, some livingRoom]

/-- A session whose `Id` is the empty string. -/
def den : Session :=
  { Id := some "", DeviceName := some "Den", SupportsRemoteControl := true,
    PlayableMediaTypes := some ["Video"] }

/-- A reply of the server with the session of the empty `Id` alone. -/
def denReply : SessionsReply := .ok [some den]

/-- A reply of the server with the session of the empty `Id` and another one. -/
def denKitchenReply : SessionsReply := .ok [some den, some kitchen]

/-- Persistent attributes whose active device has the given session id. -/
def persisted (sessionId : String) : Persistent :=
  { video := some { activeDevice := some { sessionId := some sessionId } } }

/-- The options of the series flow: a media source and a start position. -/
def seriesOpts : Obj := [("MediaSourceId", .str "ms1"), ("StartPositionTicks", .num 0)]

/-- A server that rejects the textual `playCommand` and accepts the retry. -/
def numericServer : PlayServer := fun n _ =>
  if n == 0 then .response { status := 400, text := some "Invalid value for playCommand" }
  else .response { status := 200, json := some "{}" }

/-- A server that rejects every play command with status 500. -/
def brokenServer : PlayServer := fun _ _ =>
  .response { status := 500, text := some "Internal Server Error" }

/-- The session "Living Room" playing the item `itemId`. -/
def livingRoomPlaying (itemId : String) : Session :=
  { livingRoom with
    NowPlayingItem := some { Id := some itemId, Name := some ("Item " ++ itemId) } }

/-- Session listings in which "Living Room" starts to play "ep1" at the third
listing and plays "ep0" before. -/
def thirdPoll : Nat → SessionsReply := fun n =>
  if n < 2 then .ok [some livingRoomTv, some (livingRoomPlaying "ep0")]
  else .ok [some livingRoomTv, some (livingRoomPlaying "ep1")]

/-- Session listings in which nothing is ever playing. -/
def idle : Nat → SessionsReply := fun _ => .ok [some livingRoomTv, some livingRoom]

/-- A server that accepts every play command. -/
def acceptingServer : PlayServer := fun _ _ => .response { status := 204 }

/-- A server that accepts the first play command and rejects the next one. -/
def onceServer : PlayServer := fun n _ =>
  if n == 0 then .response { status := 204 }
  else .response { status := 500, text := some "Internal Server Error" }

/-- The series of the examples. -/
def show_ : Item := { Id := some "ser1", Name := some "The Show" }

/-- The episode to play. -/
def pilot : Item :=
  { Id := some "ep1", Name := some "Pilot", ParentIndexNumber := some 1, IndexNumber := some 1 }

/-- Session listings in which "Living Room" keeps playing "ep0". -/
def otherItem : Nat → SessionsReply := fun _ => .ok [some (livingRoomPlaying "ep0")]

/-- Session listings in which "Living Room" plays "ep1" from the sixth
listing on and nothing before. -/
def sixthPoll : Nat → SessionsReply := fun n =>
  if n < 5 then .ok [some livingRoom] else .ok [some (livingRoomPlaying "ep1")]

/-- The genre catalogue of the server: "Rock" finds two genres, every other
term none. -/
def genreSearch : String → ItemsReply := fun q =>
  if normKey q == "rock" then
    .ok [{ Id := some "g1", Name := some "Hard Rock" }, { Id := some "g2", Name := some "Rock" }]
  else .ok []

/-- A search that fails on the network. -/
def downSearch : String → ItemsReply := fun _ => .threw "TypeError: fetch failed"

/-- A cache with one entry, for "jazz", that expires at the time 5000. -/
def jazzCache : GenreCache := [("jazz", { id := some "g7", expires := 5000 })]

/-- A server that accepts the play command at once with the JSON body "{}". -/
def jsonServer : PlayServer := fun _ _ => .response { status := 200, json := some "{}" }

/-- Session listings in which "Living Room" starts to play "ep1" at the fourth
listing and plays nothing before. -/
def lateStart : Nat → SessionsReply := fun n =>
  if n < 3 then .ok [some livingRoomTv, some livingRoom]
  else .ok [some livingRoomTv, some (livingRoomPlaying "ep1")]

/-- A server that stops a playing session and rejects the stop of a session
that is already stopped. -/
def strictStopServer : PlayServer := fun n _ =>
  if n == 0 then .response { status := 204 }
  else .response { status := 404, text := some "Nothing is playing" }

/-- A server whose series search returns "Batman Begins" and "The Batman"
whatever the term. -/
def batmanCatalog : String → ItemsReply := fun _ => .ok [batmanBegins, theBatman]

/-- A server whose search returns nothing. -/
def emptyCatalog : String → ItemsReply := fun _ => .ok []

/-- A server whose search is answered with status 500. -/
def brokenCatalog : String → ItemsReply := fun _ => .nonOk 500 (some "Internal Server Error")

/-- The session "Living Room", active. -/
def activeLiving : Session := { livingRoom with IsActive := true }

/-- The session "Kitchen", active. -/
def activeKitchen : Session := { kitchen with IsActive := true }

/-- The first episode of the series, played. -/
def episode1 : Item :=
  { Id := some "ep1", Name := some "Pilot", ParentIndexNumber := some 1, IndexNumber := some 1,
    SeriesId := some "ser1", UserData := some { Played := true } }

/-- The second episode of the first season. -/
def episode2 : Item :=
  { Id := some "ep2", Name := some "Second", ParentIndexNumber := some 1, IndexNumber := some 2,
    SeriesId := some "ser1" }

/-- The first episode of the second season. -/
def episode3 : Item :=
  { Id := some "ep3", Name := some "Third", ParentIndexNumber := some 2, IndexNumber := some 1,
    SeriesId := some "ser1" }

/-- The first episode with the flag `NextUp`. -/
def episode1NextUp : Item := { episode1 with UserData := some { Played := true, NextUp := true } }

/-- A second version of the second episode, with the same numbers. -/
def episode2b : Item := { episode2 with Id := some "ep2b", Name := some "Second (cut)" }

/-- A home with two active sessions, the series "The Show" and its three
episodes, returned by the server in reverse order. -/
def home : Env :=
  { seriesApi := fun _ => .ok [show_],
    episodes := .ok [episode3, episode2, episode1],
    listReply := .ok [some activeLiving, some activeKitchen],
    findReply := .ok [some activeLiving, some activeKitchen],
    playback := .ok (some { MediaSources := some [{ Id := some "ms1" }] }),
    replies := fun _ => .ok [some activeLiving, some activeKitchen] }

/-- A request for "The Show" on the device "Kitchen". -/
def showOnKitchen : Slots := { seriesname := some "The Show", devicename := some "Kitchen" }

/-- The persistent attributes after the second episode was played on "Living
Room". -/
def afterSecond : Persistent :=
  { video := some
      { activeDevice := some { sessionId := some "s2" },
        lastSeries := some
          { seriesId := some "ser1", seriesName := some "The Show", lastEpisodeId := some "ep2",
            seasonNumber := some 1, episodeNumber := some 2 } } }

/-- The home of the examples with the first episode flagged `NextUp`. -/
def homeNextUp : Env := { home with episodes := .ok [episode3, episode2, episode1NextUp] }

/-- The home of the examples with two versions of the second episode. -/
def homeTwoCuts : Env := { home with episodes := .ok [episode2, episode2b] }

/-- A title in lower case with a letter outside ASCII. -/
def eliteLower : Item := { Id := some "e1", Name := some "élite" }

/-- The same title in upper case. -/
def eliteUpper : Item := { Id := some "e2", Name := some "ÉLITE" }

/-- A title that contains none of the queries of the examples. -/
def amelie : Item := { Id := some "e3", Name := some "Amélie" }

/-- A title in upper case that starts with "ñandú". -/
def nanduAzul : Item := { Id := some "n1", Name := some "ÑANDÚ azul" }

/-- The title "ñandú" in lower case. -/
def nandu : Item := { Id := some "n2", Name := some "ñandú" }

/-- A device with a name in upper case outside ASCII. -/
def salonA : Session :=
  { Id := some "s5", DeviceName := some "SALÓN A", SupportsRemoteControl := true,
    PlayableMediaTypes := some ["Video"] }

/-- A second device of the same room. -/
def salonB : Session :=
  { Id := some "s6", DeviceName := some "SALÓN B", SupportsRemoteControl := true,
    PlayableMediaTypes := some ["Video"] }

/-- The device "SALÓN". -/
def salon : Session :=
  { Id := some "s7", DeviceName := some "SALÓN", SupportsRemoteControl := true,
    PlayableMediaTypes := some ["Video"] }

/-- The device "Cocina". -/
def cocina : Session :=
  { Id := some "s8", DeviceName := some "Cocina", SupportsRemoteControl := true,
    PlayableMediaTypes := some ["Video"] }

/-- A reply of the server with the two devices "SALÓN A" and "SALÓN B". -/
def salonReply : SessionsReply := .ok [some salonA, some salonB]

/-- A reply of the server with the devices "SALÓN" and "Cocina". -/
def casaReply : SessionsReply := .ok [some salon, some cocina]

/-- A genre catalogue with the genre "Música", found by every search. -/
def musicaSearch : String → ItemsReply := fun _ => .ok [{ Id := some "g3", Name := some "Música" }]

/-- A server that rejects every play command with the textual `playCommand`
and accepts the numeric one. -/
def numericOnlyServer : PlayServer := fun _ request =>
  if request.body.get "playCommand" == .num 1 then .response { status := 204 }
  else .response { status := 400, text := some "Invalid value for playCommand" }

/-! ## Lemmas on lists -/

/-- The first element that satisfies `p` is the one in front of which no
element satisfies it. -/
theorem find?_split {α : Type} (p : α → Bool) (pre post : List α) (a : α)
    (hpre : ∀ x ∈ pre, p x = false) (ha : p a = true) :
    (pre ++ a :: post).find? p = some a := by
  induction pre with
  | nil => simp [ha]
  | cons b pre ih =>
    have hb : p b = false := hpre b (List.mem_cons_self _ _)
    simp only [List.cons_append, List.find?_cons, hb]
    exact ih fun x hx => hpre x (List.mem_cons_of_mem _ hx)

/-- No element satisfies `p`, so the search finds nothing. -/
theorem find?_none_of_forall {α : Type} (p : α → Bool) (l : List α)
    (h : ∀ x ∈ l, p x = false) : l.find? p = none := by
  induction l with
  | nil => rfl
  | cons b l ih =>
    have hb : p b = false := h b (List.mem_cons_self _ _)
    simp only [List.find?_cons, hb]
    exact ih fun x hx => h x (List.mem_cons_of_mem _ hx)

/-! ## Resolution of catalog items by name -/

/-- C1: when some candidate has a name that, trimmed and lower-cased, equals
the key (the query trimmed and lower-cased), `_resolveItemsByName` returns the
first such candidate in list order: the candidates in front of it may match
the key as a prefix or as a substring, only not exactly. -/
theorem resolveItemsByName_exact (pre post : List Item) (it : Item) (query : String)
    (hpre : ∀ x ∈ pre, norm x.Name ≠ normKey query)
    (hit : norm it.Name = normKey query) :
    _resolveItemsByName (pre ++ it :: post) (normKey query) = some it := by
  have hfind : (pre ++ it :: post).find? (fun x => norm x.Name == normKey query) = some it :=
    find?_split _ pre post it (fun x hx => by simpa using hpre x hx) (by simpa using hit)
  simp [_resolveItemsByName, hfind]

/-- The exact match in third position wins over a prefix match and a substring
match in front of it; and of the titles "élite" and "ÉLITE", which both equal
the query "ÉLITE" once lower-cased, the first one is returned. -/
theorem resolveItemsByName_exact_witness :
    (∀ x ∈ [batmanBegins, theBatman], norm x.Name ≠ normKey " Batman") ∧
    norm batman.Name = normKey " Batman" ∧
    _resolveItemsByName ([batmanBegins, theBatman] ++ batman :: [batmanReturns])
      (normKey " Batman") = some batman ∧
    norm eliteUpper.Name = normKey "ÉLITE" ∧ normKey "ÉLITE" = "élite" ∧
    _resolveItemsByName ([] ++ eliteLower :: [eliteUpper]) (normKey "ÉLITE") = some eliteLower :=
  ⟨by decide, by decide,
    resolveItemsByName_exact [batmanBegins, theBatman] [batmanReturns] batman " Batman"
      (by decide) (by decide),
    by decide, by decide,
    resolveItemsByName_exact [] [eliteUpper] eliteLower "ÉLITE" (by decide) (by decide)⟩

/-- C2: on a non-empty candidate list in which no name equals, starts with or
contains the key, `_resolveItemsByName` returns the first candidate, and not
`null`. -/
theorem resolveItemsByName_fallback (items : List Item) (key : String)
    (hne : items ≠ [])
    (hno : ∀ x ∈ items, norm x.Name ≠ key ∧ jsStartsWith (norm x.Name) key = false ∧
      jsIncludes (norm x.Name) key = false) :
    _resolveItemsByName items key = items.head? ∧ _resolveItemsByName items key ≠ none := by
  have h1 : items.find? (fun x => norm x.Name == key) = none :=
    find?_none_of_forall _ items fun x hx => by simpa using (hno x hx).1
  have h2 : items.find? (fun x => jsStartsWith (norm x.Name) key) = none :=
    find?_none_of_forall _ items fun x hx => (hno x hx).2.1
  have h3 : items.find? (fun x => jsIncludes (norm x.Name) key) = none :=
    find?_none_of_forall _ items fun x hx => (hno x hx).2.2
  cases items with
  | nil => exact absurd rfl hne
  | cons a l => simp [_resolveItemsByName, h1, h2, h3]

/-- Nothing matches "matrix": the first candidate is returned. Nothing
matches "ñandú" in "Amélie" and "ÉLITE" either, while the key "élite" equals
the lower-cased "ÉLITE", so that the fallback does not apply to it. -/
theorem resolveItemsByName_fallback_witness :
    [theBatman, batmanBegins] ≠ [] ∧
    (∀ x ∈ [theBatman, batmanBegins], norm x.Name ≠ "matrix" ∧
      jsStartsWith (norm x.Name) "matrix" = false ∧
      jsIncludes (norm x.Name) "matrix" = false) ∧
    (_resolveItemsByName [theBatman, batmanBegins] "matrix" = some theBatman ∧
      _resolveItemsByName [theBatman, batmanBegins] "matrix" ≠ none) ∧
    (_resolveItemsByName [amelie, eliteUpper] "ñandú" = some amelie ∧
      _resolveItemsByName [amelie, eliteUpper] "ñandú" ≠ none) ∧
    norm eliteUpper.Name = "élite" ∧
    _resolveItemsByName [amelie, eliteUpper] "élite" = some eliteUpper :=
  ⟨by decide, by decide,
    resolveItemsByName_fallback [theBatman, batmanBegins] "matrix" (by decide) (by decide),
    resolveItemsByName_fallback [amelie, eliteUpper] "ñandú" (by decide) (by decide),
    by decide, by decide⟩

/-- C3: when no candidate has a normalized name equal to the key and at least
one has a normalized name that starts with it, `_resolveItemsByName` returns
the first candidate in list order whose normalized name starts with the key;
the candidates in front of it may contain the key elsewhere. -/
theorem resolveItemsByName_startsWith (pre post : List Item) (it : Item) (key : String)
    (hexact : ∀ x ∈ pre ++ it :: post, norm x.Name ≠ key)
    (hpre : ∀ x ∈ pre, jsStartsWith (norm x.Name) key = false)
    (hit : jsStartsWith (norm it.Name) key = true) :
    _resolveItemsByName (pre ++ it :: post) key = some it := by
  have h1 : (pre ++ it :: post).find? (fun x => norm x.Name == key) = none :=
    find?_none_of_forall _ _ fun x hx => by simpa using hexact x hx
  have h2 : (pre ++ it :: post).find? (fun x => jsStartsWith (norm x.Name) key) = some it :=
    find?_split _ pre post it hpre hit
  simp [_resolveItemsByName, h1, h2]

/-- The two examples of the claim: "batman" over "Batman Begins", "The
Batman", "Batman Returns" and over "The Batman", "Batman Begins" both give
"Batman Begins". The query "Ñandú" over "Amélie", "ÑANDÚ azul" gives "ÑANDÚ
azul", whose lower-cased name starts with "ñandú"; over "ÑANDÚ azul", "ñandú"
the exact match "ñandú" comes first. -/
theorem resolveItemsByName_startsWith_witness :
    _resolveItemsByName [batmanBegins, theBatman, batmanReturns] "batman" = some batmanBegins ∧
    jsStartsWith (norm theBatman.Name) "batman" = false ∧
    jsIncludes (norm theBatman.Name) "batman" = true ∧
    _resolveItemsByName [theBatman, batmanBegins] "batman" = some batmanBegins ∧
    _resolveItemsByName ([amelie] ++ nanduAzul :: []) (normKey "Ñandú") = some nanduAzul ∧
    _resolveItemsByName [nanduAzul, nandu] (normKey "ÑANDÚ") = some nandu :=
  ⟨resolveItemsByName_startsWith [] [theBatman, batmanReturns] batmanBegins "batman"
      (by decide) (by decide) (by decide),
    by decide, by decide,
    resolveItemsByName_startsWith [theBatman] [] batmanBegins "batman"
      (by decide) (by decide) (by decide),
    resolveItemsByName_startsWith [amelie] [] nanduAzul (normKey "Ñandú")
      (by decide) (by decide) (by decide),
    by decide⟩

/-! ## Device sessions by name -/

/-- A string starts with itself. -/
theorem isPrefixOf_self (l : List Char) : l.isPrefixOf l = true := by
  induction l with
  | nil => rfl
  | cons c l ih => simp [List.isPrefixOf, ih]

/-- A prefix occurs in the string. -/
theorem includesChars_of_isPrefixOf (k l : List Char) (h : k.isPrefixOf l = true) :
    includesChars k l = true := by
  cases l with
  | nil => simpa [includesChars] using h
  | cons c cs => simp [includesChars, h]

/-- An exact match is a prefix match. -/
theorem matchesStart_of_matchesExact (key : String) (s : Session)
    (h : matchesExact key s = true) : matchesStart key s = true := by
  have hk : norm (displayOf s) = key := by simpa [matchesExact] using h
  simp [matchesStart, jsStartsWith, hk, isPrefixOf_self]

/-- A prefix match is a substring match. -/
theorem matchesPart_of_matchesStart (key : String) (s : Session)
    (h : matchesStart key s = true) : matchesPart key s = true :=
  includesChars_of_isPrefixOf _ _ h

/-- A rank without a match hands over to the next rank. -/
theorem rank_nil (next : FindResult) : rank [] next = next := rfl

/-- A rank with a match does not look at the next rank. -/
theorem rank_of_ne_nil (hits : List NamedSession) (next other : FindResult)
    (h : hits ≠ []) : rank hits next = rank hits other := by
  match hits, h with
  | [_], _ => rfl
  | _ :: _ :: _, _ => rfl

/-- The three filters of `findByDeviceName` are the filters of the listed
sessions by the three ranks. -/
theorem findByDeviceName_success (reply : SessionsReply) (name : String)
    (items : List Session) (hname : name ≠ "")
    (hlist : Sessions.listSessions reply none = .success items) :
    Sessions.findByDeviceName reply name =
      rank ((firstRank (normKey name) items).map fun it => ⟨it, displayOf it⟩) .notFound := by
  have hf : ∀ q : Option String → Bool,
      (items.map fun it => (⟨it, displayOf it⟩ : NamedSession)).filter (fun n => q n.display) =
        (items.filter fun it => q (displayOf it)).map fun it => ⟨it, displayOf it⟩ := by
    intro q
    rw [List.filter_map]
    rfl
  have hnil : ∀ q : Session → Bool, items.any q = false → items.filter q = [] := by
    intro q hq
    rw [List.filter_eq_nil_iff]
    intro a ha hqa
    have : items.any q = true := List.any_eq_true.mpr ⟨a, ha, hqa⟩
    rw [hq] at this
    exact Bool.noConfusion this
  have hcons : ∀ q : Session → Bool, items.any q = true →
      ((items.filter q).map fun it => (⟨it, displayOf it⟩ : NamedSession)) ≠ [] := by
    intro q hq hmap
    obtain ⟨a, ha, hqa⟩ := List.any_eq_true.mp hq
    have hmem : a ∈ items.filter q := List.mem_filter.mpr ⟨ha, hqa⟩
    rw [List.map_eq_nil_iff] at hmap
    rw [hmap] at hmem
    exact absurd hmem (List.not_mem_nil a)
  unfold Sessions.findByDeviceName
  have hname2 : (name == "") = false := by simpa using hname
  simp only [hname2, hlist]
  rw [hf (fun d => norm d == normKey name), hf (fun d => jsStartsWith (norm d) (normKey name)),
    hf (fun d => jsIncludes (norm d) (normKey name))]
  change rank ((items.filter (matchesExact (normKey name))).map _)
      (rank ((items.filter (matchesStart (normKey name))).map _)
        (rank ((items.filter (matchesPart (normKey name))).map _) .notFound)) = _
  unfold firstRank
  by_cases h1 : items.any (matchesExact (normKey name)) = true
  · rw [if_pos h1]
    exact rank_of_ne_nil _ _ _ (hcons _ h1)
  · have h1f : items.any (matchesExact (normKey name)) = false := by simpa using h1
    rw [if_neg h1, hnil _ h1f, List.map_nil, rank_nil]
    by_cases h2 : items.any (matchesStart (normKey name)) = true
    · rw [if_pos h2]
      exact rank_of_ne_nil _ _ _ (hcons _ h2)
    · have h2f : items.any (matchesStart (normKey name)) = false := by simpa using h2
      rw [if_neg h2, hnil _ h2f, List.map_nil, rank_nil]

/-- C4: for a non-empty name and a successful listing, when two or more
sessions match at the first of the ranks exact / prefix / substring that has
any match, `findByDeviceName` returns `ambiguous` with the display names of
all the sessions that match at that rank, in list order, and no session. -/
theorem findByDeviceName_ambiguous (reply : SessionsReply) (name : String)
    (items : List Session) (hname : name ≠ "")
    (hlist : Sessions.listSessions reply none = .success items)
    (htie : 2 ≤ (firstRank (normKey name) items).length) :
    Sessions.findByDeviceName reply name =
        .ambiguous ((firstRank (normKey name) items).map fun s => displayOf s) ∧
      ∀ s, Sessions.findByDeviceName reply name ≠ .ok s := by
  rw [findByDeviceName_success reply name items hname hlist]
  generalize firstRank (normKey name) items = hits at htie
  match hits, htie with
  | a :: b :: l, _ =>
    constructor
    · simp [rank, Function.comp_def]
    · intro s hs
      simp [rank] at hs

/-- The example of the claim: "Living Room TV" and "Living Room" with the
name "Living" are ambiguous, and both names are listed. So are "SALÓN A" and
"SALÓN B" with the name "salón". -/
theorem findByDeviceName_ambiguous_witness :
    Sessions.listSessions livingReply none = .success [livingRoomTv, livingRoom] ∧
    (Sessions.findByDeviceName livingReply "Living" =
        .ambiguous [some "Living Room TV", some "Living Room"] ∧
      ∀ s, Sessions.findByDeviceName livingReply "Living" ≠ .ok s) ∧
    firstRank (normKey "salón") [salonA, salonB] = [salonA, salonB] ∧
    Sessions.findByDeviceName salonReply "salón" = .ambiguous [some "SALÓN A", some "SALÓN B"] :=
  ⟨by decide,
    findByDeviceName_ambiguous livingReply "Living" [livingRoomTv, livingRoom]
      (by decide) (by decide) (by decide),
    by decide,
    (findByDeviceName_ambiguous salonReply "salón" [salonA, salonB]
      (by decide) (by decide) (by decide)).1⟩

/-- C5: for a non-empty name and a successful listing, `findByDeviceName`
returns `ok` with session `s` exactly when `s` is the only session that
matches at the first of the ranks exact / prefix / substring that has any
match, on the display name `DeviceName || Device.Name || Name || Id` trimmed
and lower-cased. A single exact match wins whatever matches at the later
ranks, and when no display name contains the name the result is `not-found`. -/
theorem findByDeviceName_ok_iff (reply : SessionsReply) (name : String)
    (items : List Session) (s : Session) (hname : name ≠ "")
    (hlist : Sessions.listSessions reply none = .success items) :
    (Sessions.findByDeviceName reply name = .ok s ↔ firstRank (normKey name) items = [s]) ∧
    (items.filter (matchesExact (normKey name)) = [s] → Sessions.findByDeviceName reply name = .ok s) ∧
    ((∀ x ∈ items, matchesPart (normKey name) x = false) →
      Sessions.findByDeviceName reply name = .notFound) := by
  rw [findByDeviceName_success reply name items hname hlist]
  refine ⟨?_, ?_, ?_⟩
  · generalize firstRank (normKey name) items = hits
    match hits with
    | [] => simp [rank]
    | [a] => simp [rank]
    | a :: b :: l => simp [rank]
  · intro hex
    have hany : items.any (matchesExact (normKey name)) = true := by
      have hmem : s ∈ items.filter (matchesExact (normKey name)) := by simp [hex]
      exact List.any_eq_true.mpr ⟨s, (List.mem_filter.mp hmem).1, (List.mem_filter.mp hmem).2⟩
    simp [firstRank, hany, hex, rank]
  · intro hno
    have h3 : items.filter (matchesPart (normKey name)) = [] := by
      rw [List.filter_eq_nil_iff]
      intro a ha
      simp [hno a ha]
    have h2 : items.any (matchesStart (normKey name)) = false := by
      rw [Bool.eq_false_iff]
      intro h
      obtain ⟨a, ha, hqa⟩ := List.any_eq_true.mp h
      have := matchesPart_of_matchesStart _ _ hqa
      rw [hno a ha] at this
      exact Bool.noConfusion this
    have h1 : items.any (matchesExact (normKey name)) = false := by
      rw [Bool.eq_false_iff]
      intro h
      obtain ⟨a, ha, hqa⟩ := List.any_eq_true.mp h
      have := matchesPart_of_matchesStart _ _ (matchesStart_of_matchesExact _ _ hqa)
      rw [hno a ha] at this
      exact Bool.noConfusion this
    simp [firstRank, h1, h2, h3, rank]

/-- The name " living room " has one exact match, "Living Room", which is
returned although "Living Room TV" matches it as a prefix; no display name
contains "garage", which is not found. The name "salón" has the one match
"SALÓN" among "SALÓN" and "Cocina". -/
theorem findByDeviceName_ok_iff_witness :
    Sessions.listSessions homeReply none = .success [livingRoomTv, livingRoom, kitchen] ∧
    matchesStart (normKey " living room ") livingRoomTv = true ∧
    Sessions.findByDeviceName homeReply " living room " = .ok livingRoom ∧
    Sessions.findByDeviceName homeReply "garage" = .notFound ∧
    matchesExact (normKey "salón") salon = true ∧
    Sessions.findByDeviceName casaReply "salón" = .ok salon :=
  ⟨by decide, by decide,
    (findByDeviceName_ok_iff homeReply " living room " [livingRoomTv, livingRoom, kitchen]
      livingRoom (by decide) (by decide)).2.1 (by decide),
    (findByDeviceName_ok_iff homeReply "garage" [livingRoomTv, livingRoom, kitchen]
      livingRoom (by decide) (by decide)).2.2 (by decide),
    by decide,
    (findByDeviceName_ok_iff casaReply "salón" [salon, cocina] salon (by decide)
      (by decide)).1.mpr (by decide)⟩

/-! ## Resolution of the active device -/

/-- Without a listed session of the persisted id, the search of the persisted
session finds nothing. -/
theorem persistedSession_stale (video : VideoState) (items : List Session)
    (hstale : ∀ vid sid, video.activeDevice = some vid → vid.sessionId = some sid →
      ∀ s ∈ items, s.Id ≠ some sid) :
    persistedSession video items = none := by
  unfold persistedSession
  split
  · rfl
  · next vid hv =>
    split
    · next ht =>
      cases hs : vid.sessionId with
      | none => simp [hs, truthy] at ht
      | some sid =>
        exact find?_none_of_forall _ items fun x hx => by simpa using hstale vid sid hv hs x hx
    · rfl

/-- The result of `resolveActiveDevice` when there is no override and the
search of the persisted session finds nothing: it depends only on the listed
sessions. -/
theorem resolveActiveDevice_fallthrough (persistent : Persistent)
    (preferredDeviceName : Option String) (listReply findReply : SessionsReply)
    (items : List Session)
    (hover : overrideNameOf preferredDeviceName = "")
    (hlist : Sessions.list listReply none = .success items)
    (hstale : ∀ vid sid, (loadVideo persistent).activeDevice = some vid →
      vid.sessionId = some sid → ∀ s ∈ items, s.Id ≠ some sid) :
    (items = [] →
      resolveActiveDevice persistent preferredDeviceName listReply findReply = .notFound) ∧
    (∀ it, items = [it] →
      resolveActiveDevice persistent preferredDeviceName listReply findReply =
        .ok it (some true)) ∧
    (2 ≤ items.length →
      resolveActiveDevice persistent preferredDeviceName listReply findReply =
        .multiple (items.map fun it => jsOr it.DeviceName it.Name)) := by
  have hfound := persistedSession_stale (loadVideo persistent) items hstale
  unfold resolveActiveDevice
  simp only [hover, hlist, hfound]
  refine ⟨?_, ?_, ?_⟩
  · intro h
    simp [h]
  · intro it h
    simp [h]
  · intro h
    match items, h with
    | a :: b :: l, _ => simp

/-- C6, as amended: for a session list with two or more entries, without an
override name and without a persisted session id that occurs in the list,
`resolveActiveDevice` does not return `ok`; it returns `multiple` with, for
every listed session in list order, `DeviceName || Name`. This label is the
display name of `findByDeviceName` for every session with a non-empty
`DeviceName`. -/
theorem resolveActiveDevice_multiple (persistent : Persistent)
    (preferredDeviceName : Option String) (listReply findReply : SessionsReply)
    (items : List Session)
    (hover : overrideNameOf preferredDeviceName = "")
    (hlist : Sessions.list listReply none = .success items)
    (hlen : 2 ≤ items.length)
    (hstale : ∀ vid sid, (loadVideo persistent).activeDevice = some vid →
      vid.sessionId = some sid → ∀ s ∈ items, s.Id ≠ some sid) :
    resolveActiveDevice persistent preferredDeviceName listReply findReply =
        .multiple (items.map fun it => jsOr it.DeviceName it.Name) ∧
      (∀ s p, resolveActiveDevice persistent preferredDeviceName listReply findReply ≠ .ok s p) ∧
      ∀ it ∈ items, truthy it.DeviceName = true → jsOr it.DeviceName it.Name = displayOf it := by
  have hres := (resolveActiveDevice_fallthrough persistent preferredDeviceName listReply
    findReply items hover hlist hstale).2.2 hlen
  refine ⟨hres, ?_, ?_⟩
  · intro s p
    rw [hres]
    exact fun h => DeviceResult.noConfusion h
  · intro it _ hdev
    simp [displayOf, jsOr, hdev]

/-- Three listed sessions, a persisted session that is gone: `multiple` with
the three labels. -/
theorem resolveActiveDevice_multiple_witness :
    Sessions.list homeReply none = .success [livingRoomTv, livingRoom, kitchen] ∧
    resolveActiveDevice (persisted "s9") none homeReply homeReply =
      .multiple [some "Living Room TV", some "Living Room", some "session-3"] :=
  ⟨by decide,
    (resolveActiveDevice_multiple (persisted "s9") none homeReply homeReply
      [livingRoomTv, livingRoom, kitchen] (by decide) (by decide) (by decide)
      (by
        intro vid sid hv hs
        have hvid : vid = { sessionId := some "s9" } := by
          have h : some ({ sessionId := some "s9" } : ActiveDevice) = some vid := hv
          exact (Option.some.inj h).symm
        subst hvid
        have hsid : sid = "s9" := (Option.some.inj hs).symm
        subst hsid
        decide)).1⟩

/-- C6, as stated, fails: the session "Kitchen" has no `DeviceName`, its display
name in `findByDeviceName` is the `Device.Name` "Kitchen", and the `multiple`
result lists its `Name` "session-3" instead. -/
theorem resolveActiveDevice_multiple_counterexample :
    Sessions.list kitchenReply none = .success [kitchen, livingRoom] ∧
    [kitchen, livingRoom].map displayOf = [some "Kitchen", some "Living Room"] ∧
    resolveActiveDevice {} none kitchenReply kitchenReply =
      .multiple [some "session-3", some "Living Room"] ∧
    resolveActiveDevice {} none kitchenReply kitchenReply ≠
      .multiple ([kitchen, livingRoom].map displayOf) := by
  decide

/-- A name that is not blank is not empty. -/
theorem ne_empty_of_trim_ne_empty (name : String) (h : jsTrim name ≠ "") : name ≠ "" := by
  intro hname
  subst hname
  exact h rfl

/-- C7: for a non-blank override name and a session listing that succeeds, is
non-empty and is the same for both lookups, `resolveActiveDevice` returns what
`findByDeviceName` yields for the trimmed override, whatever is persisted:
`ok` becomes `ok` with that session and `persist = true`, `ambiguous` keeps
its matches, `not-found` stays `not-found`; `findByDeviceName` has no other
outcome there. -/
theorem resolveActiveDevice_override (persistent : Persistent) (preferredDeviceName : String)
    (reply : SessionsReply) (items : List Session)
    (hblank : jsTrim preferredDeviceName ≠ "")
    (hlist : Sessions.list reply none = .success items)
    (hne : items ≠ []) :
    (∀ s, Sessions.findByDeviceName reply (jsTrim preferredDeviceName) = .ok s →
      resolveActiveDevice persistent (some preferredDeviceName) reply reply =
        .ok s (some true)) ∧
    (∀ m, Sessions.findByDeviceName reply (jsTrim preferredDeviceName) = .ambiguous m →
      resolveActiveDevice persistent (some preferredDeviceName) reply reply = .ambiguous m) ∧
    (Sessions.findByDeviceName reply (jsTrim preferredDeviceName) = .notFound →
      resolveActiveDevice persistent (some preferredDeviceName) reply reply = .notFound) ∧
    (∀ e, Sessions.findByDeviceName reply (jsTrim preferredDeviceName) ≠ .error e) := by
  have hname : preferredDeviceName ≠ "" := ne_empty_of_trim_ne_empty _ hblank
  have hover : overrideNameOf (some preferredDeviceName) = jsTrim preferredDeviceName := by
    simp [overrideNameOf, truthy, hname]
  have hempty : items.isEmpty = false := by
    cases items with
    | nil => exact absurd rfl hne
    | cons a l => rfl
  have hb : (jsTrim preferredDeviceName != "") = true := by simpa using hblank
  have hres : resolveActiveDevice persistent (some preferredDeviceName) reply reply =
      match Sessions.findByDeviceName reply (jsTrim preferredDeviceName) with
      | .ok session => .ok session (some true)
      | .ambiguous matched => .ambiguous matched
      | _ => .notFound := by
    unfold resolveActiveDevice
    simp only [hover, hlist, hempty, hb]
    rfl
  refine ⟨?_, ?_, ?_, ?_⟩
  · intro s h
    rw [hres, h]
  · intro m h
    rw [hres, h]
  · intro h
    rw [hres, h]
  · intro e h
    have hl : Sessions.listSessions reply none = .success items := hlist
    rw [findByDeviceName_success reply _ items hblank hl] at h
    generalize firstRank (normKey (jsTrim preferredDeviceName)) items = hits at h
    match hits, h with
    | [], h => simp [rank] at h
    | [a], h => simp [rank] at h
    | a :: b :: l, h => simp [rank] at h

/-- The override " living room " picks "Living Room" with `persist = true`
although the persisted device "s3" is listed. -/
theorem resolveActiveDevice_override_witness :
    jsTrim " living room " ≠ "" ∧
    Sessions.list homeReply none = .success [livingRoomTv, livingRoom, kitchen] ∧
    Sessions.findByDeviceName homeReply (jsTrim " living room ") = .ok livingRoom ∧
    resolveActiveDevice (persisted "s3") (some " living room ") homeReply homeReply =
      .ok livingRoom (some true) :=
  ⟨by decide, by decide, by decide,
    (resolveActiveDevice_override (persisted "s3") " living room " homeReply
      [livingRoomTv, livingRoom, kitchen] (by decide) (by decide) (by decide)).1
      livingRoom (by decide)⟩

/-- C8, as amended: when the persisted active device has a non-empty
`sessionId` that is the `Id` of a listed session, `resolveActiveDevice`
without an override returns `ok` with a listed session of that `Id` (the first
one) and without the `persist` property, also when several sessions are
listed. -/
theorem resolveActiveDevice_persisted (persistent : Persistent)
    (preferredDeviceName : Option String) (listReply findReply : SessionsReply)
    (items : List Session) (vid : ActiveDevice) (sid : String)
    (hover : overrideNameOf preferredDeviceName = "")
    (hlist : Sessions.list listReply none = .success items)
    (hvid : (loadVideo persistent).activeDevice = some vid)
    (hsid : vid.sessionId = some sid)
    (hsidne : sid ≠ "")
    (hin : ∃ s ∈ items, s.Id = some sid) :
    ∃ s ∈ items, s.Id = some sid ∧
      items.find? (fun it => it.Id == some sid) = some s ∧
      resolveActiveDevice persistent preferredDeviceName listReply findReply = .ok s none := by
  obtain ⟨s0, hs0, hid0⟩ := hin
  have hsome : (items.find? fun (it : Session) => it.Id == some sid).isSome = true := by
    rw [List.find?_isSome]
    exact ⟨s0, hs0, by simp [hid0]⟩
  obtain ⟨s, hs⟩ := Option.isSome_iff_exists.mp hsome
  have hmem : s ∈ items := List.mem_of_find?_eq_some hs
  have hid : s.Id = some sid := by simpa using List.find?_some hs
  have hempty : items.isEmpty = false := by
    cases items with
    | nil => exact absurd hmem (List.not_mem_nil s)
    | cons a l => rfl
  have hfound : persistedSession (loadVideo persistent) items = some s := by
    simp [persistedSession, hvid, hsid, truthy, hsidne, hs]
  refine ⟨s, hmem, hid, hs, ?_⟩
  unfold resolveActiveDevice
  simp only [hover, hlist, hempty, hfound]
  rfl

/-- The persisted device "s3" is listed among three sessions: it is returned,
without `persist`. -/
theorem resolveActiveDevice_persisted_witness :
    Sessions.list homeReply none = .success [livingRoomTv, livingRoom, kitchen] ∧
    ∃ s ∈ [livingRoomTv, livingRoom, kitchen], s.Id = some "s3" ∧
      [livingRoomTv, livingRoom, kitchen].find? (fun it => it.Id == some "s3") = some s ∧
      resolveActiveDevice (persisted "s3") none homeReply homeReply = .ok s none :=
  ⟨by decide,
    resolveActiveDevice_persisted (persisted "s3") none homeReply homeReply
      [livingRoomTv, livingRoom, kitchen] { sessionId := some "s3" } "s3"
      (by decide) (by decide) (by decide) (by decide) (by decide) ⟨kitchen, by decide, by decide⟩⟩

/-- C8, as stated, fails for the empty session id: the persisted `sessionId`
"" equals the `Id` of the listed session, and the result is `ok` with
`persist = true` for one listed session and `multiple` for two. -/
theorem resolveActiveDevice_persisted_counterexample :
    Sessions.list denReply none = .success [den] ∧
    (∃ s ∈ [den], s.Id = some "") ∧
    resolveActiveDevice (persisted "") none denReply denReply = .ok den (some true) ∧
    Sessions.list denKitchenReply none = .success [den, kitchen] ∧
    resolveActiveDevice (persisted "") none denKitchenReply denKitchenReply =
      .multiple [some "Den", some "session-3"] := by
  decide

/-- C9: when the persisted `sessionId` is not the `Id` of any listed session,
`resolveActiveDevice` without an override returns what it returns when
nothing is persisted: `ok` with the session and `persist = true` for exactly
one listed session, `multiple` for more than one; with a listed session the
result is not `not-found`. -/
theorem resolveActiveDevice_stale (persistent : Persistent)
    (preferredDeviceName : Option String) (listReply findReply : SessionsReply)
    (hover : overrideNameOf preferredDeviceName = "")
    (hstale : ∀ items, Sessions.list listReply none = .success items →
      ∀ vid sid, (loadVideo persistent).activeDevice = some vid →
        vid.sessionId = some sid → ∀ s ∈ items, s.Id ≠ some sid) :
    resolveActiveDevice persistent preferredDeviceName listReply findReply =
        resolveActiveDevice {} preferredDeviceName listReply findReply ∧
    (∀ it, Sessions.list listReply none = .success [it] →
      resolveActiveDevice persistent preferredDeviceName listReply findReply =
        .ok it (some true)) ∧
    (∀ items, Sessions.list listReply none = .success items → 2 ≤ items.length →
      resolveActiveDevice persistent preferredDeviceName listReply findReply =
        .multiple (items.map fun it => jsOr it.DeviceName it.Name)) ∧
    (∀ items, Sessions.list listReply none = .success items → items ≠ [] →
      resolveActiveDevice persistent preferredDeviceName listReply findReply ≠ .notFound) := by
  have hnothing : ∀ items : List Session, ∀ vid sid,
      (loadVideo {}).activeDevice = some vid → vid.sessionId = some sid →
        ∀ s ∈ items, s.Id ≠ some sid := by
    intro items vid sid hv
    exact Option.noConfusion hv
  refine ⟨?_, ?_, ?_, ?_⟩
  · cases hlist : Sessions.list listReply none with
    | failure code err =>
      unfold resolveActiveDevice
      simp only [hlist]
    | success items =>
      have h1 := resolveActiveDevice_fallthrough persistent preferredDeviceName listReply
        findReply items hover hlist (hstale items hlist)
      have h2 := resolveActiveDevice_fallthrough {} preferredDeviceName listReply
        findReply items hover hlist (hnothing items)
      match items, h1, h2 with
      | [], h1, h2 => rw [h1.1 rfl, h2.1 rfl]
      | [it], h1, h2 => rw [h1.2.1 it rfl, h2.2.1 it rfl]
      | a :: b :: l, h1, h2 =>
        have hlen : 2 ≤ (a :: b :: l).length := by simp
        rw [h1.2.2 hlen, h2.2.2 hlen]
  · intro it hlist
    exact (resolveActiveDevice_fallthrough persistent preferredDeviceName listReply
      findReply [it] hover hlist (hstale [it] hlist)).2.1 it rfl
  · intro items hlist hlen
    exact (resolveActiveDevice_fallthrough persistent preferredDeviceName listReply
      findReply items hover hlist (hstale items hlist)).2.2 hlen
  · intro items hlist hne
    have h1 := resolveActiveDevice_fallthrough persistent preferredDeviceName listReply
      findReply items hover hlist (hstale items hlist)
    match items, hne, h1 with
    | [it], _, h1 =>
      rw [h1.2.1 it rfl]
      exact fun h => DeviceResult.noConfusion h
    | a :: b :: l, _, h1 =>
      have hlen : 2 ≤ (a :: b :: l).length := by simp
      rw [h1.2.2 hlen]
      exact fun h => DeviceResult.noConfusion h

/-- The persisted session "s9" is gone and one session is listed: it is
selected with `persist = true`, as when nothing is persisted. -/
theorem resolveActiveDevice_stale_witness :
    Sessions.list denReply none = .success [den] ∧
    resolveActiveDevice (persisted "s9") none denReply denReply =
      resolveActiveDevice {} none denReply denReply ∧
    resolveActiveDevice (persisted "s9") none denReply denReply = .ok den (some true) :=
  have h := resolveActiveDevice_stale (persisted "s9") none denReply denReply (by decide)
    (by
      intro items hlist vid sid hv hs
      have hitems : items = [den] := by
        have h : ApiResult.success [den] = ApiResult.success items := hlist
        exact (ApiResult.success.inj h).symm
      have hvid : vid = { sessionId := some "s9" } := by
        have h : some ({ sessionId := some "s9" } : ActiveDevice) = some vid := hv
        exact (Option.some.inj h).symm
      subst hitems
      subst hvid
      have hsid : sid = "s9" := (Option.some.inj hs).symm
      subst hsid
      decide)
  ⟨by decide, h.1, h.2.1 den (by decide)⟩

/-! ## The play command and its retry -/

/-- Reading a property looks at the first pair, then at the others. -/
theorem Obj.get_cons (p : String × JsVal) (o : Obj) (k : String) :
    Obj.get (p :: o) k = if p.1 == k then p.2 else Obj.get o k := by
  by_cases h : (p.1 == k) = true
  · simp [Obj.get, List.find?_cons, h]
  · have hf : (p.1 == k) = false := by simpa using h
    simp [Obj.get, List.find?_cons, hf]

/-- Writing a property looks at the first pair, then at the others. -/
theorem Obj.set_cons (p : String × JsVal) (o : Obj) (k : String) (v : JsVal) :
    Obj.set (p :: o) k v = if p.1 == k then (k, v) :: o else p :: Obj.set o k v := rfl

/-- Reading the property that was just written. -/
theorem Obj.get_set_self (o : Obj) (k : String) (v : JsVal) : (Obj.set o k v).get k = v := by
  induction o with
  | nil => simp [Obj.set, Obj.get]
  | cons p o ih =>
    rw [Obj.set_cons]
    by_cases hp : (p.1 == k) = true
    · rw [if_pos hp, Obj.get_cons]
      simp
    · rw [if_neg hp, Obj.get_cons, if_neg hp]
      exact ih

/-- Writing another property does not change the one that is read. -/
theorem Obj.get_set_other (o : Obj) (k j : String) (v : JsVal) (hkj : j ≠ k) :
    (Obj.set o j v).get k = o.get k := by
  have hjk : ¬ (j == k) = true := by simpa using hkj
  induction o with
  | nil =>
    show Obj.get [(j, v)] k = Obj.get [] k
    rw [Obj.get_cons, if_neg hjk]
  | cons p o ih =>
    rw [Obj.set_cons]
    by_cases hp : (p.1 == j) = true
    · have hpj : p.1 = j := by simpa using hp
      have hpk : ¬ (p.1 == k) = true := by simpa [hpj] using hkj
      rw [if_pos hp, Obj.get_cons, Obj.get_cons, if_neg hpk, if_neg hjk]
    · rw [if_neg hp, Obj.get_cons, Obj.get_cons, ih]

/-- `JSON.stringify` looks at the first pair, then at the others. -/
theorem jsonStringify_cons (p : String × JsVal) (o : Obj) :
    jsonStringify (p :: o) =
      if p.2 != JsVal.undefined then p :: jsonStringify o else jsonStringify o := by
  by_cases h : (p.2 != JsVal.undefined) = true
  · simp [jsonStringify, List.filter_cons, h]
  · have hf : (p.2 != JsVal.undefined) = false := by simpa using h
    rw [if_neg h]
    simp only [jsonStringify, List.filter_cons, hf]
    rfl

/-- A property whose value is not `undefined` is written by `JSON.stringify`
with that value. -/
theorem jsonStringify_get (o : Obj) (k : String) (h : o.get k ≠ .undefined) :
    (jsonStringify o).get k = o.get k := by
  induction o with
  | nil => rfl
  | cons p o ih =>
    rw [jsonStringify_cons]
    rw [Obj.get_cons] at h ⊢
    by_cases hk : (p.1 == k) = true
    · rw [if_pos hk] at h ⊢
      have hv : (p.2 != JsVal.undefined) = true := by simpa using h
      rw [if_pos hv, Obj.get_cons, if_pos hk]
    · rw [if_neg hk] at h ⊢
      by_cases hv : (p.2 != JsVal.undefined) = true
      · rw [if_pos hv, Obj.get_cons, if_neg hk]
        exact ih h
      · rw [if_neg hv]
        exact ih h

/-- The body of the retry carries `playCommand` as the number 1. -/
theorem retryRequest_playCommand (sessionId itemId : String) (opts : Obj) :
    (retryRequest sessionId itemId opts).body.get "playCommand" = .num 1 := by
  have h : (retryBody itemId opts).get "playCommand" = .num 1 := by
    simp only [retryBody, Obj.assign, List.foldl]
    rw [Obj.get_set_other _ _ _ _ (by decide), Obj.get_set_self]
  show (jsonStringify (retryBody itemId opts)).get "playCommand" = .num 1
  rw [jsonStringify_get _ _ (by rw [h]; exact fun e => JsVal.noConfusion e), h]

/-- C10: for non-empty `sessionId` and `itemId`, when the first `POST` is
answered with status 400 and a body that contains "playCommand" in any letter
case, `playOnSession` sends exactly one further `POST`, whose body carries
`playCommand` as the integer 1, and never a third one; when the second
response is successful the result has `status: true` (with the JSON of that
response). -/
theorem playOnSession_numeric_retry (debugPlayRequests : Bool) (server : PlayServer)
    (sessionId itemId : String) (opts : Obj) (first : HttpResponse) (bodyText : String)
    (hsession : sessionId ≠ "") (hitem : itemId ≠ "")
    (hfirst : server 0 (playRequest sessionId itemId opts) = .response first)
    (hstatus : first.status = 400)
    (htext : first.text = some bodyText)
    (hbody : jsIncludes (jsToLowerCase bodyText) "playcommand" = true) :
    (Sessions.playOnSession debugPlayRequests server sessionId itemId opts).2 =
        [playRequest sessionId itemId opts, retryRequest sessionId itemId opts] ∧
    (retryRequest sessionId itemId opts).body.get "playCommand" = .num 1 ∧
    ∀ second, server 1 (retryRequest sessionId itemId opts) = .response second →
      second.ok = true →
      (Sessions.playOnSession debugPlayRequests server sessionId itemId opts).1 =
        { status := true, response := second.json } := by
  have hguard : (sessionId == "" || itemId == "") = false := by simp [hsession, hitem]
  have hok : first.ok = false := by simp [HttpResponse.ok, hstatus]
  have hne : bodyText ≠ "" := by
    intro h
    rw [h] at hbody
    exact Bool.noConfusion hbody
  have hcond : (first.status == 400 && (first.text.getD "<failed-to-read-body>") != "" &&
      jsIncludes (jsToLowerCase (first.text.getD "<failed-to-read-body>")) "playcommand") = true := by
    simp [hstatus, htext, hne, hbody]
  refine ⟨?_, retryRequest_playCommand sessionId itemId opts, ?_⟩
  · unfold Sessions.playOnSession
    simp only [hguard, hfirst, hok, hcond]
    cases hsecond : server 1 (retryRequest sessionId itemId opts) with
    | threw message => simp
    | response second =>
      by_cases h2 : second.ok = true
      · simp [h2]
      · simp [h2]
  · intro second hsecond h2
    unfold Sessions.playOnSession
    simp only [hguard, hfirst, hok, hcond, hsecond]
    simp [h2]

/-- The end-to-end example: status 400 with the body "Invalid value for
playCommand", then 200 on the retry. -/
theorem playOnSession_numeric_retry_witness :
    (Sessions.playOnSession false numericServer "s1" "ep1" seriesOpts).2 =
        [playRequest "s1" "ep1" seriesOpts, retryRequest "s1" "ep1" seriesOpts] ∧
    (retryRequest "s1" "ep1" seriesOpts).body.get "playCommand" = .num 1 ∧
    (playRequest "s1" "ep1" seriesOpts).body.get "playCommand" = .str "PlayNow" ∧
    (Sessions.playOnSession false numericServer "s1" "ep1" seriesOpts).1 =
        { status := true, response := some "{}" } :=
  have h := playOnSession_numeric_retry false numericServer "s1" "ep1" seriesOpts
    { status := 400, text := some "Invalid value for playCommand" }
    "Invalid value for playCommand" (by decide) (by decide) rfl rfl rfl (by decide)
  ⟨h.1, h.2.1, by decide, h.2.2 { status := 200, json := some "{}" } rfl (by decide)⟩

/-- C11: for non-empty `sessionId` and `itemId`, when the first response is
not successful and its body does not contain "playCommand" in any letter
case, `playOnSession` sends that one request only and returns a failure with
the status code and the body text of the response. -/
theorem playOnSession_no_retry (debugPlayRequests : Bool) (server : PlayServer)
    (sessionId itemId : String) (opts : Obj) (first : HttpResponse) (bodyText : String)
    (hsession : sessionId ≠ "") (hitem : itemId ≠ "")
    (hfirst : server 0 (playRequest sessionId itemId opts) = .response first)
    (hnok : first.ok = false)
    (htext : first.text = some bodyText)
    (hbody : jsIncludes (jsToLowerCase bodyText) "playcommand" = false) :
    Sessions.playOnSession debugPlayRequests server sessionId itemId opts =
      ({ status := false, statusCode := some first.status, error := some bodyText },
        [playRequest sessionId itemId opts]) := by
  have hguard : (sessionId == "" || itemId == "") = false := by simp [hsession, hitem]
  unfold Sessions.playOnSession
  simp only [hguard, hfirst, hnok, htext]
  simp [hbody]

/-- A status 500 with the body "Internal Server Error": one request, and the
failure carries 500 and that text. -/
theorem playOnSession_no_retry_witness :
    Sessions.playOnSession false brokenServer "s1" "ep1" seriesOpts =
      ({ status := false, statusCode := some 500, error := some "Internal Server Error" },
        [playRequest "s1" "ep1" seriesOpts]) :=
  playOnSession_no_retry false brokenServer "s1" "ep1" seriesOpts
    { status := 500, text := some "Internal Server Error" } "Internal Server Error"
    (by decide) (by decide) rfl (by decide) rfl (by decide)

/-! ## Verification of the playing item -/

/-- A confirmed result of the loop comes from a poll of the loop that observed
the expected item on the target session. -/
theorem waitLoop_confirmed (replies : Nat → SessionsReply)
    (sessionId expectedItemId : Option String) (remaining i : Nat) (s : Session)
    (attempt calls : Nat)
    (h : waitLoop replies sessionId expectedItemId remaining i = (.confirmed s attempt, calls)) :
    ∃ k, i ≤ k ∧ k < i + remaining ∧ target (replies k) sessionId = some s ∧
      nowPlays s expectedItemId = true ∧ attempt = k + 1 ∧ calls = k + 1 := by
  induction remaining generalizing i with
  | zero => simp [waitLoop] at h
  | succ n ih =>
    unfold waitLoop at h
    cases hl : Sessions.listSessions (replies i) none with
    | failure code err => simp [hl] at h
    | success items =>
      simp only [hl] at h
      cases hf : findSession items sessionId with
      | none =>
        simp only [hf] at h
        obtain ⟨k, hk1, hk2, hk3⟩ := ih (i + 1) h
        exact ⟨k, by omega, by omega, hk3⟩
      | some t =>
        simp only [hf] at h
        by_cases hp : nowPlays t expectedItemId = true
        · simp only [hp, if_true, Prod.mk.injEq, WaitResult.confirmed.injEq] at h
          obtain ⟨⟨hs, ha⟩, hc⟩ := h
          subst hs
          exact ⟨i, le_refl i, by omega, by simp [target, hl, hf], hp, ha.symm, hc.symm⟩
        · simp only [hp] at h
          obtain ⟨k, hk1, hk2, hk3⟩ := ih (i + 1) h
          exact ⟨k, by omega, by omega, hk3⟩

/-- The loop returns at the first poll that observes the expected item, when
the listings before it succeed. -/
theorem waitLoop_first (replies : Nat → SessionsReply)
    (sessionId expectedItemId : Option String) (remaining i j : Nat) (s : Session)
    (hij : i ≤ j) (hj : j < i + remaining)
    (hlisted : ∀ m, i ≤ m → m < j → listed (replies m) = true)
    (hbefore : ∀ m, i ≤ m → m < j → observes (replies m) sessionId expectedItemId = false)
    (htarget : target (replies j) sessionId = some s)
    (hplays : nowPlays s expectedItemId = true) :
    waitLoop replies sessionId expectedItemId remaining i = (.confirmed s (j + 1), j + 1) := by
  induction remaining generalizing i with
  | zero => omega
  | succ n ih =>
    unfold waitLoop
    by_cases heq : i = j
    · subst heq
      cases hl : Sessions.listSessions (replies i) none with
      | failure code err => simp [target, hl] at htarget
      | success items =>
        have hf : findSession items sessionId = some s := by simpa [target, hl] using htarget
        simp [hf, hplays]
    · have hlt : i < j := by omega
      have h1 := hlisted i (le_refl i) hlt
      have h2 := hbefore i (le_refl i) hlt
      have hrec := ih (i + 1) (by omega) (by omega)
        (fun m hm hmj => hlisted m (by omega) hmj)
        (fun m hm hmj => hbefore m (by omega) hmj)
      cases hl : Sessions.listSessions (replies i) none with
      | failure code err => simp [listed, hl] at h1
      | success items =>
        cases hf : findSession items sessionId with
        | none => simpa [hf] using hrec
        | some t =>
          have hp : nowPlays t expectedItemId = false := by simpa [observes, hl, hf] using h2
          simpa [hf, hp] using hrec

/-- The number of listings made by the loop: at most one for each iteration
when it returns from the loop, and one more when it runs to the end. -/
theorem waitLoop_calls (replies : Nat → SessionsReply)
    (sessionId expectedItemId : Option String) (remaining i : Nat) :
    i < (waitLoop replies sessionId expectedItemId remaining i).2 ∧
    (waitLoop replies sessionId expectedItemId remaining i).2 ≤ i + remaining + 1 ∧
    ((waitLoop replies sessionId expectedItemId remaining i).2 = i + remaining + 1 ↔
      ∃ last, (waitLoop replies sessionId expectedItemId remaining i).1 = .unconfirmed last) := by
  induction remaining generalizing i with
  | zero => simp [waitLoop]
  | succ n ih =>
    have hrec := ih (i + 1)
    unfold waitLoop
    cases hl : Sessions.listSessions (replies i) none with
    | failure code err =>
      simp only []
      refine ⟨by omega, by omega, ?_⟩
      constructor
      · intro h
        omega
      · rintro ⟨last, h⟩
        exact WaitResult.noConfusion h
    | success items =>
      simp only []
      cases hf : findSession items sessionId with
      | none =>
        simp only []
        refine ⟨by omega, by omega, ?_⟩
        rw [← hrec.2.2]
        omega
      | some t =>
        simp only []
        by_cases hp : nowPlays t expectedItemId = true
        · simp only [hp, if_true]
          refine ⟨by omega, by omega, ?_⟩
          constructor
          · intro h
            omega
          · rintro ⟨last, h⟩
            exact WaitResult.noConfusion h
        · have hpf : nowPlays t expectedItemId = false := by simpa using hp
          simp only [hpf, Bool.false_eq_true, if_false]
          refine ⟨by omega, by omega, ?_⟩
          rw [← hrec.2.2]
          omega

/-- C12: `waitForNowPlaying` returns `status: true` only when one of the polls
of its loop listed the sessions with success and the first listed session
whose `Id` equals `sessionId` had a `NowPlayingItem` whose `Id` equals
`expectedItemId`; the session returned is that observed session and `attempt`
is the number of that poll. When no poll observes the expected item the
status is `false`. -/
theorem waitForNowPlaying_confirmed (replies : Nat → SessionsReply)
    (sessionId expectedItemId : Option String) (opts : WaitOpts) :
    ((Sessions.waitForNowPlaying replies sessionId expectedItemId opts).1.status = true →
      ∃ k s, k < attemptsOf opts ∧ target (replies k) sessionId = some s ∧
        nowPlays s expectedItemId = true ∧
        observes (replies k) sessionId expectedItemId = true ∧
        (Sessions.waitForNowPlaying replies sessionId expectedItemId opts).1 =
          .confirmed s (k + 1)) ∧
    ((∀ k, k < attemptsOf opts → observes (replies k) sessionId expectedItemId = false) →
      (Sessions.waitForNowPlaying replies sessionId expectedItemId opts).1.status = false) := by
  have hmain : (Sessions.waitForNowPlaying replies sessionId expectedItemId opts).1.status = true →
      ∃ k s, k < attemptsOf opts ∧ target (replies k) sessionId = some s ∧
        nowPlays s expectedItemId = true ∧
        observes (replies k) sessionId expectedItemId = true ∧
        (Sessions.waitForNowPlaying replies sessionId expectedItemId opts).1 =
          .confirmed s (k + 1) := by
    intro h
    unfold Sessions.waitForNowPlaying at h ⊢
    cases hw : waitLoop replies sessionId expectedItemId (attemptsOf opts) 0 with
    | mk r calls =>
      rw [hw] at h
      cases r with
      | failed e => exact Bool.noConfusion h
      | unconfirmed l => exact Bool.noConfusion h
      | confirmed s attempt =>
        obtain ⟨k, _, hk, ht, hp, ha, _⟩ :=
          waitLoop_confirmed replies sessionId expectedItemId (attemptsOf opts) 0 s attempt calls hw
        refine ⟨k, s, by omega, ht, hp, ?_, by rw [ha]⟩
        unfold target at ht
        unfold observes
        cases hl : Sessions.listSessions (replies k) none with
        | failure code err => simp [hl] at ht
        | success items =>
          simp only [hl] at ht
          simp [ht, hp]
  refine ⟨hmain, ?_⟩
  intro hnone
  cases hst : (Sessions.waitForNowPlaying replies sessionId expectedItemId opts).1.status with
  | false => rfl
  | true =>
    obtain ⟨k, s, hk, _, _, hobs, _⟩ := hmain hst
    rw [hnone k hk] at hobs
    exact Bool.noConfusion hobs

/-- With the listings `thirdPoll` the result is confirmed by the third poll,
on the session listed there; with the listings `idle` no poll observes the
item and the status is `false`. -/
theorem waitForNowPlaying_confirmed_witness :
    (∃ k s, k < 3 ∧ target (thirdPoll k) (some "s2") = some s ∧
      nowPlays s (some "ep1") = true ∧
      observes (thirdPoll k) (some "s2") (some "ep1") = true ∧
      (Sessions.waitForNowPlaying thirdPoll (some "s2") (some "ep1") {}).1 =
        .confirmed s (k + 1)) ∧
    (Sessions.waitForNowPlaying idle (some "s2") (some "ep1") {}).1.status = false :=
  ⟨(waitForNowPlaying_confirmed thirdPoll (some "s2") (some "ep1") {}).1 (by decide),
    (waitForNowPlaying_confirmed idle (some "s2") (some "ep1") {}).2 (by decide)⟩

/-- C13: for `attempts >= 1`, when the listings of the polls 1 to `k` succeed
and poll `k` (with `1 <= k <= attempts`) is the first one in which the target
session plays the expected item, `waitForNowPlaying` returns `status: true`
with `attempt = k` and that session after exactly `k` session listings. -/
theorem waitForNowPlaying_first_match (replies : Nat → SessionsReply)
    (sessionId expectedItemId : Option String) (opts : WaitOpts) (attempts k : Nat)
    (s : Session)
    (hopts : opts.attempts = some attempts) (hattempts : 1 ≤ attempts)
    (hk1 : 1 ≤ k) (hk : k ≤ attempts)
    (hlisted : ∀ m, m < k → listed (replies m) = true)
    (hbefore : ∀ m, m < k - 1 → observes (replies m) sessionId expectedItemId = false)
    (htarget : target (replies (k - 1)) sessionId = some s)
    (hplays : nowPlays s expectedItemId = true) :
    Sessions.waitForNowPlaying replies sessionId expectedItemId opts = (.confirmed s k, k) := by
  have hn : attemptsOf opts = attempts := by
    have hne : (attempts != 0) = true := by
      simp only [bne_iff_ne, ne_eq]
      omega
    simp [attemptsOf, hopts, hne]
  have h := waitLoop_first replies sessionId expectedItemId attempts 0 (k - 1) s
    (Nat.zero_le _) (by omega)
    (fun m _ hm => hlisted m (by omega))
    (fun m _ hm => hbefore m hm) htarget hplays
  have hkk : k - 1 + 1 = k := by omega
  rw [hkk] at h
  unfold Sessions.waitForNowPlaying
  rw [hn]
  exact h

/-- The example of the claim: a budget of 5 attempts and a match on the third
poll give `attempt = 3` after 3 listings. -/
theorem waitForNowPlaying_first_match_witness :
    observes (thirdPoll 0) (some "s2") (some "ep1") = false ∧
    observes (thirdPoll 1) (some "s2") (some "ep1") = false ∧
    Sessions.waitForNowPlaying thirdPoll (some "s2") (some "ep1") { attempts := some 5 } =
      (.confirmed (livingRoomPlaying "ep1") 3, 3) :=
  ⟨by decide, by decide,
    waitForNowPlaying_first_match thirdPoll (some "s2") (some "ep1") { attempts := some 5 } 5 3
      (livingRoomPlaying "ep1") rfl (by decide) (by decide) (by decide) (by decide) (by decide)
      (by decide) (by decide)⟩

/-- C14, as amended: for `attempts >= 1` and whatever the server answers,
`waitForNowPlaying` returns after at most `attempts + 1` session listings: at
most `attempts` when it returns from the loop (confirmed, or after a failed
listing), and exactly `attempts + 1` when no poll matched, the last one being
the listing from which `lastSession` is taken. -/
theorem waitForNowPlaying_calls (replies : Nat → SessionsReply)
    (sessionId expectedItemId : Option String) (opts : WaitOpts) (attempts : Nat)
    (hopts : opts.attempts = some attempts) (hattempts : 1 ≤ attempts) :
    1 ≤ (Sessions.waitForNowPlaying replies sessionId expectedItemId opts).2 ∧
    (Sessions.waitForNowPlaying replies sessionId expectedItemId opts).2 ≤ attempts + 1 ∧
    ((Sessions.waitForNowPlaying replies sessionId expectedItemId opts).2 = attempts + 1 ↔
      ∃ last, (Sessions.waitForNowPlaying replies sessionId expectedItemId opts).1 =
        .unconfirmed last) := by
  have hn : attemptsOf opts = attempts := by
    have hne : (attempts != 0) = true := by
      simp only [bne_iff_ne, ne_eq]
      omega
    simp [attemptsOf, hopts, hne]
  have h := waitLoop_calls replies sessionId expectedItemId attempts 0
  unfold Sessions.waitForNowPlaying
  rw [hn]
  refine ⟨by omega, by omega, ?_⟩
  rw [← h.2.2]
  omega

/-- With a budget of 3 attempts and a match on the third poll there are 3
listings. -/
theorem waitForNowPlaying_calls_witness :
    (Sessions.waitForNowPlaying thirdPoll (some "s2") (some "ep1") { attempts := some 3 }).2 = 3 ∧
    (Sessions.waitForNowPlaying thirdPoll (some "s2") (some "ep1") { attempts := some 3 }).2 ≤
      3 + 1 :=
  ⟨by decide,
    (waitForNowPlaying_calls thirdPoll (some "s2") (some "ep1") { attempts := some 3 } 3 rfl
      (by decide)).2.1⟩

/-- C14, as stated, fails: with a budget of 3 attempts and a session that
never plays the item, the session list is requested 4 times, the fourth
listing being the one made after the loop. -/
theorem waitForNowPlaying_calls_counterexample :
    Sessions.waitForNowPlaying idle (some "s2") (some "ep1") { attempts := some 3 } =
      (.unconfirmed (some livingRoom), 4) ∧
    ¬ (Sessions.waitForNowPlaying idle (some "s2") (some "ep1") { attempts := some 3 }).2 ≤ 3 := by
  decide

/-! ## Series playback flow -/

/-- C15, as amended: once the first play command has been accepted, the flow
answers with success and records the last-series context only when a
verification returned `status: true`: the first one, or the one after the
retry with the `PlaySessionId`. When the last verification made returned
`status: false` the answer is the mismatch message with the name, else the
id, of the item played by the last observed session, or with
`'otro contenido'` when there is no such name or id; it is the message of a
failed playback when the retried play command is rejected. -/
theorem playAndVerify_success (debug : JsVal) (server : PlayServer)
    (replies : Nat → SessionsReply) (series episode : Item) (session : Session)
    (mediaSourceId : String) (playSessionId : Option String)
    (haccepted : (firstPlay debug server episode session mediaSourceId).1.status = true) :
    ((playAndVerify debug server replies series episode session mediaSourceId
        playSessionId).speech = .playing ↔
      (playAndVerify debug server replies series episode session mediaSourceId
        playSessionId).lastSeries ≠ none) ∧
    ((playAndVerify debug server replies series episode session mediaSourceId
        playSessionId).speech = .playing →
      (firstVerify replies episode session).1.status = true ∨
      (truthy playSessionId = true ∧
        (retryPlay debug server episode session mediaSourceId
          (playSessionId.getD "")).1.status = true ∧
        (secondVerify replies episode session).1.status = true)) ∧
    ((firstVerify replies episode session).1.status = false →
      truthy playSessionId = false →
      (playAndVerify debug server replies series episode session mediaSourceId
        playSessionId).speech =
        .playbackMismatch (actualOf (firstVerify replies episode session).1)) ∧
    ((firstVerify replies episode session).1.status = false →
      truthy playSessionId = true →
      (retryPlay debug server episode session mediaSourceId
        (playSessionId.getD "")).1.status = true →
      (secondVerify replies episode session).1.status = false →
      (playAndVerify debug server replies series episode session mediaSourceId
        playSessionId).speech =
        .playbackMismatch (actualOf (secondVerify replies episode session).1)) ∧
    ((firstVerify replies episode session).1.status = false →
      truthy playSessionId = true →
      (retryPlay debug server episode session mediaSourceId
        (playSessionId.getD "")).1.status = false →
      (playAndVerify debug server replies series episode session mediaSourceId
        playSessionId).speech = .playbackFailed) ∧
    (∀ last it, last.NowPlayingItem = some it → truthy (jsOr it.Name it.Id) = true →
      some (actualOf (.unconfirmed (some last))) = jsOr it.Name it.Id) := by
  refine ⟨?_, ?_, ?_, ?_, ?_, ?_⟩
  · unfold playAndVerify
    simp only [haccepted]
    cases (firstVerify replies episode session).1.status <;>
      cases truthy playSessionId <;>
      cases (retryPlay debug server episode session mediaSourceId
        (playSessionId.getD "")).1.status <;>
      cases (secondVerify replies episode session).1.status <;> simp
  · unfold playAndVerify
    simp only [haccepted]
    cases (firstVerify replies episode session).1.status <;>
      cases truthy playSessionId <;>
      cases (retryPlay debug server episode session mediaSourceId
        (playSessionId.getD "")).1.status <;>
      cases (secondVerify replies episode session).1.status <;> simp
  · intro h1 h2
    unfold playAndVerify
    simp [haccepted, h1, h2]
  · intro h1 h2 h3 h4
    unfold playAndVerify
    simp [haccepted, h1, h2, h3, h4]
  · intro h1 h2 h3
    unfold playAndVerify
    simp [haccepted, h1, h2, h3]
  · intro last it hit hname
    cases hv : jsOr it.Name it.Id with
    | none => simp [hv, truthy] at hname
    | some a =>
      rw [hv] at hname
      simp [actualOf, hit, hv, hname]

/-- The item starts to play during the second verification: success, with the
last-series context; and a session that keeps playing the item "Item ep0"
gives the mismatch message with that name. -/
theorem playAndVerify_success_witness :
    (firstPlay .undefined acceptingServer pilot livingRoom "ms1").1.status = true ∧
    (firstVerify sixthPoll pilot livingRoom).1.status = false ∧
    (secondVerify sixthPoll pilot livingRoom).1.status = true ∧
    (playAndVerify .undefined acceptingServer sixthPoll show_ pilot livingRoom "ms1"
      (some "token")).speech = .playing ∧
    (playAndVerify .undefined acceptingServer otherItem show_ pilot livingRoom "ms1"
      none).speech = .playbackMismatch "Item ep0" :=
  ⟨by decide, by decide, by decide, by decide,
    by
      have h := (playAndVerify_success .undefined acceptingServer otherItem show_ pilot
        livingRoom "ms1" none (by decide)).2.2.1 (by decide) (by decide)
      rw [h]
      decide⟩

/-- C15, as stated, fails in two cases. The last observed session plays
nothing: the mismatch message carries `'otro contenido'`, not a name or an id.
The play command retried with the `PlaySessionId` is rejected: the only
verification made returned `status: false` and the answer is the message of a
failed playback, not the mismatch message. -/
theorem playAndVerify_success_counterexample :
    (firstPlay .undefined acceptingServer pilot livingRoom "ms1").1.status = true ∧
    (firstVerify idle pilot livingRoom).1 = .unconfirmed (some livingRoom) ∧
    livingRoom.NowPlayingItem = none ∧
    (playAndVerify .undefined acceptingServer idle show_ pilot livingRoom "ms1" none).speech =
      .playbackMismatch "otro contenido" ∧
    (firstPlay .undefined onceServer pilot livingRoom "ms1").1.status = true ∧
    (firstVerify otherItem pilot livingRoom).1.status = false ∧
    (playAndVerify .undefined onceServer otherItem show_ pilot livingRoom "ms1"
      (some "token")).events =
      [.play "s2" "ep1" (firstPlayOpts "ms1" .undefined), .verify (some "s2") (some "ep1"),
        .play "s2" "ep1" (retryPlayOpts "ms1" "token" .undefined)] ∧
    (playAndVerify .undefined onceServer otherItem show_ pilot livingRoom "ms1"
      (some "token")).speech = .playbackFailed := by
  decide

/-! ## The requests of the series playback flow -/

/-- Writing a property adds its key at the end unless the key is there. -/
theorem Obj.set_keys (o : Obj) (k : String) (v : JsVal) :
    (Obj.set o k v).map Prod.fst =
      if k ∈ o.map Prod.fst then o.map Prod.fst else o.map Prod.fst ++ [k] := by
  induction o with
  | nil => simp [Obj.set]
  | cons p o ih =>
    rw [Obj.set_cons]
    by_cases hp : (p.1 == k) = true
    · have hpk : p.1 = k := by simpa using hp
      simp [hp, hpk]
    · have hne : ¬ p.1 = k := by simpa using hp
      have hne2 : ¬ k = p.1 := fun e => hne e.symm
      rw [if_neg hp, List.map_cons, ih]
      by_cases hk : k ∈ o.map Prod.fst
      · have hk2 : k ∈ (p :: o).map Prod.fst := by
          rw [List.map_cons]
          exact List.mem_cons_of_mem _ hk
        rw [if_pos hk, if_pos hk2, List.map_cons]
      · have hk2 : ¬ k ∈ (p :: o).map Prod.fst := by
          rw [List.map_cons, List.mem_cons]
          rintro (h | h)
          · exact hne2 h
          · exact hk h
        rw [if_neg hk, if_neg hk2, List.map_cons, List.cons_append]

/-- Writing a property keeps the keys distinct. -/
theorem Obj.set_nodup (o : Obj) (k : String) (v : JsVal) (h : (o.map Prod.fst).Nodup) :
    ((Obj.set o k v).map Prod.fst).Nodup := by
  rw [Obj.set_keys]
  by_cases hk : k ∈ o.map Prod.fst
  · rw [if_pos hk]
    exact h
  · rw [if_neg hk]
    exact List.Nodup.append h (List.nodup_singleton k) (by
      intro a ha hb
      rw [List.mem_singleton] at hb
      exact hk (hb ▸ ha))

/-- `Object.assign` keeps the keys distinct. -/
theorem Obj.assign_nodup (target source : Obj) (h : (target.map Prod.fst).Nodup) :
    ((Obj.assign target source).map Prod.fst).Nodup := by
  unfold Obj.assign
  induction source generalizing target with
  | nil => exact h
  | cons p source ih => exact ih (Obj.set target p.1 p.2) (Obj.set_nodup target p.1 p.2 h)

/-- A key that is not there reads as `undefined`, also after
`JSON.stringify`. -/
theorem jsonStringify_get_absent (o : Obj) (k : String) (h : k ∉ o.map Prod.fst) :
    (jsonStringify o).get k = .undefined := by
  induction o with
  | nil => rfl
  | cons p o ih =>
    have hne : ¬ (p.1 == k) = true := by
      intro e
      have hpk : p.1 = k := by simpa using e
      exact h (by rw [List.map_cons, hpk]; exact List.mem_cons_self _ _)
    have hrest : k ∉ o.map Prod.fst := fun e => h (by
      rw [List.map_cons]
      exact List.mem_cons_of_mem _ e)
    rw [jsonStringify_cons]
    by_cases hv : (p.2 != JsVal.undefined) = true
    · rw [if_pos hv, Obj.get_cons, if_neg hne]
      exact ih hrest
    · rw [if_neg hv]
      exact ih hrest

/-- With distinct keys `JSON.stringify` writes every property as it reads. -/
theorem jsonStringify_get_nodup (o : Obj) (k : String) (h : (o.map Prod.fst).Nodup) :
    (jsonStringify o).get k = o.get k := by
  induction o with
  | nil => rfl
  | cons p o ih =>
    rw [List.map_cons, List.nodup_cons] at h
    rw [jsonStringify_cons, Obj.get_cons]
    by_cases hk : (p.1 == k) = true
    · have hpk : p.1 = k := by simpa using hk
      rw [if_pos hk]
      by_cases hv : (p.2 != JsVal.undefined) = true
      · rw [if_pos hv, Obj.get_cons, if_pos hk]
      · rw [if_neg hv, jsonStringify_get_absent o k (hpk ▸ h.1)]
        have : p.2 = JsVal.undefined := by simpa using hv
        exact this.symm
    · rw [if_neg hk]
      by_cases hv : (p.2 != JsVal.undefined) = true
      · rw [if_pos hv, Obj.get_cons, if_neg hk]
        exact ih h.2
      · rw [if_neg hv]
        exact ih h.2

/-- The requests of a call of `playOnSession`: none when an id is missing,
else the `POST` of the command, followed by its numeric re-encoding when the
server answers the first one with the status 400 and a text that names
`playCommand`. An accepted call has sent a request. -/
theorem playOnSession_trace (debugPlayRequests : Bool) (server : PlayServer)
    (sessionId itemId : String) (opts : Obj) :
    ((Sessions.playOnSession debugPlayRequests server sessionId itemId opts).2 = [] ∨
      (Sessions.playOnSession debugPlayRequests server sessionId itemId opts).2 =
        [playRequest sessionId itemId opts] ∨
      (Sessions.playOnSession debugPlayRequests server sessionId itemId opts).2 =
        [playRequest sessionId itemId opts, retryRequest sessionId itemId opts]) ∧
    ((Sessions.playOnSession debugPlayRequests server sessionId itemId opts).2 = [] ↔
      (sessionId = "" ∨ itemId = "")) ∧
    ((Sessions.playOnSession debugPlayRequests server sessionId itemId opts).1.status = true →
      (Sessions.playOnSession debugPlayRequests server sessionId itemId opts).2 ≠ []) := by
  unfold Sessions.playOnSession
  by_cases hguard : (sessionId == "" || itemId == "") = true
  · have h : sessionId = "" ∨ itemId = "" := by simpa using hguard
    simp [hguard, h]
  · have h : ¬ (sessionId = "" ∨ itemId = "") := by simpa using hguard
    simp only [hguard, Bool.false_eq_true, if_false]
    cases h0 : server 0 (playRequest sessionId itemId opts) with
    | threw message => simp [h]
    | response response =>
      simp only []
      by_cases hok : (!response.ok) = true
      · simp only [hok, if_true]
        by_cases hc : (response.status == 400 &&
            (response.text.getD "<failed-to-read-body>") != "" &&
            jsIncludes (jsToLowerCase (response.text.getD "<failed-to-read-body>"))
              "playcommand") = true
        · simp only [hc, if_true]
          cases h1 : server 1 (retryRequest sessionId itemId opts) with
          | threw message => simp [h]
          | response retryResp =>
            simp only []
            by_cases hr : (!retryResp.ok) = true
            · simp [hr, h]
            · simp [hr, h]
        · simp [hc, h]
      · simp only [hok, Bool.false_eq_true, if_false]
        by_cases hd : ((opts.get "debug").truthy || debugPlayRequests) = true
        · simp [hd, h]
        · simp [hd, h]


/-- Appending search parameters keeps the path. -/
theorem foldl_append_path (ids : List String) (u : Url) :
    (ids.foldl (fun u id => u.append "itemIds" id) u).path = u.path := by
  induction ids generalizing u with
  | nil => rfl
  | cons a l ih => rw [List.foldl_cons, ih]; rfl

/-- Setting a search parameter keeps the path. -/
theorem Url.set_path (u : Url) (k v : String) : (u.set k v).path = u.path := by
  unfold Url.set
  split <;> rfl

/-- Appending a search parameter keeps the path. -/
theorem Url.append_path (u : Url) (k v : String) : (u.append k v).path = u.path := rfl

/-- The path of the URL of a play command names the session. -/
theorem playUrl_path (sessionId itemId : String) (opts : Obj) (playCommand : String) :
    (playUrl sessionId itemId opts playCommand).path = "/Sessions/" ++ sessionId ++ "/Playing" := by
  unfold playUrl
  simp only []
  split
  · simp only [foldl_append_path, apply_ite Url.path, Url.append_path, Url.set_path, ite_self]
  · simp only [apply_ite Url.path, Url.append_path, Url.set_path, ite_self]

/-- The play command retried with the `PlaySessionId` against the first one:
the same path, the same search parameters with `PlaySessionId` added, and the
same body with the property `PlaySessionId` added. -/
theorem playRequest_token (sessionId itemId mediaSourceId token : String) (debug : JsVal)
    (htoken : token ≠ "") :
    (playRequest sessionId itemId (retryPlayOpts mediaSourceId token debug)).url.path =
      (playRequest sessionId itemId (firstPlayOpts mediaSourceId debug)).url.path ∧
    (playRequest sessionId itemId (retryPlayOpts mediaSourceId token debug)).url.searchParams.filter
        (fun p => p.1 != "PlaySessionId") =
      (playRequest sessionId itemId (firstPlayOpts mediaSourceId debug)).url.searchParams ∧
    ("PlaySessionId", token) ∈
      (playRequest sessionId itemId (retryPlayOpts mediaSourceId token debug)).url.searchParams ∧
    (∀ k, k ≠ "PlaySessionId" →
      (playRequest sessionId itemId (retryPlayOpts mediaSourceId token debug)).body.get k =
        (playRequest sessionId itemId (firstPlayOpts mediaSourceId debug)).body.get k) ∧
    (playRequest sessionId itemId (retryPlayOpts mediaSourceId token debug)).body.get
      "PlaySessionId" = .str token ∧
    (playRequest sessionId itemId (firstPlayOpts mediaSourceId debug)).body.get
      "PlaySessionId" = .undefined ∧
    (playRequest sessionId itemId (firstPlayOpts mediaSourceId debug)).body.get "ItemIds" =
      .arr [itemId] ∧
    (playRequest sessionId itemId (firstPlayOpts mediaSourceId debug)).body.get "MediaSourceId" =
      .str mediaSourceId ∧
    (playRequest sessionId itemId (firstPlayOpts mediaSourceId debug)).body.get
      "StartPositionTicks" = .num 0 := by
  have hb1 : playBody itemId (firstPlayOpts mediaSourceId debug) =
      [("MediaSourceId", .str mediaSourceId), ("StartPositionTicks", .num 0), ("debug", debug),
        ("ItemIds", .arr [itemId]), ("playCommand", .str "PlayNow")] := by
    simp [playBody, firstPlayOpts, Obj.assign, Obj.set, playCommandOf, Obj.get, JsVal.truthy]
  have hb2 : playBody itemId (retryPlayOpts mediaSourceId token debug) =
      [("MediaSourceId", .str mediaSourceId), ("PlaySessionId", .str token),
        ("StartPositionTicks", .num 0), ("debug", debug),
        ("ItemIds", .arr [itemId]), ("playCommand", .str "PlayNow")] := by
    simp [playBody, retryPlayOpts, Obj.assign, Obj.set, playCommandOf, Obj.get, JsVal.truthy]
  have hn1 : ((playBody itemId (firstPlayOpts mediaSourceId debug)).map Prod.fst).Nodup := by
    rw [hb1]
    simp only [List.map]
    decide
  have hn2 : ((playBody itemId (retryPlayOpts mediaSourceId token debug)).map Prod.fst).Nodup := by
    rw [hb2]
    simp only [List.map]
    decide
  have hg1 : ∀ k, (playRequest sessionId itemId (firstPlayOpts mediaSourceId debug)).body.get k =
      (playBody itemId (firstPlayOpts mediaSourceId debug)).get k :=
    fun k => jsonStringify_get_nodup _ k hn1
  have hg2 : ∀ k,
      (playRequest sessionId itemId (retryPlayOpts mediaSourceId token debug)).body.get k =
      (playBody itemId (retryPlayOpts mediaSourceId token debug)).get k :=
    fun k => jsonStringify_get_nodup _ k hn2
  have ht : (token != "") = true := by simpa using htoken
  refine ⟨?_, ?_, ?_, ?_, ?_, ?_, ?_, ?_, ?_⟩
  · simp only [playRequest, playUrl_path]
  · by_cases hm : mediaSourceId = ""
    · by_cases hi : itemId = ""
      · simp [playRequest, playUrl, playCommandOf, retryPlayOpts, firstPlayOpts, Obj.get,
          JsVal.truthy, JsVal.toStr, Url.set, Url.append, hm, hi, ht]
      · simp [playRequest, playUrl, playCommandOf, retryPlayOpts, firstPlayOpts, Obj.get,
          JsVal.truthy, JsVal.toStr, Url.set, Url.append, hm, hi, ht]
    · by_cases hi : itemId = ""
      · simp [playRequest, playUrl, playCommandOf, retryPlayOpts, firstPlayOpts, Obj.get,
          JsVal.truthy, JsVal.toStr, Url.set, Url.append, hm, hi, ht]
      · simp [playRequest, playUrl, playCommandOf, retryPlayOpts, firstPlayOpts, Obj.get,
          JsVal.truthy, JsVal.toStr, Url.set, Url.append, hm, hi, ht]
  · by_cases hm : mediaSourceId = ""
    · by_cases hi : itemId = ""
      · simp [playRequest, playUrl, playCommandOf, retryPlayOpts, Obj.get,
          JsVal.truthy, JsVal.toStr, Url.set, Url.append, hm, hi, ht]
      · simp [playRequest, playUrl, playCommandOf, retryPlayOpts, Obj.get,
          JsVal.truthy, JsVal.toStr, Url.set, Url.append, hm, hi, ht]
    · by_cases hi : itemId = ""
      · simp [playRequest, playUrl, playCommandOf, retryPlayOpts, Obj.get,
          JsVal.truthy, JsVal.toStr, Url.set, Url.append, hm, hi, ht]
      · simp [playRequest, playUrl, playCommandOf, retryPlayOpts, Obj.get,
          JsVal.truthy, JsVal.toStr, Url.set, Url.append, hm, hi, ht]
  · intro k hk
    rw [hg1, hg2, hb1, hb2]
    have hk2 : ("PlaySessionId" == k) = false := by
      simp only [beq_eq_false_iff_ne, ne_eq]
      exact fun h => hk h.symm
    simp [Obj.get, List.find?, hk2]
  · rw [hg2, hb2]
    simp [Obj.get, List.find?]
  · rw [hg1, hb1]
    simp [Obj.get, List.find?]
  · rw [hg1, hb1]
    simp [Obj.get, List.find?]
  · rw [hg1, hb1]
    simp [Obj.get, List.find?]
  · rw [hg1, hb1]
    simp [Obj.get, List.find?]


/-- A verification of the flow requests between one and four session
listings. -/
theorem verify_listings (replies : Nat → SessionsReply) (sessionId expectedItemId : Option String) :
    1 ≤ (Sessions.waitForNowPlaying replies sessionId expectedItemId verifyOpts).2 ∧
    (Sessions.waitForNowPlaying replies sessionId expectedItemId verifyOpts).2 ≤ 4 := by
  have h := waitLoop_calls replies sessionId expectedItemId 3 0
  have h3 : attemptsOf verifyOpts = 3 := rfl
  unfold Sessions.waitForNowPlaying
  rw [h3]
  omega

/-- C16: a play command of the flow is a call of `playNow`; it sends its
`POST` and, when the server rejects the textual `playCommand`, the same
command once more with the numeric `playCommand`. When the first play command
is accepted and the first verification returns `status: false`, a non-empty
`PlaySessionId` of the playback-info lookup makes the flow send exactly one
more play command: its requests follow those of the first command and are the
`POST` to the same session with the same search parameters and the same body,
hence the same item, `MediaSourceId` and `StartPositionTicks`, plus that
`PlaySessionId`, and at most its numeric re-encoding. It is followed by
exactly one more verification when it is accepted and by none when it is
rejected. Without a `PlaySessionId` no further request is sent. A rejected
first play command ends the flow without a verification. Every run has at
most two play commands, of at most two requests each, and at most two
verifications, of one to four session listings each. -/
theorem playAndVerify_retry (debug : JsVal) (server : PlayServer)
    (replies : Nat → SessionsReply) (series episode : Item) (session : Session)
    (mediaSourceId : String) (playSessionId : Option String) :
    ((firstPlay debug server episode session mediaSourceId).1.status = true →
      (firstVerify replies episode session).1.status = false →
      ∀ token, playSessionId = some token → token ≠ "" →
        ((retryPlay debug server episode session mediaSourceId token).1.status = true →
          (playAndVerify debug server replies series episode session mediaSourceId
            playSessionId).events =
            [.play (session.Id.getD "") (episode.Id.getD "") (firstPlayOpts mediaSourceId debug),
              .verify session.Id episode.Id,
              .play (session.Id.getD "") (episode.Id.getD "")
                (retryPlayOpts mediaSourceId token debug),
              .verify session.Id episode.Id] ∧
          (playAndVerify debug server replies series episode session mediaSourceId
            playSessionId).listings =
            (firstVerify replies episode session).2 + (secondVerify replies episode session).2) ∧
        ((retryPlay debug server episode session mediaSourceId token).1.status = false →
          (playAndVerify debug server replies series episode session mediaSourceId
            playSessionId).events =
            [.play (session.Id.getD "") (episode.Id.getD "") (firstPlayOpts mediaSourceId debug),
              .verify session.Id episode.Id,
              .play (session.Id.getD "") (episode.Id.getD "")
                (retryPlayOpts mediaSourceId token debug)] ∧
          (playAndVerify debug server replies series episode session mediaSourceId
            playSessionId).listings = (firstVerify replies episode session).2) ∧
        (playAndVerify debug server replies series episode session mediaSourceId
          playSessionId).requests =
          (firstPlay debug server episode session mediaSourceId).2 ++
            (retryPlay debug server episode session mediaSourceId token).2 ∧
        ((retryPlay debug server episode session mediaSourceId token).2 =
            [playRequest (session.Id.getD "") (episode.Id.getD "")
              (retryPlayOpts mediaSourceId token debug)] ∨
          (retryPlay debug server episode session mediaSourceId token).2 =
            [playRequest (session.Id.getD "") (episode.Id.getD "")
              (retryPlayOpts mediaSourceId token debug),
             retryRequest (session.Id.getD "") (episode.Id.getD "")
              (retryPlayOpts mediaSourceId token debug)]) ∧
        (playRequest (session.Id.getD "") (episode.Id.getD "")
            (retryPlayOpts mediaSourceId token debug)).url.path =
          (playRequest (session.Id.getD "") (episode.Id.getD "")
            (firstPlayOpts mediaSourceId debug)).url.path ∧
        (playRequest (session.Id.getD "") (episode.Id.getD "")
            (retryPlayOpts mediaSourceId token debug)).url.searchParams.filter
            (fun p => p.1 != "PlaySessionId") =
          (playRequest (session.Id.getD "") (episode.Id.getD "")
            (firstPlayOpts mediaSourceId debug)).url.searchParams ∧
        ("PlaySessionId", token) ∈
          (playRequest (session.Id.getD "") (episode.Id.getD "")
            (retryPlayOpts mediaSourceId token debug)).url.searchParams ∧
        (∀ k, k ≠ "PlaySessionId" →
          (playRequest (session.Id.getD "") (episode.Id.getD "")
            (retryPlayOpts mediaSourceId token debug)).body.get k =
          (playRequest (session.Id.getD "") (episode.Id.getD "")
            (firstPlayOpts mediaSourceId debug)).body.get k) ∧
        (playRequest (session.Id.getD "") (episode.Id.getD "")
          (retryPlayOpts mediaSourceId token debug)).body.get "PlaySessionId" = .str token) ∧
    ((firstPlay debug server episode session mediaSourceId).1.status = true →
      (firstVerify replies episode session).1.status = false →
      truthy playSessionId = false →
      (playAndVerify debug server replies series episode session mediaSourceId
        playSessionId).events =
        [.play (session.Id.getD "") (episode.Id.getD "") (firstPlayOpts mediaSourceId debug),
          .verify session.Id episode.Id] ∧
      (playAndVerify debug server replies series episode session mediaSourceId
        playSessionId).requests = (firstPlay debug server episode session mediaSourceId).2 ∧
      (playAndVerify debug server replies series episode session mediaSourceId
        playSessionId).listings = (firstVerify replies episode session).2) ∧
    ((firstPlay debug server episode session mediaSourceId).1.status = false →
      (playAndVerify debug server replies series episode session mediaSourceId
        playSessionId).events =
        [.play (session.Id.getD "") (episode.Id.getD "") (firstPlayOpts mediaSourceId debug)] ∧
      (playAndVerify debug server replies series episode session mediaSourceId
        playSessionId).requests = (firstPlay debug server episode session mediaSourceId).2 ∧
      (playAndVerify debug server replies series episode session mediaSourceId
        playSessionId).listings = 0) ∧
    ((firstPlay debug server episode session mediaSourceId).1.status = true →
      (firstPlay debug server episode session mediaSourceId).2 =
          [playRequest (session.Id.getD "") (episode.Id.getD "")
            (firstPlayOpts mediaSourceId debug)] ∨
        (firstPlay debug server episode session mediaSourceId).2 =
          [playRequest (session.Id.getD "") (episode.Id.getD "")
            (firstPlayOpts mediaSourceId debug),
           retryRequest (session.Id.getD "") (episode.Id.getD "")
            (firstPlayOpts mediaSourceId debug)]) ∧
    ((firstPlay debug server episode session mediaSourceId).2.length ≤ 2 ∧
      (playAndVerify debug server replies series episode session mediaSourceId
        playSessionId).requests.length ≤ 4 ∧
      1 ≤ (firstVerify replies episode session).2 ∧
      (firstVerify replies episode session).2 ≤ 4 ∧
      1 ≤ (secondVerify replies episode session).2 ∧
      (secondVerify replies episode session).2 ≤ 4 ∧
      (playAndVerify debug server replies series episode session mediaSourceId
        playSessionId).listings ≤ 8) ∧
    ((playAndVerify debug server replies series episode session mediaSourceId
        playSessionId).events.filter FlowEvent.isPlay).length ≤ 2 ∧
    ((playAndVerify debug server replies series episode session mediaSourceId
        playSessionId).events.filter FlowEvent.isVerify).length ≤ 2 := by
  have ht1 := playOnSession_trace debug.truthy server (session.Id.getD "") (episode.Id.getD "")
    (firstPlayOpts mediaSourceId debug)
  have hlen1 : (firstPlay debug server episode session mediaSourceId).2.length ≤ 2 := by
    unfold firstPlay Sessions.playNow
    rcases ht1.1 with h | h | h <;> simp [h]
  have hids : (firstPlay debug server episode session mediaSourceId).1.status = true →
      ¬ (session.Id.getD "" = "" ∨ episode.Id.getD "" = "") := by
    intro h hempty
    exact ht1.2.2 h (ht1.2.1.mpr hempty)
  have ht2 : ∀ token,
      (retryPlay debug server episode session mediaSourceId token).2 = [] ∨
      (retryPlay debug server episode session mediaSourceId token).2 =
        [playRequest (session.Id.getD "") (episode.Id.getD "")
          (retryPlayOpts mediaSourceId token debug)] ∨
      (retryPlay debug server episode session mediaSourceId token).2 =
        [playRequest (session.Id.getD "") (episode.Id.getD "")
          (retryPlayOpts mediaSourceId token debug),
         retryRequest (session.Id.getD "") (episode.Id.getD "")
          (retryPlayOpts mediaSourceId token debug)] := fun token =>
    (playOnSession_trace debug.truthy _ (session.Id.getD "") (episode.Id.getD "")
      (retryPlayOpts mediaSourceId token debug)).1
  have hne2 : ∀ token, (firstPlay debug server episode session mediaSourceId).1.status = true →
      (retryPlay debug server episode session mediaSourceId token).2 ≠ [] := by
    intro token h hnil
    exact hids h ((playOnSession_trace debug.truthy _ (session.Id.getD "") (episode.Id.getD "")
      (retryPlayOpts mediaSourceId token debug)).2.1.mp hnil)
  have hlen2 : ∀ token,
      (retryPlay debug server episode session mediaSourceId token).2.length ≤ 2 := by
    intro token
    rcases ht2 token with h | h | h <;> simp [h]
  have hv1 := verify_listings replies session.Id episode.Id
  have hv2 := verify_listings
    (fun n => replies (n + (firstVerify replies episode session).2)) session.Id episode.Id
  refine ⟨?_, ?_, ?_, ?_, ⟨hlen1, ?_, hv1.1, hv1.2, hv2.1, hv2.2, ?_⟩, ?_, ?_⟩
  · intro h1 h2 token htoken hne
    have ht : truthy playSessionId = true := by simp [htoken, truthy, hne]
    have hget : playSessionId.getD "" = token := by simp [htoken]
    have hreq := playRequest_token (session.Id.getD "") (episode.Id.getD "") mediaSourceId token
      debug hne
    refine ⟨?_, ?_, ?_, ?_, hreq.1, hreq.2.1, hreq.2.2.1, hreq.2.2.2.1, hreq.2.2.2.2.1⟩
    · intro h3
      cases h4 : (secondVerify replies episode session).1.status <;>
        simp [playAndVerify, h1, h2, ht, hget, h3, h4]
    · intro h3
      unfold playAndVerify
      simp [h1, h2, ht, hget, h3]
    · cases h3 : (retryPlay debug server episode session mediaSourceId token).1.status <;>
        cases h4 : (secondVerify replies episode session).1.status <;>
        simp [playAndVerify, h1, h2, ht, hget, h3, h4]
    · rcases ht2 token with h | h | h
      · exact absurd h (hne2 token h1)
      · exact Or.inl h
      · exact Or.inr h
  · intro h1 h2 h3
    unfold playAndVerify
    simp [h1, h2, h3]
  · intro h1
    unfold playAndVerify
    simp [h1]
  · intro h1
    unfold firstPlay Sessions.playNow at h1 ⊢
    rcases ht1.1 with h | h | h
    · exact absurd h (ht1.2.2 h1)
    · exact Or.inl h
    · exact Or.inr h
  · have hl2 := hlen2 (playSessionId.getD "")
    cases h1 : (firstPlay debug server episode session mediaSourceId).1.status <;>
      cases h2 : (firstVerify replies episode session).1.status <;>
      cases h3 : truthy playSessionId <;>
      cases h4 : (retryPlay debug server episode session mediaSourceId
        (playSessionId.getD "")).1.status <;>
      cases h5 : (secondVerify replies episode session).1.status <;>
      simp [playAndVerify, h1, h2, h3, h4, h5] <;> omega
  · have hs1 : (firstVerify replies episode session).2 ≤ 4 := hv1.2
    have hs2 : (secondVerify replies episode session).2 ≤ 4 := hv2.2
    cases h1 : (firstPlay debug server episode session mediaSourceId).1.status <;>
      cases h2 : (firstVerify replies episode session).1.status <;>
      cases h3 : truthy playSessionId <;>
      cases h4 : (retryPlay debug server episode session mediaSourceId
        (playSessionId.getD "")).1.status <;>
      cases h5 : (secondVerify replies episode session).1.status <;>
      simp [playAndVerify, h1, h2, h3, h4, h5] <;> omega
  · cases h1 : (firstPlay debug server episode session mediaSourceId).1.status <;>
      cases h2 : (firstVerify replies episode session).1.status <;>
      cases h3 : truthy playSessionId <;>
      cases h4 : (retryPlay debug server episode session mediaSourceId
        (playSessionId.getD "")).1.status <;>
      cases h5 : (secondVerify replies episode session).1.status <;>
      simp [playAndVerify, h1, h2, h3, h4, h5, FlowEvent.isPlay]
  · cases h1 : (firstPlay debug server episode session mediaSourceId).1.status <;>
      cases h2 : (firstVerify replies episode session).1.status <;>
      cases h3 : truthy playSessionId <;>
      cases h4 : (retryPlay debug server episode session mediaSourceId
        (playSessionId.getD "")).1.status <;>
      cases h5 : (secondVerify replies episode session).1.status <;>
      simp [playAndVerify, h1, h2, h3, h4, h5, FlowEvent.isVerify]


/-- The first verification fails and the lookup gave the `PlaySessionId`
"token": one more play command with it, then one more verification. Against a
server that accepts only the numeric `playCommand` each of the two commands
takes two requests. -/
theorem playAndVerify_retry_witness :
    (firstPlay .undefined acceptingServer pilot livingRoom "ms1").1.status = true ∧
    (firstVerify sixthPoll pilot livingRoom).1.status = false ∧
    (retryPlay .undefined acceptingServer pilot livingRoom "ms1" "token").1.status = true ∧
    ((playAndVerify .undefined acceptingServer sixthPoll show_ pilot livingRoom "ms1"
        (some "token")).events =
        [.play "s2" "ep1" (firstPlayOpts "ms1" .undefined), .verify (some "s2") (some "ep1"),
          .play "s2" "ep1" (retryPlayOpts "ms1" "token" .undefined),
          .verify (some "s2") (some "ep1")] ∧
      (playAndVerify .undefined acceptingServer sixthPoll show_ pilot livingRoom "ms1"
        (some "token")).listings =
        (firstVerify sixthPoll pilot livingRoom).2 + (secondVerify sixthPoll pilot livingRoom).2) ∧
    (playAndVerify .undefined acceptingServer sixthPoll show_ pilot livingRoom "ms1"
      (some "token")).requests =
      [playRequest "s2" "ep1" (firstPlayOpts "ms1" .undefined),
        playRequest "s2" "ep1" (retryPlayOpts "ms1" "token" .undefined)] ∧
    (playAndVerify .undefined acceptingServer sixthPoll show_ pilot livingRoom "ms1"
      (some "token")).listings = 6 ∧
    (playAndVerify .undefined numericOnlyServer sixthPoll show_ pilot livingRoom "ms1"
      (some "token")).requests =
      [playRequest "s2" "ep1" (firstPlayOpts "ms1" .undefined),
        retryRequest "s2" "ep1" (firstPlayOpts "ms1" .undefined),
        playRequest "s2" "ep1" (retryPlayOpts "ms1" "token" .undefined),
        retryRequest "s2" "ep1" (retryPlayOpts "ms1" "token" .undefined)] ∧
    (playAndVerify .undefined numericOnlyServer sixthPoll show_ pilot livingRoom "ms1"
      (some "token")).events.filter FlowEvent.isPlay =
      [.play "s2" "ep1" (firstPlayOpts "ms1" .undefined),
        .play "s2" "ep1" (retryPlayOpts "ms1" "token" .undefined)] :=
  ⟨by decide, by decide, by decide,
    ((playAndVerify_retry .undefined acceptingServer sixthPoll show_ pilot livingRoom "ms1"
      (some "token")).1 (by decide) (by decide) "token" rfl (by decide)).1 (by decide),
    by decide, by decide, by decide, by decide⟩

/-! ## Music genres and their cache -/

/-- Reading the entry that was just written. -/
theorem cacheGet_set_self (cache : GenreCache) (key : String) (entry : CacheEntry) :
    cacheGet (cacheSet cache key entry) key = some entry := by
  induction cache with
  | nil => simp [cacheSet, cacheGet]
  | cons p cache ih =>
    by_cases hp : (p.1 == key) = true
    · simp [cacheSet, cacheGet, hp]
    · have hf : (p.1 == key) = false := by simpa using hp
      simp only [cacheSet, hf, Bool.false_eq_true, if_false]
      simp only [cacheGet, List.find?_cons, hf] at ih ⊢
      exact ih

/-- Writing an entry does not change the entries of the other keys. -/
theorem cacheGet_set_other (cache : GenreCache) (key other : String) (entry : CacheEntry)
    (h : other ≠ key) : cacheGet (cacheSet cache key entry) other = cacheGet cache other := by
  have hko : (key == other) = false := by simpa using fun e : key = other => h e.symm
  induction cache with
  | nil => simp [cacheSet, cacheGet, hko]
  | cons p cache ih =>
    by_cases hp : (p.1 == key) = true
    · have hpk : p.1 = key := by simpa using hp
      have hpo : (p.1 == other) = false := by simpa [hpk] using fun e : key = other => h e.symm
      simp [cacheSet, cacheGet, hp, hko, hpo]
    · have hf : (p.1 == key) = false := by simpa using hp
      simp only [cacheSet, hf, Bool.false_eq_true, if_false]
      by_cases hq : (p.1 == other) = true
      · simp [cacheGet, hq]
      · have hqf : (p.1 == other) = false := by simpa using hq
        simp only [cacheGet, List.find?_cons, hqf] at ih ⊢
        exact ih

/-- The search-and-cache part in terms of `_resolveItemsByName`: the search
is made once; without a selection the cache is kept, with a selection the
entry of the key is written. -/
theorem searchAndCache_eq (ttl : Int) (search : String → ItemsReply) (storeNow : Int)
    (cache : GenreCache) (name : String) :
    (∀ code err, MusicGenres.Search search name = .failure code err →
      searchAndCache ttl search storeNow cache name =
        { result := .null, cache := cache, searched := [name] }) ∧
    (∀ items, MusicGenres.Search search name = .success items →
      _resolveItemsByName items (normKey name) = none →
      searchAndCache ttl search storeNow cache name =
        { result := .null, cache := cache, searched := [name] }) ∧
    (∀ items it, MusicGenres.Search search name = .success items →
      _resolveItemsByName items (normKey name) = some it →
      searchAndCache ttl search storeNow cache name =
        { result := idVal it.Id,
          cache := cacheSet cache (normKey name) { id := it.Id, expires := storeNow + ttl },
          searched := [name] }) := by
  refine ⟨?_, ?_, ?_⟩
  · intro code err h
    simp [searchAndCache, h]
  · intro items h hsel
    unfold searchAndCache
    simp only [h]
    unfold _resolveItemsByName at hsel
    by_cases he : items.isEmpty = true
    · simp [he]
    · simp only [he, Bool.false_eq_true, if_false] at hsel ⊢
      simp only [hsel]
  · intro items it h hsel
    unfold searchAndCache
    simp only [h]
    unfold _resolveItemsByName at hsel
    by_cases he : items.isEmpty = true
    · simp [he] at hsel
    · simp only [he, Bool.false_eq_true, if_false] at hsel ⊢
      simp only [hsel]

/-- The result of the search-and-cache part and its search do not depend on
the cache. -/
theorem searchAndCache_result (ttl : Int) (search : String → ItemsReply) (storeNow : Int)
    (cache other : GenreCache) (name : String) :
    (searchAndCache ttl search storeNow cache name).result =
        (searchAndCache ttl search storeNow other name).result ∧
    (searchAndCache ttl search storeNow cache name).searched = [name] := by
  have h1 := searchAndCache_eq ttl search storeNow cache name
  have h2 := searchAndCache_eq ttl search storeNow other name
  cases hs : MusicGenres.Search search name with
  | failure code err => rw [h1.1 code err hs, h2.1 code err hs]; exact ⟨rfl, rfl⟩
  | success items =>
    cases hsel : _resolveItemsByName items (normKey name) with
    | none => rw [h1.2.1 items hs hsel, h2.2.1 items hs hsel]; exact ⟨rfl, rfl⟩
    | some it => rw [h1.2.2 items it hs hsel, h2.2.2 items it hs hsel]; exact ⟨rfl, rfl⟩

/-- A call with an unexpired entry answers from the cache. -/
theorem ResolveIdByName_hit (ttl : Int) (search : String → ItemsReply) (now storeNow : Int)
    (cache : GenreCache) (name : String) (entry : CacheEntry) (hname : name ≠ "")
    (hentry : cacheGet cache (normKey name) = some entry) (hlive : entry.expires > now) :
    MusicGenres.ResolveIdByName ttl search now storeNow cache name =
      { result := idVal entry.id, cache := cache, searched := [] } := by
  have hn : (name == "") = false := by simpa using hname
  unfold MusicGenres.ResolveIdByName
  simp [hn, hentry, hlive]

/-- A call without an unexpired entry is the search-and-cache part. -/
theorem ResolveIdByName_miss (ttl : Int) (search : String → ItemsReply) (now storeNow : Int)
    (cache : GenreCache) (name : String) (hname : name ≠ "")
    (hstale : fresh cache (normKey name) now = false) :
    MusicGenres.ResolveIdByName ttl search now storeNow cache name =
      searchAndCache ttl search storeNow cache name := by
  have hn : (name == "") = false := by simpa using hname
  unfold MusicGenres.ResolveIdByName
  unfold fresh at hstale
  cases hc : cacheGet cache (normKey name) with
  | none => simp [hn, hc]
  | some entry =>
    rw [hc] at hstale
    have hexp : ¬ now < entry.expires := by simpa using hstale
    simp [hn, hc, hexp]

/-- What a call does to the cache: nothing, or, after a search that selected a
candidate, the writing of the entry of the normalized name. -/
theorem ResolveIdByName_cache (ttl : Int) (search : String → ItemsReply) (now storeNow : Int)
    (cache : GenreCache) (name : String) :
    (MusicGenres.ResolveIdByName ttl search now storeNow cache name).cache = cache ∨
    ∃ items it, MusicGenres.Search search name = .success items ∧
      _resolveItemsByName items (normKey name) = some it ∧
      MusicGenres.ResolveIdByName ttl search now storeNow cache name =
        { result := idVal it.Id,
          cache := cacheSet cache (normKey name) { id := it.Id, expires := storeNow + ttl },
          searched := [name] } := by
  by_cases hname : name = ""
  · left
    simp [MusicGenres.ResolveIdByName, hname]
  · cases hf : fresh cache (normKey name) now with
    | true =>
      left
      unfold fresh at hf
      cases hc : cacheGet cache (normKey name) with
      | none => simp [hc] at hf
      | some entry =>
        rw [hc] at hf
        have hlive : entry.expires > now := by simpa using hf
        rw [ResolveIdByName_hit ttl search now storeNow cache name entry hname hc hlive]
    | false =>
      rw [ResolveIdByName_miss ttl search now storeNow cache name hname hf]
      have h := searchAndCache_eq ttl search storeNow cache name
      cases hs : MusicGenres.Search search name with
      | failure code err =>
        left
        rw [h.1 code err hs]
      | success items =>
        cases hsel : _resolveItemsByName items (normKey name) with
        | none =>
          left
          rw [h.2.1 items hs hsel]
        | some it =>
          right
          exact ⟨items, it, rfl, hsel, h.2.2 items it hs hsel⟩

/-- C17: for a non-empty name, `ResolveIdByName` invokes the remote search
(once, with the name) exactly when the cache holds no entry for the trimmed,
lower-cased name whose expiry is later than the current time, and on a hit it
returns the stored id. After a resolution that searched and selected a
candidate at the time `storeNow`, a resolution of a name with the same
normalized form before `storeNow + ttl` makes no search and returns the same
id; at or after `storeNow + ttl` it searches again and returns what a call on
an empty cache returns. -/
theorem ResolveIdByName_cached (ttl : Int) (search : String → ItemsReply) (now storeNow : Int)
    (cache : GenreCache) (name : String) (hname : name ≠ "") :
    ((MusicGenres.ResolveIdByName ttl search now storeNow cache name).searched = [name] ↔
      fresh cache (normKey name) now = false) ∧
    ((MusicGenres.ResolveIdByName ttl search now storeNow cache name).searched = [] ↔
      fresh cache (normKey name) now = true) ∧
    (∀ entry, cacheGet cache (normKey name) = some entry → entry.expires > now →
      (MusicGenres.ResolveIdByName ttl search now storeNow cache name).result =
        idVal entry.id) ∧
    (∀ items it, fresh cache (normKey name) now = false →
      MusicGenres.Search search name = .success items →
      _resolveItemsByName items (normKey name) = some it →
      ∀ (search2 : String → ItemsReply) (name2 : String) (now2 store2 : Int),
        name2 ≠ "" → normKey name2 = normKey name →
        (now2 < storeNow + ttl →
          (MusicGenres.ResolveIdByName ttl search2 now2 store2
            (MusicGenres.ResolveIdByName ttl search now storeNow cache name).cache
            name2).searched = [] ∧
          (MusicGenres.ResolveIdByName ttl search2 now2 store2
            (MusicGenres.ResolveIdByName ttl search now storeNow cache name).cache
            name2).result =
            (MusicGenres.ResolveIdByName ttl search now storeNow cache name).result) ∧
        (storeNow + ttl ≤ now2 →
          (MusicGenres.ResolveIdByName ttl search2 now2 store2
            (MusicGenres.ResolveIdByName ttl search now storeNow cache name).cache
            name2).searched = [name2] ∧
          (MusicGenres.ResolveIdByName ttl search2 now2 store2
            (MusicGenres.ResolveIdByName ttl search now storeNow cache name).cache
            name2).result =
            (MusicGenres.ResolveIdByName ttl search2 now2 store2 [] name2).result)) := by
  have hsplit : ∀ b, fresh cache (normKey name) now = b →
      (MusicGenres.ResolveIdByName ttl search now storeNow cache name).searched =
        if b then [] else [name] := by
    intro b hb
    cases b with
    | false =>
      rw [ResolveIdByName_miss ttl search now storeNow cache name hname hb]
      exact (searchAndCache_result ttl search storeNow cache cache name).2
    | true =>
      unfold fresh at hb
      cases hc : cacheGet cache (normKey name) with
      | none => simp [hc] at hb
      | some entry =>
        rw [hc] at hb
        have hlive : entry.expires > now := by simpa using hb
        rw [ResolveIdByName_hit ttl search now storeNow cache name entry hname hc hlive]
        rfl
  refine ⟨?_, ?_, ?_, ?_⟩
  · cases hf : fresh cache (normKey name) now with
    | false => simp [hsplit false hf]
    | true => simp [hsplit true hf]
  · cases hf : fresh cache (normKey name) now with
    | false => simp [hsplit false hf]
    | true => simp [hsplit true hf]
  · intro entry hc hlive
    rw [ResolveIdByName_hit ttl search now storeNow cache name entry hname hc hlive]
  · intro items it hf hs hsel search2 name2 now2 store2 hname2 hkey
    rw [ResolveIdByName_miss ttl search now storeNow cache name hname hf,
      (searchAndCache_eq ttl search storeNow cache name).2.2 items it hs hsel]
    have hget : cacheGet
        (cacheSet cache (normKey name) { id := it.Id, expires := storeNow + ttl })
        (normKey name2) = some { id := it.Id, expires := storeNow + ttl } := by
      rw [hkey]
      exact cacheGet_set_self _ _ _
    constructor
    · intro hbefore
      rw [ResolveIdByName_hit ttl search2 now2 store2 _ name2 _ hname2 hget hbefore]
      exact ⟨rfl, rfl⟩
    · intro hafter
      have hstale : fresh
          (cacheSet cache (normKey name) { id := it.Id, expires := storeNow + ttl })
          (normKey name2) now2 = false := by
        unfold fresh
        rw [hget]
        simp only [decide_eq_false_iff_not]
        intro hgt
        have hgt2 : now2 < storeNow + ttl := hgt
        omega
      have hempty : fresh [] (normKey name2) now2 = false := rfl
      rw [ResolveIdByName_miss ttl search2 now2 store2 _ name2 hname2 hstale,
        ResolveIdByName_miss ttl search2 now2 store2 [] name2 hname2 hempty]
      exact ⟨(searchAndCache_result ttl search2 store2 _ [] name2).2,
        (searchAndCache_result ttl search2 store2 _ [] name2).1⟩

/-- "Rock" is resolved at the time 1010 with a time to live of 1000: " ROCK "
at the time 2009 is answered from the cache, and at the time 2010 the server
is searched again. In the same way "MÚSICA" at the time 2009 is answered from
the entry written for "Música". -/
theorem ResolveIdByName_cached_witness :
    normKey "MÚSICA" = normKey "Música" ∧
    ((MusicGenres.ResolveIdByName 1000 downSearch 2009 2009
      (MusicGenres.ResolveIdByName 1000 musicaSearch 1000 1010 jazzCache "Música").cache
      "MÚSICA").searched = [] ∧
    (MusicGenres.ResolveIdByName 1000 downSearch 2009 2009
      (MusicGenres.ResolveIdByName 1000 musicaSearch 1000 1010 jazzCache "Música").cache
      "MÚSICA").result =
      (MusicGenres.ResolveIdByName 1000 musicaSearch 1000 1010 jazzCache "Música").result) ∧
    (MusicGenres.ResolveIdByName 1000 musicaSearch 1000 1010 jazzCache "Música").result =
      .str "g3" ∧
    (MusicGenres.ResolveIdByName 1000 genreSearch 1000 1010 jazzCache "Rock").searched =
      ["Rock"] ∧
    (MusicGenres.ResolveIdByName 1000 genreSearch 1000 1010 jazzCache "Rock").result =
      .str "g2" ∧
    (MusicGenres.ResolveIdByName 1000 downSearch 2009 2009
      (MusicGenres.ResolveIdByName 1000 genreSearch 1000 1010 jazzCache "Rock").cache
      " ROCK ").searched = [] ∧
    (MusicGenres.ResolveIdByName 1000 downSearch 2009 2009
      (MusicGenres.ResolveIdByName 1000 genreSearch 1000 1010 jazzCache "Rock").cache
      " ROCK ").result = .str "g2" ∧
    (MusicGenres.ResolveIdByName 1000 downSearch 2010 2010
      (MusicGenres.ResolveIdByName 1000 genreSearch 1000 1010 jazzCache "Rock").cache
      " ROCK ").searched = [" ROCK "] :=
  have h := ResolveIdByName_cached 1000 genreSearch 1000 1010 jazzCache "Rock" (by decide)
  have h2 := h.2.2.2 [{ Id := some "g1", Name := some "Hard Rock" },
    { Id := some "g2", Name := some "Rock" }] { Id := some "g2", Name := some "Rock" }
    (by decide) (by decide) (by decide) downSearch " ROCK "
  ⟨by decide,
    ((ResolveIdByName_cached 1000 musicaSearch 1000 1010 jazzCache "Música" (by decide)).2.2.2
      [{ Id := some "g3", Name := some "Música" }] { Id := some "g3", Name := some "Música" }
      (by decide) (by decide) (by decide) downSearch "MÚSICA" 2009 2009 (by decide)
      (by decide)).1 (by decide),
    by decide,
    h.1.mpr (by decide), by decide,
    ((h2 2009 2009 (by decide) (by decide)).1 (by decide)).1,
    by decide,
    ((h2 2010 2010 (by decide) (by decide)).2 (by decide)).1⟩

/-- C18: when the remote search fails or returns no items, `ResolveIdByName`
leaves the cache as it was; the cache changes only after a search that
selected a candidate, and then the entry written under the normalized name is
the id of the selected candidate with the expiry `storeNow + ttl`, the time of
the writing plus the time to live, every other entry being unchanged. -/
theorem ResolveIdByName_frame (ttl : Int) (search : String → ItemsReply) (now storeNow : Int)
    (cache : GenreCache) (name : String) :
    (∀ code err, MusicGenres.Search search name = .failure code err →
      (MusicGenres.ResolveIdByName ttl search now storeNow cache name).cache = cache) ∧
    (MusicGenres.Search search name = .success [] →
      (MusicGenres.ResolveIdByName ttl search now storeNow cache name).cache = cache) ∧
    ((MusicGenres.ResolveIdByName ttl search now storeNow cache name).cache = cache ∨
      ∃ items it, MusicGenres.Search search name = .success items ∧
        _resolveItemsByName items (normKey name) = some it ∧
        (MusicGenres.ResolveIdByName ttl search now storeNow cache name).result = idVal it.Id ∧
        (MusicGenres.ResolveIdByName ttl search now storeNow cache name).searched = [name] ∧
        cacheGet (MusicGenres.ResolveIdByName ttl search now storeNow cache name).cache
          (normKey name) = some { id := it.Id, expires := storeNow + ttl } ∧
        ∀ other, other ≠ normKey name →
          cacheGet (MusicGenres.ResolveIdByName ttl search now storeNow cache name).cache other =
            cacheGet cache other) := by
  have h := ResolveIdByName_cache ttl search now storeNow cache name
  refine ⟨?_, ?_, ?_⟩
  · intro code err hs
    rcases h with h | ⟨items, it, hs2, _, _⟩
    · exact h
    · rw [hs] at hs2
      exact ApiResult.noConfusion hs2
  · intro hs
    rcases h with h | ⟨items, it, hs2, hsel, _⟩
    · exact h
    · rw [hs] at hs2
      have hitems : items = [] := (ApiResult.success.inj hs2).symm
      rw [hitems] at hsel
      simp [_resolveItemsByName] at hsel
  · rcases h with h | ⟨items, it, hs2, hsel, hr⟩
    · left
      exact h
    · right
      refine ⟨items, it, hs2, hsel, ?_, ?_, ?_, ?_⟩
      · rw [hr]
      · rw [hr]
      · rw [hr]
        exact cacheGet_set_self _ _ _
      · intro other hne
        rw [hr]
        exact cacheGet_set_other _ _ _ _ hne

/-- A search that fails leaves the cache with its entry for "jazz"; the
resolution of "Rock" adds the entry for "rock" and keeps the one for "jazz";
the resolution of "MÚSICA" adds the entry for "música". -/
theorem ResolveIdByName_frame_witness :
    (MusicGenres.ResolveIdByName 1000 downSearch 1000 1010 jazzCache "Rock").cache = jazzCache ∧
    (MusicGenres.ResolveIdByName 1000 genreSearch 1000 1010 jazzCache "Rock").cache =
      [("jazz", { id := some "g7", expires := 5000 }),
        ("rock", { id := some "g2", expires := 2010 })] ∧
    (MusicGenres.ResolveIdByName 1000 musicaSearch 1000 1010 jazzCache "MÚSICA").cache =
      [("jazz", { id := some "g7", expires := 5000 }),
        ("música", { id := some "g3", expires := 2010 })] :=
  ⟨(ResolveIdByName_frame 1000 downSearch 1000 1010 jazzCache "Rock").1 none
      "TypeError: fetch failed" (by decide),
    by decide, by decide⟩

/-! ## The session listing -/

/-- Insertion keeps the elements. -/
theorem insertSorted_perm {α : Type} (cmp : α → α → Int) (a : α) (l : List α) :
    (insertSorted cmp a l).Perm (a :: l) := by
  induction l with
  | nil => exact List.Perm.refl _
  | cons b l ih =>
    unfold insertSorted
    by_cases h : cmp a b ≤ 0
    · simp only [h, if_true]
      exact List.Perm.refl _
    · simp only [h, if_false]
      exact ((List.perm_cons b).mpr ih).trans (List.Perm.swap a b l)

/-- Sorting keeps the elements. -/
theorem jsSort_perm {α : Type} (cmp : α → α → Int) (l : List α) : (jsSort cmp l).Perm l := by
  induction l with
  | nil => exact List.Perm.refl _
  | cons a l ih =>
    unfold jsSort
    exact (insertSorted_perm cmp a (jsSort cmp l)).trans ((List.perm_cons a).mpr ih)

/-- Insertion into active sessions followed by inactive ones: an active
session goes to the front, an inactive one in front of the inactive ones. -/
theorem insertSorted_activeFirst (a : Session) (act inact : List Session)
    (hact : ∀ x ∈ act, x.IsActive = true) (hinact : ∀ x ∈ inact, x.IsActive = false) :
    insertSorted activeFirst a (act ++ inact) =
      if a.IsActive then a :: (act ++ inact) else act ++ a :: inact := by
  induction act with
  | nil =>
    cases inact with
    | nil => cases a.IsActive <;> rfl
    | cons b inact =>
      have hb : b.IsActive = false := hinact b (List.mem_cons_self _ _)
      cases ha : a.IsActive <;> simp [insertSorted, activeFirst, ha, hb]
  | cons x act ih =>
    have hx : x.IsActive = true := hact x (List.mem_cons_self _ _)
    have ih2 := ih fun y hy => hact y (List.mem_cons_of_mem _ hy)
    cases ha : a.IsActive with
    | true => simp [insertSorted, activeFirst, ha, hx]
    | false =>
      rw [ha] at ih2
      simp only [List.cons_append, insertSorted, activeFirst, ha, hx]
      simp only [Bool.false_eq_true, if_false, if_true]
      simp [ih2]

/-- The sort of `listSessions` puts the active sessions first and keeps the
order among the active and among the inactive sessions. -/
theorem jsSort_activeFirst (l : List Session) :
    jsSort activeFirst l =
      l.filter (fun s => s.IsActive) ++ l.filter (fun s => !s.IsActive) := by
  induction l with
  | nil => rfl
  | cons a l ih =>
    unfold jsSort
    rw [ih, insertSorted_activeFirst a _ _
      (fun x hx => (List.mem_filter.mp hx).2)
      (fun x hx => by simpa using (List.mem_filter.mp hx).2)]
    cases ha : a.IsActive <;> simp [List.filter_cons, ha]

/-- The first filter keeps a session exactly when it plays video under remote
control. -/
theorem filterMap_remoteVideo (raw : List (Option Session)) :
    raw.filterMap remoteVideo = raw.reduceOption.filter playsVideo := by
  induction raw with
  | nil => rfl
  | cons a raw ih =>
    cases a with
    | none => simpa [List.reduceOption, remoteVideo] using ih
    | some s =>
      have hs : remoteVideo (some s) = if playsVideo s then some s else none := by
        unfold remoteVideo playsVideo
        cases hm : s.PlayableMediaTypes <;> simp [hm]
      rw [List.filterMap_cons, hs, List.reduceOption_cons_of_some, List.filter_cons]
      cases hp : playsVideo s <;> simp [ih]

/-- The filter stage of `listSessions`, in raw order. -/
theorem listSessions_ok (raw : List (Option Session)) (userId : Option String) :
    Sessions.listSessions (.ok raw) userId =
      .success (jsSort activeFirst
        (raw.reduceOption.filter fun s => playsVideo s && belongsTo userId s)) := by
  have hfilter : (if truthy userId then
        (raw.filterMap remoteVideo).filter (ownedBy (userId.getD ""))
      else raw.filterMap remoteVideo) =
      raw.reduceOption.filter fun s => playsVideo s && belongsTo userId s := by
    rw [filterMap_remoteVideo]
    cases hu : truthy userId with
    | false => simp [belongsTo, hu]
    | true =>
      cases userId with
      | none => simp [truthy] at hu
      | some u =>
        simp only [if_true, List.filter_filter, Option.getD_some]
        apply List.filter_congr
        intro s _
        have hown : ownedBy u s = belongsTo (some u) s := by
          unfold ownedBy belongsTo
          rw [hu]
          cases s.User <;> simp
        rw [hown, Bool.and_comm]
  unfold Sessions.listSessions Sessions
  simp only [hfilter]

/-- The sessions of a raw list are a subsequence of it. -/
theorem reduceOption_sublist (raw : List (Option Session)) :
    (raw.reduceOption.map some).Sublist raw := by
  induction raw with
  | nil => exact List.Sublist.refl _
  | cons a raw ih =>
    cases a with
    | none =>
      rw [List.reduceOption_cons_of_none]
      exact List.Sublist.cons _ ih
    | some s =>
      rw [List.reduceOption_cons_of_some, List.map_cons]
      exact List.Sublist.cons₂ _ ih

/-- C19: for every raw session list of a successful reply and every `userId`
option, `listSessions` returns the sessions of the raw list that support
remote control and whose `PlayableMediaTypes` is a list containing "Video",
and, for a non-empty `userId`, whose `UserId` or `User.Id` equals it: the
result is a permutation of these sessions of the raw list, so that none is
added, dropped or duplicated. -/
theorem listSessions_exact (raw : List (Option Session)) (userId : Option String) :
    ∃ items, Sessions.listSessions (.ok raw) userId = .success items ∧
      items.Perm (raw.reduceOption.filter fun s => playsVideo s && belongsTo userId s) ∧
      ∀ s, s ∈ items ↔
        (some s ∈ raw ∧ s.SupportsRemoteControl = true ∧
          (∃ types, s.PlayableMediaTypes = some types ∧ "Video" ∈ types) ∧
          ∀ u, userId = some u → u ≠ "" →
            (s.UserId = some u ∨ ∃ usr, s.User = some usr ∧ usr.Id = some u)) := by
  refine ⟨_, listSessions_ok raw userId, jsSort_perm _ _, ?_⟩
  intro s
  rw [(jsSort_perm activeFirst _).mem_iff, List.mem_filter, List.reduceOption_mem_iff]
  have hvideo : playsVideo s = true ↔ (s.SupportsRemoteControl = true ∧
      ∃ types, s.PlayableMediaTypes = some types ∧ "Video" ∈ types) := by
    unfold playsVideo
    cases hm : s.PlayableMediaTypes <;> simp
  have huser : belongsTo userId s = true ↔ ∀ u, userId = some u → u ≠ "" →
      (s.UserId = some u ∨ ∃ usr, s.User = some usr ∧ usr.Id = some u) := by
    unfold belongsTo
    cases userId with
    | none => simp [truthy]
    | some u =>
      by_cases hu : u = ""
      · simp [truthy, hu]
      · cases hU : s.User with
        | none => simp [truthy, hu]
        | some usr => simp [truthy, hu]
  rw [Bool.and_eq_true, hvideo, huser]
  constructor
  · rintro ⟨h1, ⟨h2, h3⟩, h4⟩
    exact ⟨h1, h2, h3, h4⟩
  · rintro ⟨h1, h2, h3, h4⟩
    exact ⟨h1, ⟨h2, h3⟩, h4⟩

/-- C20: the result of `listSessions` is the active sessions followed by the
inactive ones, so that no inactive session precedes an active one, and each of
the two groups is in the order of the raw list returned by the server. -/
theorem listSessions_order (raw : List (Option Session)) (userId : Option String) :
    ∃ actives inactives,
      Sessions.listSessions (.ok raw) userId = .success (actives ++ inactives) ∧
      (∀ a ∈ actives, a.IsActive = true) ∧ (∀ b ∈ inactives, b.IsActive = false) ∧
      (actives.map some).Sublist raw ∧ (inactives.map some).Sublist raw ∧
      (actives ++ inactives).Pairwise fun a b => ¬ (a.IsActive = false ∧ b.IsActive = true) := by
  have hsub : ∀ q : Session → Bool,
      (((raw.reduceOption.filter fun s => playsVideo s && belongsTo userId s).filter q).map
        some).Sublist raw := by
    intro q
    exact (((List.filter_sublist _).trans (List.filter_sublist _)).map some).trans
      (reduceOption_sublist raw)
  have hact : ∀ a ∈ (raw.reduceOption.filter fun s => playsVideo s && belongsTo userId s).filter
      (fun s => s.IsActive), a.IsActive = true := fun a ha => (List.mem_filter.mp ha).2
  have hinact : ∀ b ∈ (raw.reduceOption.filter fun s => playsVideo s && belongsTo userId s).filter
      (fun s => !s.IsActive), b.IsActive = false :=
    fun b hb => by simpa using (List.mem_filter.mp hb).2
  refine ⟨_, _, ?_, hact, hinact, hsub _, hsub _, ?_⟩
  · rw [listSessions_ok, jsSort_activeFirst]
  · rw [List.pairwise_append]
    refine ⟨?_, ?_, ?_⟩
    · exact List.Pairwise.imp_of_mem (fun {a b} ha _ _ h => by
        rw [hact a ha] at h
        exact Bool.noConfusion h.1) (List.pairwise_of_forall
          (l := _) (R := fun _ _ => True) fun _ _ => trivial)
    · exact List.Pairwise.imp_of_mem (fun {a b} _ hb _ h => by
        rw [hinact b hb] at h
        exact Bool.noConfusion h.2) (List.pairwise_of_forall
          (l := _) (R := fun _ _ => True) fun _ _ => trivial)
    · intro a ha b hb h
      rw [hact a ha] at h
      exact Bool.noConfusion h.1

/-! ## The body of the retried play command -/

/-- C24, as amended: the retried request has the URL and the query parameters
of the first request, and its body has the same properties with the same
values except `playCommand`, which holds the number 1 instead of the string,
and `PlayCommand`, which is set to the number 1 (added, or overwritten when
the options had one). -/
theorem retryRequest_frame (sessionId itemId : String) (opts : Obj) :
    (retryRequest sessionId itemId opts).url = (playRequest sessionId itemId opts).url ∧
    (∀ k, k ≠ "playCommand" → k ≠ "PlayCommand" →
      (retryRequest sessionId itemId opts).body.get k =
        (playRequest sessionId itemId opts).body.get k) ∧
    (playRequest sessionId itemId opts).body.get "playCommand" = .str (playCommandOf opts) ∧
    (retryRequest sessionId itemId opts).body.get "playCommand" = .num 1 ∧
    (retryRequest sessionId itemId opts).body.get "PlayCommand" = .num 1 := by
  have hbase : ((Obj.assign [] opts).map Prod.fst).Nodup :=
    Obj.assign_nodup [] opts List.nodup_nil
  have hplay : ((playBody itemId opts).map Prod.fst).Nodup := Obj.assign_nodup _ _ hbase
  have hretry : ((retryBody itemId opts).map Prod.fst).Nodup := Obj.assign_nodup _ _ hbase
  have hp : ∀ k, (playRequest sessionId itemId opts).body.get k = (playBody itemId opts).get k :=
    fun k => jsonStringify_get_nodup _ k hplay
  have hr : ∀ k, (retryRequest sessionId itemId opts).body.get k =
      (retryBody itemId opts).get k := fun k => jsonStringify_get_nodup _ k hretry
  refine ⟨rfl, ?_, ?_, ?_, ?_⟩
  · intro k h1 h2
    rw [hp, hr]
    simp only [playBody, retryBody, Obj.assign, List.foldl]
    rw [Obj.get_set_other _ _ _ _ (fun e => h2 e.symm),
      Obj.get_set_other _ _ _ _ (fun e => h1 e.symm),
      Obj.get_set_other _ _ _ _ (fun e => h1 e.symm)]
  · rw [hp]
    simp only [playBody, Obj.assign, List.foldl]
    rw [Obj.get_set_self]
  · rw [hr]
    simp only [retryBody, Obj.assign, List.foldl]
    rw [Obj.get_set_other _ _ _ _ (by decide), Obj.get_set_self]
  · rw [hr]
    simp only [retryBody, Obj.assign, List.foldl]
    rw [Obj.get_set_self]

/-- C24, as stated, fails: the retry is made, and its body has the property
`PlayCommand`, which the body of the first request does not have. -/
theorem retryRequest_frame_counterexample :
    (Sessions.playOnSession false numericServer "s1" "ep1" seriesOpts).2 =
      [playRequest "s1" "ep1" seriesOpts, retryRequest "s1" "ep1" seriesOpts] ∧
    (playRequest "s1" "ep1" seriesOpts).body.get "PlayCommand" = .undefined ∧
    (retryRequest "s1" "ep1" seriesOpts).body.get "PlayCommand" = .num 1 := by
  decide

/-- C25, as amended: when `playOnSession` succeeds through the retry with the
numeric `playCommand`, its result is `{ status: true, response }` with the
JSON of the second response and nothing else; a call that succeeds on the
first attempt with the same JSON, the debug output being off, returns the same
result. -/
theorem playOnSession_retry_result (server other : PlayServer)
    (sessionId itemId : String) (opts : Obj) (first second direct : HttpResponse)
    (bodyText : String)
    (hsession : sessionId ≠ "") (hitem : itemId ≠ "")
    (hfirst : server 0 (playRequest sessionId itemId opts) = .response first)
    (hstatus : first.status = 400)
    (htext : first.text = some bodyText)
    (hbody : jsIncludes (jsToLowerCase bodyText) "playcommand" = true)
    (hsecond : server 1 (retryRequest sessionId itemId opts) = .response second)
    (hok : second.ok = true)
    (hdirect : other 0 (playRequest sessionId itemId opts) = .response direct)
    (hdok : direct.ok = true)
    (hjson : direct.json = second.json)
    (hdebug : (opts.get "debug").truthy = false) :
    (Sessions.playOnSession false server sessionId itemId opts).1 =
        { status := true, response := second.json } ∧
    (Sessions.playOnSession false other sessionId itemId opts).1 =
      (Sessions.playOnSession false server sessionId itemId opts).1 := by
  have hguard : (sessionId == "" || itemId == "") = false := by simp [hsession, hitem]
  have hnok : first.ok = false := by simp [HttpResponse.ok, hstatus]
  have hne : bodyText ≠ "" := by
    intro h
    rw [h] at hbody
    exact Bool.noConfusion hbody
  have hcond : (first.status == 400 && (first.text.getD "<failed-to-read-body>") != "" &&
      jsIncludes (jsToLowerCase (first.text.getD "<failed-to-read-body>")) "playcommand") = true := by
    simp [hstatus, htext, hne, hbody]
  have h1 : (Sessions.playOnSession false server sessionId itemId opts).1 =
      { status := true, response := second.json } := by
    unfold Sessions.playOnSession
    simp only [hguard, hfirst, hnok, hcond, hsecond]
    simp [hok]
  have h2 : (Sessions.playOnSession false other sessionId itemId opts).1 =
      { status := true, response := second.json } := by
    unfold Sessions.playOnSession
    simp only [hguard, hdirect]
    simp [hdok, hdebug, hjson]
  exact ⟨h1, by rw [h1, h2]⟩

/-- The end-to-end example against a server that accepts at once with the same
JSON: both results are `{ status: true, response: "{}" }`. -/
theorem playOnSession_retry_result_witness :
    (Sessions.playOnSession false numericServer "s1" "ep1" seriesOpts).1 =
        { status := true, response := some "{}" } ∧
    (Sessions.playOnSession false jsonServer "s1" "ep1" seriesOpts).1 =
      (Sessions.playOnSession false numericServer "s1" "ep1" seriesOpts).1 :=
  playOnSession_retry_result numericServer jsonServer "s1" "ep1" seriesOpts
    { status := 400, text := some "Invalid value for playCommand" }
    { status := 200, json := some "{}" } { status := 200, json := some "{}" }
    "Invalid value for playCommand" (by decide) (by decide) rfl rfl rfl (by decide) rfl
    (by decide) rfl (by decide) rfl (by decide)

/-- C25, as stated, fails: the call that succeeds through the retry (two
requests) and the call that succeeds at once (one request) return equal
results, without any property that tells them apart. -/
theorem playOnSession_retry_result_counterexample :
    (Sessions.playOnSession false numericServer "s1" "ep1" seriesOpts).2.length = 2 ∧
    (Sessions.playOnSession false jsonServer "s1" "ep1" seriesOpts).2.length = 1 ∧
    (Sessions.playOnSession false numericServer "s1" "ep1" seriesOpts).1 =
      (Sessions.playOnSession false jsonServer "s1" "ep1" seriesOpts).1 := by
  decide

/-- C29: with a budget of 3 attempts, a session that starts to play the
expected item after the third poll is reported as not confirmed, and the
`lastSession` returned, taken from the listing made after the loop, plays the
expected item. -/
theorem waitForNowPlaying_lastSession_plays :
    Sessions.waitForNowPlaying lateStart (some "s2") (some "ep1") { attempts := some 3 } =
      (.unconfirmed (some (livingRoomPlaying "ep1")), 4) ∧
    nowPlays (livingRoomPlaying "ep1") (some "ep1") = true := by
  decide

/-! ## The stop command -/

/-- C26, as amended: for a non-empty session id, `stopSession` sends one
request and reports Ok exactly when the server answers that request with a
success status; it keeps no state, so a second consecutive stop reports Ok, as
the first one, whenever the server answers it with a success status. -/
theorem stopSession_ok_iff (first second : PostRequest → FetchOutcome) (sessionId : String)
    (hsession : sessionId ≠ "") :
    ((Sessions.stopSession first sessionId).1.status = true ↔
      ∃ r, first (stopRequest sessionId) = .response r ∧ r.ok = true) ∧
    (Sessions.stopSession first sessionId).2 = [stopRequest sessionId] ∧
    ((∃ r, second (stopRequest sessionId) = .response r ∧ r.ok = true) →
      (Sessions.stopSession first sessionId).1.status = true →
      (Sessions.stopSession second sessionId).1 = (Sessions.stopSession first sessionId).1 ∧
      (Sessions.stopSession second sessionId).1 = { status := true }) := by
  have hguard : (sessionId == "") = false := by simpa using hsession
  have hiff : ∀ answer : PostRequest → FetchOutcome,
      ((Sessions.stopSession answer sessionId).1.status = true ↔
        ∃ r, answer (stopRequest sessionId) = .response r ∧ r.ok = true) ∧
      ((Sessions.stopSession answer sessionId).1.status = true →
        (Sessions.stopSession answer sessionId).1 = { status := true }) ∧
      (Sessions.stopSession answer sessionId).2 = [stopRequest sessionId] := by
    intro answer
    unfold Sessions.stopSession
    simp only [hguard]
    cases ha : answer (stopRequest sessionId) with
    | threw message => simp
    | response r =>
      cases hr : r.ok with
      | false => simp [hr]
      | true => simp [hr]
  refine ⟨(hiff first).1, (hiff first).2.2, ?_⟩
  intro h2 h1
  have e1 := (hiff first).2.1 h1
  have e2 := (hiff second).2.1 ((hiff second).1.mpr h2)
  exact ⟨by rw [e1, e2], e2⟩

/-- Two stops that the server answers with status 204: both report Ok. -/
theorem stopSession_ok_iff_witness :
    (Sessions.stopSession (acceptingServer 0) "s1").1.status = true ∧
    (Sessions.stopSession (acceptingServer 1) "s1").1 =
      (Sessions.stopSession (acceptingServer 0) "s1").1 :=
  have h := stopSession_ok_iff (acceptingServer 0) (acceptingServer 1) "s1" (by decide)
  ⟨h.1.mpr ⟨{ status := 204 }, rfl, by decide⟩,
    (h.2.2 ⟨{ status := 204 }, rfl, by decide⟩ (by decide)).1⟩

/-- C26, as stated, fails when the server rejects the stop of a session that
is already stopped: the first stop reports Ok and the second one reports the
failure with the status 404. -/
theorem stopSession_ok_iff_counterexample :
    (Sessions.stopSession (strictStopServer 0) "s1").1 = { status := true } ∧
    (Sessions.stopSession (strictStopServer 1) "s1").1 =
      { status := false, statusCode := some 404, error := some "Nothing is playing" } := by
  decide

/-! ## Search and resolution of movies and series -/

/-- The ranking returns `null` on the empty list only. -/
theorem resolveItemsByName_none_iff (items : List Item) (key : String) :
    _resolveItemsByName items key = none ↔ items = [] := by
  cases items with
  | nil => simp [_resolveItemsByName]
  | cons a l =>
    unfold _resolveItemsByName
    simp only [List.isEmpty_cons, Bool.false_eq_true, if_false]
    cases h1 : (a :: l).find? fun it => norm it.Name == key with
    | some x => simp
    | none =>
      cases h2 : (a :: l).find? fun it => jsStartsWith (norm it.Name) key with
      | some x => simp
      | none =>
        cases h3 : (a :: l).find? fun it => jsIncludes (norm it.Name) key with
        | some x => simp
        | none => simp

/-- The ranking returns a candidate of the list. -/
theorem resolveItemsByName_mem (items : List Item) (key : String) (it : Item)
    (h : _resolveItemsByName items key = some it) : it ∈ items := by
  cases items with
  | nil => simp [_resolveItemsByName] at h
  | cons a l =>
    unfold _resolveItemsByName at h
    simp only [List.isEmpty_cons, Bool.false_eq_true, if_false] at h
    cases h1 : (a :: l).find? fun it => norm it.Name == key with
    | some x =>
      simp only [h1, Option.isNone_some, Bool.false_eq_true, if_false] at h
      exact (Option.some.inj h) ▸ List.mem_of_find?_eq_some h1
    | none =>
      simp only [h1, Option.isNone_none, if_true] at h
      cases h2 : (a :: l).find? fun it => jsStartsWith (norm it.Name) key with
      | some x =>
        simp only [h2, Option.isNone_some, Bool.false_eq_true, if_false] at h
        exact (Option.some.inj h) ▸ List.mem_of_find?_eq_some h2
      | none =>
        simp only [h2, Option.isNone_none, if_true] at h
        cases h3 : (a :: l).find? fun it => jsIncludes (norm it.Name) key with
        | some x =>
          simp only [h3, Option.isNone_some, Bool.false_eq_true, if_false] at h
          exact (Option.some.inj h) ▸ List.mem_of_find?_eq_some h3
        | none =>
          simp only [h3, Option.isNone_none, if_true, List.head?_cons] at h
          exact (Option.some.inj h) ▸ List.mem_cons_self _ _

/-- The resolution of a series on a successful search: the ranking of the
items that pass the filter of `Search`. -/
theorem ResolveSeriesByName_ok (api : String → ItemsReply) (name : String) (items : List Item)
    (hblank : jsTrim name ≠ "") (hreply : api (jsTrim name) = .ok items) :
    Items.ResolveSeriesByName api name =
      _resolveItemsByName (items.filter (nameContains name)) (normKey name) := by
  have hname : name ≠ "" := ne_empty_of_trim_ne_empty name hblank
  simp [Items.ResolveSeriesByName, Items.Series.Search, Search, Request, hname, hblank, hreply]

/-- C21: the names "batman" and " Batman " have the same trimmed, lower-cased
form, and on the same item list of the server the first one resolves to
"Batman Begins" while the second one resolves to `null`: the filter of
`Search` compares with the query lower-cased but not trimmed. -/
theorem ResolveSeriesByName_untrimmed :
    normKey "batman" = normKey " Batman " ∧ normKey "batman" ≠ "" ∧
    Items.ResolveSeriesByName batmanCatalog "batman" = some batmanBegins ∧
    Items.ResolveSeriesByName batmanCatalog " Batman " = none := by
  decide

/-- For a non-blank series name without white space around it and a successful
search, `ResolveSeriesByName` returns the ranking exact > startsWith >
includes > first of the returned items whose lower-cased `Name` contains the
lower-cased name: one of these items, and `null` exactly when there is none,
in particular when the server returned no items. -/
theorem ResolveSeriesByName_filtered (api : String → ItemsReply) (name : String)
    (items : List Item)
    (hblank : jsTrim name ≠ "") (htrimmed : jsTrim name = name)
    (hreply : api name = .ok items) :
    Items.ResolveSeriesByName api name =
        _resolveItemsByName (items.filter (nameContains name)) (normKey name) ∧
    (Items.ResolveSeriesByName api name = none ↔
      ∀ it ∈ items, nameContains name it = false) ∧
    (∀ it, Items.ResolveSeriesByName api name = some it →
      it ∈ items ∧ nameContains name it = true) ∧
    (items = [] → Items.ResolveSeriesByName api name = none) := by
  have hres := ResolveSeriesByName_ok api name items hblank (by rw [htrimmed]; exact hreply)
  have hnone : Items.ResolveSeriesByName api name = none ↔
      ∀ it ∈ items, nameContains name it = false := by
    rw [hres, resolveItemsByName_none_iff, List.filter_eq_nil_iff]
    constructor
    · intro h it hit
      simpa using h it hit
    · intro h it hit
      simp [h it hit]
  refine ⟨hres, hnone, ?_, ?_⟩
  · intro it hit
    rw [hres] at hit
    exact List.mem_filter.mp (resolveItemsByName_mem _ _ it hit)
  · intro hempty
    rw [hnone, hempty]
    intro it hit
    exact absurd hit (List.not_mem_nil it)

/-- The name "batman" on the catalogue of the example: "Batman Begins". -/
theorem ResolveSeriesByName_filtered_example :
    Items.ResolveSeriesByName batmanCatalog "batman" =
        _resolveItemsByName ([batmanBegins, theBatman].filter (nameContains "batman"))
          (normKey "batman") ∧
    Items.ResolveSeriesByName batmanCatalog "batman" = some batmanBegins :=
  ⟨(ResolveSeriesByName_filtered batmanCatalog "batman" [batmanBegins, theBatman]
      (by decide) (by decide) rfl).1, by decide⟩

/-- C22: the series search for "matrix" succeeds with the two items "Batman
Begins" and "The Batman", no name of which contains "matrix"; the filter of
`Search` drops both before the ranking and `ResolveSeriesByName` returns
`null`. The ranking exact > startsWith > includes > first on the returned
items gives the first one, "Batman Begins", and so do the resolution of a
movie for a user and the resolution of a genre, which rank the items as the
server returned them. -/
theorem ResolveSeriesByName_no_fallback :
    jsTrim "matrix" ≠ "" ∧
    Request (batmanCatalog (jsTrim "matrix")) = .success [batmanBegins, theBatman] ∧
    Items.Series.Search batmanCatalog "matrix" = .success [] ∧
    Items.ResolveSeriesByName batmanCatalog "matrix" = none ∧
    _resolveItemsByName [batmanBegins, theBatman] (normKey "matrix") = some batmanBegins ∧
    Items.ResolveMovieByName batmanCatalog "matrix" (some "u1") = some batmanBegins ∧
    (MusicGenres.ResolveIdByName 1000 batmanCatalog 0 0 [] "matrix").result = .str "m1" := by
  decide

/-- C23, as amended: when the remote search fails, `ResolveIdByName` (without
an unexpired cache entry), `ResolveMovieByName` and `ResolveSeriesByName`
return `null`, the value they return when the search succeeds with no
candidates. -/
theorem resolvers_null (api : String → ItemsReply) (name : String) (userId : Option String)
    (ttl now storeNow : Int) (cache : GenreCache)
    (hname : name ≠ "") (hstale : fresh cache (normKey name) now = false) :
    ((∀ code err, Request (api (jsTrim name)) = .failure code err →
        Items.ResolveSeriesByName api name = none ∧
        Items.ResolveMovieByName api name userId = none) ∧
      (api (jsTrim name) = .ok [] →
        Items.ResolveSeriesByName api name = none ∧
        Items.ResolveMovieByName api name userId = none)) ∧
    ((∀ code err, MusicGenres.Search api name = .failure code err →
        (MusicGenres.ResolveIdByName ttl api now storeNow cache name).result = .null) ∧
      (MusicGenres.Search api name = .success [] →
        (MusicGenres.ResolveIdByName ttl api now storeNow cache name).result = .null)) := by
  have hn : (name == "") = false := by simpa using hname
  refine ⟨⟨?_, ?_⟩, ?_, ?_⟩
  · intro code err h
    constructor
    · unfold Items.ResolveSeriesByName Items.Series.Search Search
      cases hb : (name == "" || jsTrim name == "") <;> simp [hn, h]
    · unfold Items.ResolveMovieByName Items.Movies.Search Search
      cases hu : truthy userId <;>
        cases hb : (name == "" || jsTrim name == "") <;> simp [hn, h]
  · intro h
    constructor
    · unfold Items.ResolveSeriesByName Items.Series.Search Search
      cases hb : (name == "" || jsTrim name == "") <;>
        simp [hn, h, Request, _resolveItemsByName]
    · unfold Items.ResolveMovieByName Items.Movies.Search Search
      cases hu : truthy userId <;>
        cases hb : (name == "" || jsTrim name == "") <;>
        simp [hn, h, Request, _resolveItemsByName]
  · intro code err h
    rw [ResolveIdByName_miss ttl api now storeNow cache name hname hstale,
      (searchAndCache_eq ttl api storeNow cache name).1 code err h]
  · intro h
    rw [ResolveIdByName_miss ttl api now storeNow cache name hname hstale,
      (searchAndCache_eq ttl api storeNow cache name).2.1 [] h (by simp [_resolveItemsByName])]

/-- A search answered with status 500 and a search without items: `null` for
the series. -/
theorem resolvers_null_witness :
    Items.ResolveSeriesByName brokenCatalog "batman" = none ∧
    Items.ResolveSeriesByName emptyCatalog "batman" = none :=
  have h := resolvers_null brokenCatalog "batman" none 1000 0 0 [] (by decide) (by decide)
  have h2 := resolvers_null emptyCatalog "batman" none 1000 0 0 [] (by decide) (by decide)
  ⟨(h.1.1 (some 500) "Internal Server Error" (by decide)).1, (h2.1.2 (by decide)).1⟩

/-- C23, as stated, fails: each of the three functions returns the same value
for a search that fails and for a search that succeeds without candidates. -/
theorem resolvers_null_counterexample :
    Items.ResolveSeriesByName brokenCatalog "batman" =
      Items.ResolveSeriesByName emptyCatalog "batman" ∧
    Items.ResolveMovieByName brokenCatalog "batman" (some "u1") =
      Items.ResolveMovieByName emptyCatalog "batman" (some "u1") ∧
    Items.ResolveMovieByName brokenCatalog "batman" none =
      Items.ResolveMovieByName emptyCatalog "batman" none ∧
    (MusicGenres.ResolveIdByName 1000 brokenCatalog 0 0 [] "rock").result =
      (MusicGenres.ResolveIdByName 1000 emptyCatalog 0 0 [] "rock").result := by
  decide

/-! ## The intent handlers -/

/-- C27: `PlaySeriesIntent` does not read the `devicename` slot. With the
sessions "Living Room" and "Kitchen" live and the slot naming "Kitchen", which
`findByDeviceName` resolves to the session "s3" and which the device
resolution of `PlayMovieIntent` selects, the play command goes to the
persisted session "s2"; with nothing persisted no play command is sent and
the answer asks to select a device. -/
theorem PlaySeriesIntent_ignores_devicename :
    (∀ (env : Env) (persistent : Persistent) (name device : Option String),
      PlaySeriesIntent env persistent { seriesname := name, devicename := device } =
        PlaySeriesIntent env persistent { seriesname := name, devicename := none }) ∧
    Sessions.findByDeviceName home.findReply "Kitchen" = .ok activeKitchen ∧
    movieDevice home (persisted "s2") showOnKitchen = .ok activeKitchen (some true) ∧
    (PlaySeriesIntent home (persisted "s2") showOnKitchen).events.head? =
      some (.play "s2" "ep2" (firstPlayOpts "ms1" .undefined)) ∧
    PlaySeriesIntent home {} showOnKitchen = { speech := .askToSelectDevice } :=
  ⟨fun _ _ _ _ => rfl, by decide, by decide, by decide, by decide⟩

/-! ## The sort of the episodes -/

/-- The elements after an insertion. -/
theorem mem_insertSorted {α : Type} (cmp : α → α → Int) (a x : α) (l : List α) :
    x ∈ insertSorted cmp a l ↔ x = a ∨ x ∈ l := by
  rw [(insertSorted_perm cmp a l).mem_iff, List.mem_cons]

/-- The elements after the sort. -/
theorem mem_jsSort {α : Type} (cmp : α → α → Int) (x : α) (l : List α) :
    x ∈ jsSort cmp l ↔ x ∈ l := (jsSort_perm cmp l).mem_iff

/-- Insertion into a list in order gives a list in order, for a comparator
that decides a total and transitive order on the elements at hand. -/
theorem insertSorted_pairwise {α : Type} (cmp : α → α → Int) (le : α → α → Prop) (a : α)
    (l : List α)
    (htotal : ∀ b ∈ l, le a b ∨ le b a)
    (htrans : ∀ b ∈ l, ∀ c ∈ l, le a b → le b c → le a c)
    (hcmp : ∀ b ∈ l, cmp a b ≤ 0 ↔ le a b)
    (hl : l.Pairwise le) : (insertSorted cmp a l).Pairwise le := by
  induction l with
  | nil => exact List.pairwise_singleton le a
  | cons b l ih =>
    have hb : b ∈ b :: l := List.mem_cons_self _ _
    rw [List.pairwise_cons] at hl
    unfold insertSorted
    by_cases h : cmp a b ≤ 0
    · simp only [h, if_true]
      have hab : le a b := (hcmp b hb).mp h
      rw [List.pairwise_cons]
      refine ⟨?_, List.pairwise_cons.mpr hl⟩
      intro x hx
      rcases List.mem_cons.mp hx with hx | hx
      · rw [hx]
        exact hab
      · exact htrans b hb x (List.mem_cons_of_mem _ hx) hab (hl.1 x hx)
    · simp only [h, if_false]
      have hba : le b a := by
        rcases htotal b hb with h1 | h1
        · exact absurd ((hcmp b hb).mpr h1) h
        · exact h1
      rw [List.pairwise_cons]
      refine ⟨?_, ih (fun c hc => htotal c (List.mem_cons_of_mem _ hc))
        (fun c hc d hd => htrans c (List.mem_cons_of_mem _ hc) d (List.mem_cons_of_mem _ hd))
        (fun c hc => hcmp c (List.mem_cons_of_mem _ hc)) hl.2⟩
      intro x hx
      rcases (mem_insertSorted cmp a x l).mp hx with hx | hx
      · rw [hx]
        exact hba
      · exact hl.1 x hx

/-- The sort puts a list in order, for a comparator that decides a total and
transitive order on the elements of the list. -/
theorem jsSort_pairwise {α : Type} (cmp : α → α → Int) (le : α → α → Prop) (l : List α)
    (htotal : ∀ a ∈ l, ∀ b ∈ l, le a b ∨ le b a)
    (htrans : ∀ a ∈ l, ∀ b ∈ l, ∀ c ∈ l, le a b → le b c → le a c)
    (hcmp : ∀ a ∈ l, ∀ b ∈ l, cmp a b ≤ 0 ↔ le a b) :
    (jsSort cmp l).Pairwise le := by
  induction l with
  | nil => exact List.Pairwise.nil
  | cons a l ih =>
    have ha : a ∈ a :: l := List.mem_cons_self _ _
    have hin : ∀ x, x ∈ jsSort cmp l → x ∈ a :: l :=
      fun x hx => List.mem_cons_of_mem _ ((mem_jsSort cmp x l).mp hx)
    unfold jsSort
    exact insertSorted_pairwise cmp le a (jsSort cmp l)
      (fun b hb => htotal a ha b (hin b hb))
      (fun b hb c hc => htrans a ha b (hin b hb) c (hin c hc))
      (fun b hb => hcmp a ha b (hin b hb))
      (ih (fun x hx y hy => htotal x (List.mem_cons_of_mem _ hx) y (List.mem_cons_of_mem _ hy))
        (fun x hx y hy z hz => htrans x (List.mem_cons_of_mem _ hx) y
          (List.mem_cons_of_mem _ hy) z (List.mem_cons_of_mem _ hz))
        (fun x hx y hy => hcmp x (List.mem_cons_of_mem _ hx) y (List.mem_cons_of_mem _ hy)))

/-- The inserted element comes in front of the elements of its class. -/
theorem insertSorted_filter {α : Type} (cmp : α → α → Int) (p : α → Bool) (a : α)
    (l : List α) (hclass : ∀ b ∈ l, p a = true → p b = true → cmp a b ≤ 0) :
    (insertSorted cmp a l).filter p = if p a then a :: l.filter p else l.filter p := by
  induction l with
  | nil => cases hp : p a <;> simp [insertSorted, hp]
  | cons b l ih =>
    have ih2 := ih fun c hc => hclass c (List.mem_cons_of_mem _ hc)
    unfold insertSorted
    by_cases h : cmp a b ≤ 0
    · simp only [h, if_true]
      cases hp : p a <;> simp [List.filter_cons, hp]
    · simp only [h, if_false]
      rw [List.filter_cons, ih2]
      cases hp : p a with
      | false => simp [List.filter_cons]
      | true =>
        have hb : p b = false := by
          cases hpb : p b with
          | false => rfl
          | true => exact absurd (hclass b (List.mem_cons_self _ _) hp hpb) h
        simp [List.filter_cons, hb]

/-- The sort is stable: the elements of a class of the comparator keep their
order. -/
theorem jsSort_filter {α : Type} (cmp : α → α → Int) (p : α → Bool) (l : List α)
    (hclass : ∀ a ∈ l, ∀ b ∈ l, p a = true → p b = true → cmp a b ≤ 0) :
    (jsSort cmp l).filter p = l.filter p := by
  induction l with
  | nil => rfl
  | cons a l ih =>
    unfold jsSort
    rw [insertSorted_filter cmp p a (jsSort cmp l) (fun b hb =>
      hclass a (List.mem_cons_self _ _) b (List.mem_cons_of_mem _ ((mem_jsSort cmp b l).mp hb))),
      ih (fun x hx y hy => hclass x (List.mem_cons_of_mem _ hx) y (List.mem_cons_of_mem _ hy))]
    cases hp : p a <;> simp [List.filter_cons, hp]

/-- The comparator of `PlaySeriesIntent` decides the order by season, then
episode. -/
theorem seriesOrder_le (a b : Item) : seriesOrder a b ≤ 0 ↔ notAfter a b := by
  unfold seriesOrder notAfter
  by_cases h : seasonOf a = seasonOf b
  · simp only [h, bne_self_eq_false, Bool.false_eq_true, if_false]
    constructor
    · intro h1
      exact Or.inr ⟨trivial, by omega⟩
    · rintro (h1 | ⟨_, h1⟩)
      · omega
      · omega
  · have hne : (seasonOf a != seasonOf b) = true := by simpa using h
    simp only [hne, if_true]
    constructor
    · intro h1
      exact Or.inl (by omega)
    · rintro (h1 | ⟨h1, _⟩)
      · omega
      · exact absurd h1 h

/-- The order by season, then episode, is total. -/
theorem notAfter_total (a b : Item) : notAfter a b ∨ notAfter b a := by
  unfold notAfter
  omega

/-- The order by season, then episode, is transitive. -/
theorem notAfter_trans (a b c : Item) (h1 : notAfter a b) (h2 : notAfter b c) :
    notAfter a c := by
  unfold notAfter at *
  omega

/-- The episodes kept are episodes of the list. -/
theorem restrictToSeries_subset (seriesId : Option String) (items : List Item) (x : Item)
    (h : x ∈ restrictToSeries seriesId items) : x ∈ items := by
  unfold restrictToSeries at h
  by_cases he : (items.filter (belongsToSeries seriesId)).isEmpty = true
  · simpa [he] using h
  · simp only [he, Bool.false_eq_true, if_false] at h
    exact (List.mem_filter.mp h).1

/-- With a non-empty list some episode is kept. -/
theorem restrictToSeries_ne_nil (seriesId : Option String) (items : List Item)
    (hne : items ≠ []) : restrictToSeries seriesId items ≠ [] := by
  unfold restrictToSeries
  by_cases he : (items.filter (belongsToSeries seriesId)).isEmpty = true
  · simpa [he] using hne
  · simp only [he, Bool.false_eq_true, if_false]
    intro h
    rw [h] at he
    exact he rfl

/-- The choice of `PlaySeriesIntent` on a non-empty episode list, in terms of
the episodes kept (`pool`) and of their sorted list (`ordered`). -/
theorem selectEpisode_spec (seriesId : Option String) (items : List Item) (hne : items ≠ []) :
    ∃ (pool ordered : List Item) (episode : Item),
      selectEpisode seriesId items = some episode ∧ episode ∈ items ∧
      ((∃ x ∈ items, belongsToSeries seriesId x = true) →
        pool = items.filter (belongsToSeries seriesId)) ∧
      ((∀ x ∈ items, belongsToSeries seriesId x = false) → pool = items) ∧
      ordered.Perm pool ∧ ordered.Pairwise notAfter ∧
      (∀ e, ordered.filter (sameNumbers e) = pool.filter (sameNumbers e)) ∧
      (∀ x, ordered.find? flaggedNextUp = some x → episode = x) ∧
      (ordered.find? flaggedNextUp = none →
        ∀ x, ordered.find? (fun it => !flaggedPlayed it) = some x → episode = x) ∧
      (ordered.find? flaggedNextUp = none →
        ordered.find? (fun it => !flaggedPlayed it) = none → ordered.head? = some episode) := by
  have hperm := jsSort_perm seriesOrder (restrictToSeries seriesId items)
  have hsorted : (jsSort seriesOrder (restrictToSeries seriesId items)).Pairwise notAfter :=
    jsSort_pairwise seriesOrder notAfter _ (fun a _ b _ => notAfter_total a b)
      (fun a _ b _ c _ => notAfter_trans a b c) (fun a _ b _ => seriesOrder_le a b)
  have hstable : ∀ e, (jsSort seriesOrder (restrictToSeries seriesId items)).filter
      (sameNumbers e) = (restrictToSeries seriesId items).filter (sameNumbers e) := by
    intro e
    apply jsSort_filter
    intro a _ b _ ha hb
    rw [seriesOrder_le]
    unfold sameNumbers at ha hb
    simp only [Bool.and_eq_true, beq_iff_eq] at ha hb
    unfold notAfter
    omega
  have hpool1 : (∃ x ∈ items, belongsToSeries seriesId x = true) →
      restrictToSeries seriesId items = items.filter (belongsToSeries seriesId) := by
    rintro ⟨x, hx, hb⟩
    unfold restrictToSeries
    have hmem : x ∈ items.filter (belongsToSeries seriesId) := List.mem_filter.mpr ⟨hx, hb⟩
    have hnil : (items.filter (belongsToSeries seriesId)).isEmpty = false := by
      cases hf : items.filter (belongsToSeries seriesId) with
      | nil => rw [hf] at hmem; exact absurd hmem (List.not_mem_nil x)
      | cons y l => rfl
    simp [hnil]
  have hpool2 : (∀ x ∈ items, belongsToSeries seriesId x = false) →
      restrictToSeries seriesId items = items := by
    intro h
    unfold restrictToSeries
    have hnil : items.filter (belongsToSeries seriesId) = [] := by
      rw [List.filter_eq_nil_iff]
      intro a ha
      simp [h a ha]
    simp [hnil]
  have hmem : ∀ x, x ∈ jsSort seriesOrder (restrictToSeries seriesId items) → x ∈ items :=
    fun x hx => restrictToSeries_subset seriesId items x ((mem_jsSort _ x _).mp hx)
  have hordne : jsSort seriesOrder (restrictToSeries seriesId items) ≠ [] := by
    intro h
    rw [h] at hperm
    exact restrictToSeries_ne_nil seriesId items hne (List.Perm.nil_eq hperm).symm
  unfold selectEpisode
  cases h1 : (jsSort seriesOrder (restrictToSeries seriesId items)).find? flaggedNextUp with
  | some x =>
    refine ⟨_, _, x, by simp [h1], hmem x (List.mem_of_find?_eq_some h1), hpool1, hpool2, hperm,
      hsorted, hstable, ?_, ?_, ?_⟩
    · intro y hy
      rw [h1] at hy
      exact Option.some.inj hy
    · intro h
      rw [h1] at h
      exact Option.noConfusion h
    · intro h
      rw [h1] at h
      exact Option.noConfusion h
  | none =>
    cases h2 : (jsSort seriesOrder (restrictToSeries seriesId items)).find?
        (fun it => !flaggedPlayed it) with
    | some x =>
      refine ⟨_, _, x, by simp [h1, h2], hmem x (List.mem_of_find?_eq_some h2), hpool1, hpool2,
        hperm, hsorted, hstable, ?_, ?_, ?_⟩
      · intro y hy
        rw [h1] at hy
        exact Option.noConfusion hy
      · intro _ y hy
        rw [h2] at hy
        exact Option.some.inj hy
      · intro _ h
        rw [h2] at h
        exact Option.noConfusion h
    | none =>
      cases h3 : jsSort seriesOrder (restrictToSeries seriesId items) with
      | nil => exact absurd h3 hordne
      | cons x l =>
        have hx : x ∈ items := hmem x (by rw [h3]; exact List.mem_cons_self _ _)
        rw [h3] at h1 h2 hperm hsorted
        refine ⟨_, x :: l, x, by simp [h1, h2], hx, hpool1, hpool2, hperm, hsorted, ?_, ?_, ?_, ?_⟩
        · intro e
          rw [← h3]
          exact hstable e
        · intro y hy
          rw [h1] at hy
          exact Option.noConfusion hy
        · intro _ y hy
          rw [h2] at hy
          exact Option.noConfusion hy
        · intro _ _
          rfl

/-- Every event of the end of the flow is one of its two play commands or the
verification. -/
theorem playAndVerify_events (debug : JsVal) (server : PlayServer)
    (replies : Nat → SessionsReply) (series episode : Item) (session : Session)
    (mediaSourceId : String) (playSessionId : Option String) (ev : FlowEvent)
    (hev : ev ∈ (playAndVerify debug server replies series episode session mediaSourceId
      playSessionId).events) :
    ev = .play (session.Id.getD "") (episode.Id.getD "") (firstPlayOpts mediaSourceId debug) ∨
    ev = .verify session.Id episode.Id ∨
    ev = .play (session.Id.getD "") (episode.Id.getD "")
      (retryPlayOpts mediaSourceId (playSessionId.getD "") debug) := by
  cases h1 : (firstPlay debug server episode session mediaSourceId).1.status <;>
    cases h2 : (firstVerify replies episode session).1.status <;>
    cases h3 : truthy playSessionId <;>
    cases h4 : (retryPlay debug server episode session mediaSourceId
      (playSessionId.getD "")).1.status <;>
    cases h5 : (secondVerify replies episode session).1.status <;>
    simp [playAndVerify, h1, h2, h3, h4, h5] at hev <;> tauto

/-- Every play command of the end of the flow is for the episode and the
session handed to it. -/
theorem playAndVerify_play (debug : JsVal) (server : PlayServer)
    (replies : Nat → SessionsReply) (series episode : Item) (session : Session)
    (mediaSourceId : String) (playSessionId : Option String)
    (sessionId itemId : String) (opts : Obj)
    (h : FlowEvent.play sessionId itemId opts ∈
      (playAndVerify debug server replies series episode session mediaSourceId
        playSessionId).events) :
    sessionId = session.Id.getD "" ∧ itemId = episode.Id.getD "" := by
  rcases playAndVerify_events debug server replies series episode session mediaSourceId
    playSessionId _ h with h | h | h
  · exact ⟨(FlowEvent.play.inj h).1, (FlowEvent.play.inj h).2.1⟩
  · exact FlowEvent.noConfusion h
  · exact ⟨(FlowEvent.play.inj h).1, (FlowEvent.play.inj h).2.1⟩

/-- A run of `PlaySeriesIntent` that sends a play command has resolved the
series, fetched a non-empty episode list, chosen an episode and resolved a
session: the command is for that episode on that session. -/
theorem PlaySeriesIntent_play (env : Env) (persistent : Persistent) (slots : Slots)
    (sessionId itemId : String) (opts : Obj)
    (hsent : FlowEvent.play sessionId itemId opts ∈
      (PlaySeriesIntent env persistent slots).events) :
    ∃ (series : Item) (items : List Item) (episode : Item) (session : Session)
      (persist : Option Bool),
      Items.ResolveSeriesByName env.seriesApi (slots.seriesname.getD "") = some series ∧
      Items.Episodes env.episodes = .success items ∧ items ≠ [] ∧
      selectEpisode series.Id items = some episode ∧
      resolveActiveDevice persistent none env.listReply env.findReply = .ok session persist ∧
      sessionId = session.Id.getD "" ∧ itemId = episode.Id.getD "" := by
  unfold PlaySeriesIntent at hsent
  by_cases hname : (!truthy slots.seriesname) = true
  · simp [hname] at hsent
  · simp only [hname, Bool.false_eq_true, if_false] at hsent
    cases hseries : Items.ResolveSeriesByName env.seriesApi (slots.seriesname.getD "") with
    | none => simp [hseries] at hsent
    | some series =>
      simp only [hseries] at hsent
      cases heps : Items.Episodes env.episodes with
      | failure code err => simp [heps] at hsent
      | success items =>
        simp only [heps] at hsent
        by_cases hempty : items.isEmpty = true
        · simp [hempty] at hsent
        · simp only [hempty, Bool.false_eq_true, if_false] at hsent
          have hne : items ≠ [] := by
            intro h
            rw [h] at hempty
            exact hempty rfl
          cases hsel : selectEpisode series.Id items with
          | none => simp [hsel] at hsent
          | some episode =>
            simp only [hsel] at hsent
            cases hdev : resolveActiveDevice persistent none env.listReply env.findReply with
            | notFound => simp [hdev] at hsent
            | multiple m => simp [hdev] at hsent
            | ambiguous m => simp [hdev] at hsent
            | ok session persist =>
              simp only [hdev] at hsent
              by_cases hactive : (!session.IsActive) = true
              · simp [hactive] at hsent
              · simp only [hactive, Bool.false_eq_true, if_false] at hsent
                by_cases hpb : (!(Items.PlaybackInfo env.playback episode.Id).status) = true
                · simp [hpb] at hsent
                · simp only [hpb, Bool.false_eq_true, if_false] at hsent
                  cases hms : (Items.PlaybackInfo env.playback episode.Id).mediaSources.head? with
                  | none => simp [hms] at hsent
                  | some mediaSource =>
                    simp only [hms] at hsent
                    by_cases hid : (!truthy mediaSource.Id) = true
                    · simp [hid] at hsent
                    · simp only [hid, Bool.false_eq_true, if_false] at hsent
                      have hp := playAndVerify_play _ _ _ _ _ _ _ _ _ _ _ hsent
                      exact ⟨series, items, episode, session, persist, rfl, rfl, hne, hsel,
                        rfl, hp.1, hp.2⟩

/-- C28: an episode that `PlaySeriesIntent` sends for playback is a member of
the non-empty episode list fetched for the resolved series, chosen from the
episodes that belong to the series (`SeriesId`, `ParentId` or `Series.Id`
equal to the id of the series) when there is one and from all episodes
otherwise, put in the order of season, then episode, with missing numbers
counting as 0 and episodes of equal numbers keeping their order: it is the
first episode flagged `NextUp`, else the first episode not flagged `Played`,
else the first episode. -/
theorem PlaySeriesIntent_episode (env : Env) (persistent : Persistent) (slots : Slots)
    (sessionId itemId : String) (opts : Obj)
    (hsent : FlowEvent.play sessionId itemId opts ∈
      (PlaySeriesIntent env persistent slots).events) :
    ∃ (series : Item) (items pool ordered : List Item) (episode : Item),
      Items.ResolveSeriesByName env.seriesApi (slots.seriesname.getD "") = some series ∧
      Items.Episodes env.episodes = .success items ∧ items ≠ [] ∧
      episode ∈ items ∧ itemId = episode.Id.getD "" ∧
      ((∃ x ∈ items, belongsToSeries series.Id x = true) →
        pool = items.filter (belongsToSeries series.Id)) ∧
      ((∀ x ∈ items, belongsToSeries series.Id x = false) → pool = items) ∧
      ordered.Perm pool ∧ ordered.Pairwise notAfter ∧
      (∀ e, ordered.filter (sameNumbers e) = pool.filter (sameNumbers e)) ∧
      (∀ x, ordered.find? flaggedNextUp = some x → episode = x) ∧
      (ordered.find? flaggedNextUp = none →
        ∀ x, ordered.find? (fun it => !flaggedPlayed it) = some x → episode = x) ∧
      (ordered.find? flaggedNextUp = none →
        ordered.find? (fun it => !flaggedPlayed it) = none → ordered.head? = some episode) := by
  obtain ⟨series, items, episode, session, persist, hseries, heps, hne, hsel, _, _, hitem⟩ :=
    PlaySeriesIntent_play env persistent slots sessionId itemId opts hsent
  obtain ⟨pool, ordered, chosen, hchosen, hmem, hrest⟩ := selectEpisode_spec series.Id items hne
  have heq : chosen = episode := by
    rw [hsel] at hchosen
    exact (Option.some.inj hchosen).symm
  subst heq
  exact ⟨series, items, pool, ordered, chosen, hseries, heps, hne, hmem, hitem, hrest⟩

/-- The three episodes come from the server in reverse order, the first one
is played: the second episode is sent, the first one in order that is not
played. -/
theorem PlaySeriesIntent_episode_witness :
    FlowEvent.play "s2" "ep2" (firstPlayOpts "ms1" .undefined) ∈
      (PlaySeriesIntent home (persisted "s2") showOnKitchen).events ∧
    ∃ (series : Item) (items pool ordered : List Item) (episode : Item),
      Items.ResolveSeriesByName home.seriesApi (showOnKitchen.seriesname.getD "") = some series ∧
      Items.Episodes home.episodes = .success items ∧ items ≠ [] ∧
      episode ∈ items ∧ "ep2" = episode.Id.getD "" ∧
      ((∃ x ∈ items, belongsToSeries series.Id x = true) →
        pool = items.filter (belongsToSeries series.Id)) ∧
      ((∀ x ∈ items, belongsToSeries series.Id x = false) → pool = items) ∧
      ordered.Perm pool ∧ ordered.Pairwise notAfter ∧
      (∀ e, ordered.filter (sameNumbers e) = pool.filter (sameNumbers e)) ∧
      (∀ x, ordered.find? flaggedNextUp = some x → episode = x) ∧
      (ordered.find? flaggedNextUp = none →
        ∀ x, ordered.find? (fun it => !flaggedPlayed it) = some x → episode = x) ∧
      (ordered.find? flaggedNextUp = none →
        ordered.find? (fun it => !flaggedPlayed it) = none → ordered.head? = some episode) :=
  ⟨by decide,
    PlaySeriesIntent_episode home (persisted "s2") showOnKitchen "s2" "ep2"
      (firstPlayOpts "ms1" .undefined) (by decide)⟩

/-! ## The next episode -/

/-- The element after the first one that satisfies `p`, with its place in the
list. -/
theorem findIndex_next {α : Type} (p : α → Bool) (l : List α) (i : Nat) (x : α)
    (hi : findIndex p l = some i) (hx : l[i + 1]? = some x) :
    ∃ pre cur post, l = pre ++ cur :: x :: post ∧ p cur = true ∧ ∀ y ∈ pre, p y = false := by
  induction l generalizing i with
  | nil => simp [findIndex] at hi
  | cons a l ih =>
    unfold findIndex at hi
    by_cases ha : p a = true
    · simp only [ha, if_true, Option.some.injEq] at hi
      subst hi
      cases l with
      | nil => simp at hx
      | cons b l =>
        simp only [Nat.zero_add, List.getElem?_cons_succ, List.getElem?_cons_zero,
          Option.some.injEq] at hx
        subst hx
        exact ⟨[], a, l, rfl, ha, fun y hy => absurd hy (List.not_mem_nil y)⟩
    · simp only [ha, Bool.false_eq_true, if_false, Option.map_eq_some'] at hi
      obtain ⟨j, hj, hji⟩ := hi
      subst hji
      rw [List.getElem?_cons_succ] at hx
      obtain ⟨pre, cur, post, hl, hp, hpre⟩ := ih j hj hx
      refine ⟨a :: pre, cur, post, by rw [hl]; rfl, hp, ?_⟩
      intro y hy
      rcases List.mem_cons.mp hy with h | h
      · rw [h]
        simpa using ha
      · exact hpre y h

/-- On episodes with numbers the comparator of `NextEpisodeIntent` decides the
order by season, then episode. -/
theorem nextOrder_le (a b : Item)
    (ha : a.ParentIndexNumber ≠ none ∧ a.IndexNumber ≠ none)
    (hb : b.ParentIndexNumber ≠ none ∧ b.IndexNumber ≠ none) :
    nextOrder a b ≤ 0 ↔ notAfter a b := by
  rw [← seriesOrder_le]
  obtain ⟨sa, hsa⟩ := Option.ne_none_iff_exists'.mp ha.1
  obtain ⟨ea, hea⟩ := Option.ne_none_iff_exists'.mp ha.2
  obtain ⟨sb, hsb⟩ := Option.ne_none_iff_exists'.mp hb.1
  obtain ⟨eb, heb⟩ := Option.ne_none_iff_exists'.mp hb.2
  have hcmp : nextOrder a b = seriesOrder a b := by
    unfold nextOrder seriesOrder seasonOf episodeOf numberDiff
    simp only [hsa, hea, hsb, heb, Option.getD_some]
    by_cases h : sa = sb
    · simp [h]
    · have h1 : (sa - sb != 0) = true := by
        simp only [bne_iff_ne, ne_eq]
        omega
      have h2 : (sa != sb) = true := by simpa using h
      simp [h1, h2]
  rw [hcmp]

/-- The choice of `NextEpisodeIntent` on an episode list with distinct ids and
numeric season and episode numbers, in terms of the episodes kept (`pool`)
and of their sorted list (`ordered`): the first episode flagged `NextUp`, else
the episode that follows the first one of the last-played id. -/
theorem nextEpisodeOf_spec (last : LastSeries) (items : List Item) (ep : Item)
    (hids : (items.map fun e => e.Id).Nodup)
    (hnum : ∀ e ∈ items, e.ParentIndexNumber ≠ none ∧ e.IndexNumber ≠ none)
    (hnext : nextEpisodeOf last items = some ep) :
    ∃ (pool ordered : List Item),
      ((∃ x ∈ items, belongsToSeries last.seriesId x = true) →
        pool = items.filter (belongsToSeries last.seriesId)) ∧
      ((∀ x ∈ items, belongsToSeries last.seriesId x = false) → pool = items) ∧
      ordered.Perm pool ∧ ordered.Pairwise notAfter ∧
      (∀ e, ordered.filter (sameNumbers e) = pool.filter (sameNumbers e)) ∧
      ep ∈ items ∧
      (∀ x, ordered.find? flaggedNextUp = some x → ep = x) ∧
      (ordered.find? flaggedNextUp = none →
        ∃ (pre post : List Item) (cur : Item), ordered = pre ++ cur :: ep :: post ∧
          cur.Id = last.lastEpisodeId ∧ (∀ x ∈ pre, x.Id ≠ last.lastEpisodeId) ∧
          ep.Id ≠ cur.Id ∧ notAfter cur ep ∧
          (sameNumbers cur ep = false → ¬ notAfter ep cur)) := by
  have hsub : ∀ x, x ∈ restrictToSeries last.seriesId items → x ∈ items :=
    restrictToSeries_subset last.seriesId items
  have hperm := jsSort_perm nextOrder (restrictToSeries last.seriesId items)
  have hin : ∀ x, x ∈ jsSort nextOrder (restrictToSeries last.seriesId items) → x ∈ items :=
    fun x hx => hsub x ((mem_jsSort _ x _).mp hx)
  have hsorted : (jsSort nextOrder (restrictToSeries last.seriesId items)).Pairwise notAfter :=
    jsSort_pairwise nextOrder notAfter _ (fun a _ b _ => notAfter_total a b)
      (fun a _ b _ c _ => notAfter_trans a b c)
      (fun a ha b hb => nextOrder_le a b (hnum a (hsub a ha)) (hnum b (hsub b hb)))
  have hstable : ∀ e, (jsSort nextOrder (restrictToSeries last.seriesId items)).filter
      (sameNumbers e) = (restrictToSeries last.seriesId items).filter (sameNumbers e) := by
    intro e
    apply jsSort_filter
    intro a ha b hb hpa hpb
    rw [nextOrder_le a b (hnum a (hsub a ha)) (hnum b (hsub b hb))]
    unfold sameNumbers at hpa hpb
    simp only [Bool.and_eq_true, beq_iff_eq] at hpa hpb
    unfold notAfter
    omega
  have hpool1 : (∃ x ∈ items, belongsToSeries last.seriesId x = true) →
      restrictToSeries last.seriesId items = items.filter (belongsToSeries last.seriesId) := by
    rintro ⟨x, hx, hb⟩
    unfold restrictToSeries
    have hmem : x ∈ items.filter (belongsToSeries last.seriesId) :=
      List.mem_filter.mpr ⟨hx, hb⟩
    have hnil : (items.filter (belongsToSeries last.seriesId)).isEmpty = false := by
      cases hf : items.filter (belongsToSeries last.seriesId) with
      | nil => rw [hf] at hmem; exact absurd hmem (List.not_mem_nil x)
      | cons y l => rfl
    simp [hnil]
  have hpool2 : (∀ x ∈ items, belongsToSeries last.seriesId x = false) →
      restrictToSeries last.seriesId items = items := by
    intro h
    unfold restrictToSeries
    have hnil : items.filter (belongsToSeries last.seriesId) = [] := by
      rw [List.filter_eq_nil_iff]
      intro a ha
      simp [h a ha]
    simp [hnil]
  have hpoolsub : (restrictToSeries last.seriesId items).Sublist items := by
    unfold restrictToSeries
    by_cases he : (items.filter (belongsToSeries last.seriesId)).isEmpty = true
    · simp [he]
    · simp only [he, Bool.false_eq_true, if_false]
      exact List.filter_sublist _
  have hnodup : ((jsSort nextOrder (restrictToSeries last.seriesId items)).map
      fun e => e.Id).Nodup :=
    ((hperm.map _).nodup_iff).mpr ((hpoolsub.map _).nodup hids)
  unfold nextEpisodeOf at hnext
  cases hflag : (jsSort nextOrder (restrictToSeries last.seriesId items)).find? flaggedNextUp with
  | some x =>
    simp only [hflag, Option.isNone_some, Bool.false_eq_true, if_false] at hnext
    have hx : x = ep := Option.some.inj hnext
    refine ⟨_, _, hpool1, hpool2, hperm, hsorted, hstable, ?_, ?_, ?_⟩
    · rw [← hx]
      exact hin x (List.mem_of_find?_eq_some hflag)
    · intro y hy
      rw [hflag] at hy
      rw [← hx]
      exact Option.some.inj hy
    · intro h
      rw [hflag] at h
      exact Option.noConfusion h
  | none =>
    simp only [hflag, Option.isNone_none, if_true] at hnext
    cases hidx : findIndex (fun it => it.Id == last.lastEpisodeId)
        (jsSort nextOrder (restrictToSeries last.seriesId items)) with
    | none => simp [hidx] at hnext
    | some i =>
      simp only [hidx] at hnext
      by_cases hlt : i < (jsSort nextOrder (restrictToSeries last.seriesId items)).length - 1
      · simp only [hlt, if_true] at hnext
        obtain ⟨pre, cur, post, hl, hcur, hpre⟩ := findIndex_next _ _ i ep hidx hnext
        have hcurid : cur.Id = last.lastEpisodeId := by simpa using hcur
        have hepmem : ep ∈ items := hin ep (by rw [hl]; simp)
        have hsorted2 := hsorted
        have hnodup2 := hnodup
        rw [hl] at hsorted2 hnodup2
        have hrel : notAfter cur ep := by
          rw [List.pairwise_append] at hsorted2
          exact (List.pairwise_cons.mp hsorted2.2.1).1 ep (List.mem_cons_self _ _)
        have hne : ep.Id ≠ cur.Id := by
          rw [List.map_append, List.map_cons, List.map_cons] at hnodup2
          have h2 := (List.nodup_append.mp hnodup2).2.1
          have h3 := (List.nodup_cons.mp h2).1
          intro h
          exact h3 (by rw [← h]; exact List.mem_cons_self _ _)
        refine ⟨_, _, hpool1, hpool2, hperm, hsorted, hstable, hepmem, ?_, ?_⟩
        · intro y hy
          rw [hflag] at hy
          exact Option.noConfusion hy
        · intro _
          refine ⟨pre, post, cur, hl, hcurid, ?_, hne, hrel, ?_⟩
          · intro y hy
            simpa using hpre y hy
          · intro hsame hback
            unfold sameNumbers at hsame
            unfold notAfter at hrel hback
            have : ¬ (seasonOf cur = seasonOf ep ∧ episodeOf cur = episodeOf ep) := by
              intro h
              simp [h.1, h.2] at hsame
            omega
      · simp [hlt] at hnext

/-- A run of `NextEpisodeIntent` that sends a play command has a last-series
context, a fetched episode list and a chosen episode: the command is for that
episode, which is recorded as the last episode when the command is accepted. -/
theorem NextEpisodeIntent_play (env : Env) (persistent : Persistent)
    (sessionId itemId : String) (opts : Obj)
    (hsent : FlowEvent.play sessionId itemId opts ∈ (NextEpisodeIntent env persistent).events) :
    ∃ (last : LastSeries) (items : List Item) (ep : Item),
      (loadVideo persistent).lastSeries = some last ∧
      Items.Episodes env.episodes = .success items ∧
      nextEpisodeOf last items = some ep ∧ itemId = ep.Id.getD "" ∧
      ∀ ls, (NextEpisodeIntent env persistent).lastSeries = some ls →
        ls.lastEpisodeId = ep.Id := by
  unfold NextEpisodeIntent at hsent ⊢
  cases hlast : (loadVideo persistent).lastSeries with
  | none => simp [hlast] at hsent
  | some last =>
    simp only [hlast] at hsent ⊢
    by_cases hid : (!truthy last.seriesId) = true
    · simp [hid] at hsent
    · simp only [hid, Bool.false_eq_true, if_false] at hsent ⊢
      cases heps : Items.Episodes env.episodes with
      | failure code err => simp [heps] at hsent
      | success items =>
        simp only [heps] at hsent ⊢
        by_cases hempty : items.isEmpty = true
        · simp [hempty] at hsent
        · simp only [hempty, Bool.false_eq_true, if_false] at hsent ⊢
          cases hsel : nextEpisodeOf last items with
          | none => simp [hsel] at hsent
          | some ep =>
            simp only [hsel] at hsent ⊢
            cases hdev : resolveActiveDevice persistent none env.listReply env.findReply with
            | notFound => simp [hdev] at hsent
            | multiple m => simp [hdev] at hsent
            | ambiguous m => simp [hdev] at hsent
            | ok session persist =>
              simp only [hdev] at hsent ⊢
              by_cases hactive : (!session.IsActive) = true
              · simp [hactive] at hsent
              · simp only [hactive, Bool.false_eq_true, if_false] at hsent ⊢
                refine ⟨last, items, ep, rfl, rfl, hsel, ?_, ?_⟩
                · cases hres : (Sessions.playNow env.debug.truthy env.server
                      (session.Id.getD "") (ep.Id.getD "") []).1.status <;>
                    simp [hres] at hsent <;> exact hsent.2.1
                · intro ls hls
                  cases hres : (Sessions.playNow env.debug.truthy env.server
                      (session.Id.getD "") (ep.Id.getD "") []).1.status <;>
                    simp [hres] at hls
                  rw [← hls]

/-- C30, as amended: for an episode list with distinct ids and numeric season
and episode numbers, an episode that `NextEpisodeIntent` sends for playback,
and then records as the last episode, is an episode of the list, chosen in
the list `ordered` of the episodes of the series (those whose `SeriesId`,
`ParentId` or `Series.Id` is the id of the series when there is one, else all
of them) sorted by season, then episode, episodes of equal numbers keeping
their order. When an episode of `ordered` is flagged `NextUp`, it is the first
such episode, wherever it lies. Otherwise the last-played episode occurs in
`ordered` and the episode sent is the one right after its first occurrence:
it has another id, it is not before the last-played episode in the order by
season, then episode, and it is strictly after it unless both have the same
numbers. -/
theorem NextEpisodeIntent_after (env : Env) (persistent : Persistent) (last : LastSeries)
    (items : List Item) (sessionId itemId : String) (opts : Obj)
    (hlast : (loadVideo persistent).lastSeries = some last)
    (heps : Items.Episodes env.episodes = .success items)
    (hids : (items.map fun e => e.Id).Nodup)
    (hnum : ∀ e ∈ items, e.ParentIndexNumber ≠ none ∧ e.IndexNumber ≠ none)
    (hsent : FlowEvent.play sessionId itemId opts ∈ (NextEpisodeIntent env persistent).events) :
    ∃ (pool ordered : List Item) (ep : Item),
      ((∃ x ∈ items, belongsToSeries last.seriesId x = true) →
        pool = items.filter (belongsToSeries last.seriesId)) ∧
      ((∀ x ∈ items, belongsToSeries last.seriesId x = false) → pool = items) ∧
      ordered.Perm pool ∧ ordered.Pairwise notAfter ∧
      (∀ e, ordered.filter (sameNumbers e) = pool.filter (sameNumbers e)) ∧
      ep ∈ items ∧ itemId = ep.Id.getD "" ∧
      (∀ ls, (NextEpisodeIntent env persistent).lastSeries = some ls →
        ls.lastEpisodeId = ep.Id) ∧
      (∀ x, ordered.find? flaggedNextUp = some x → ep = x) ∧
      (ordered.find? flaggedNextUp = none →
        ∃ (pre post : List Item) (cur : Item), ordered = pre ++ cur :: ep :: post ∧
          cur.Id = last.lastEpisodeId ∧ (∀ x ∈ pre, x.Id ≠ last.lastEpisodeId) ∧
          ep.Id ≠ cur.Id ∧ notAfter cur ep ∧
          (sameNumbers cur ep = false → ¬ notAfter ep cur)) := by
  obtain ⟨last2, items2, ep, hl2, he2, hnext, hitem, hrec⟩ :=
    NextEpisodeIntent_play env persistent sessionId itemId opts hsent
  have hle : last2 = last := by
    rw [hlast] at hl2
    exact (Option.some.inj hl2).symm
  have hie : items2 = items := by
    rw [heps] at he2
    exact (ApiResult.success.inj he2).symm
  subst hle
  subst hie
  obtain ⟨pool, ordered, hp1, hp2, hperm, hsorted, hstable, hmem, hflag, hsucc⟩ :=
    nextEpisodeOf_spec last2 items2 ep hids hnum hnext
  exact ⟨pool, ordered, ep, hp1, hp2, hperm, hsorted, hstable, hmem, hitem, hrec, hflag, hsucc⟩

/-- After the second episode of the first season the first episode of the
second season is sent. -/
theorem NextEpisodeIntent_after_witness :
    (NextEpisodeIntent home afterSecond).events = [.play "s2" "ep3" []] ∧
    ∃ (pool ordered : List Item) (ep : Item),
      ((∃ x ∈ [episode3, episode2, episode1], belongsToSeries (some "ser1") x = true) →
        pool = [episode3, episode2, episode1].filter (belongsToSeries (some "ser1"))) ∧
      ((∀ x ∈ [episode3, episode2, episode1], belongsToSeries (some "ser1") x = false) →
        pool = [episode3, episode2, episode1]) ∧
      ordered.Perm pool ∧ ordered.Pairwise notAfter ∧
      (∀ e, ordered.filter (sameNumbers e) = pool.filter (sameNumbers e)) ∧
      ep ∈ [episode3, episode2, episode1] ∧ "ep3" = ep.Id.getD "" ∧
      (∀ ls, (NextEpisodeIntent home afterSecond).lastSeries = some ls →
        ls.lastEpisodeId = ep.Id) ∧
      (∀ x, ordered.find? flaggedNextUp = some x → ep = x) ∧
      (ordered.find? flaggedNextUp = none →
        ∃ (pre post : List Item) (cur : Item), ordered = pre ++ cur :: ep :: post ∧
          cur.Id = some "ep2" ∧ (∀ x ∈ pre, x.Id ≠ some "ep2") ∧
          ep.Id ≠ cur.Id ∧ notAfter cur ep ∧
          (sameNumbers cur ep = false → ¬ notAfter ep cur)) :=
  ⟨by decide,
    NextEpisodeIntent_after home afterSecond
      { seriesId := some "ser1", seriesName := some "The Show", lastEpisodeId := some "ep2",
        seasonNumber := some 1, episodeNumber := some 2 }
      [episode3, episode2, episode1] "s2" "ep3" [] rfl rfl (by decide) (by decide)
      (by decide)⟩

/-- C30, as stated, fails in two cases. An episode flagged `NextUp` is
preferred wherever it lies: after the second episode, the first episode,
flagged, is sent and recorded. Two episodes may have the same numbers: after
the second episode its other version, of the same season and episode, is
sent. -/
theorem NextEpisodeIntent_after_counterexample :
    ([episode3, episode2, episode1NextUp].map fun e => e.Id).Nodup ∧
    (∀ e ∈ [episode3, episode2, episode1NextUp],
      e.ParentIndexNumber ≠ none ∧ e.IndexNumber ≠ none) ∧
    episode2.Id = (some "ep2" : Option String) ∧
    NextEpisodeIntent homeNextUp afterSecond =
      { speech := .playing, events := [.play "s2" "ep1" []],
        lastSeries := some
          { seriesId := some "ser1", seriesName := some "The Show", lastEpisodeId := some "ep1",
            seasonNumber := some 1, episodeNumber := some 1 } } ∧
    episodeOf episode1NextUp < episodeOf episode2 ∧
    seasonOf episode1NextUp = seasonOf episode2 ∧
    ([episode2, episode2b].map fun e => e.Id).Nodup ∧
    (NextEpisodeIntent homeTwoCuts afterSecond).events = [.play "s2" "ep2b" []] ∧
    sameNumbers episode2 episode2b = true := by
  decide

end JellyMusic
